import Mathlib

/-!
Camellia (RFC 3713): shallow embedding of `camellia.c` / `camellia.h`.

Machine integers are natural numbers; every place where the C code truncates
to a fixed width carries an explicit reduction (`u8`, `u32`, `u64`).
Memory reached through a pointer is passed in and handed back explicitly:
byte buffers are lists of naturals, the subkey table is a record.
-/

namespace Camellia

set_option autoImplicit false

/-! ## Fixed-width truncation -/

/-- Truncation to `uint8_t`. -/
def u8 (n : Nat) : Nat := n % 2 ^ 8

/-- Truncation to `uint32_t`. -/
def u32 (n : Nat) : Nat := n % 2 ^ 32

/-- Truncation to `uint64_t`. -/
def u64 (n : Nat) : Nat := n % 2 ^ 64

/-- Bitwise complement `~x` of a `uint64_t`. -/
def not64 (x : Nat) : Nat := u64 (2 ^ 64 - 1 - u64 x)

/-! ## Data model (`camellia.h`) -/

/-- The enum `CamelliaKeytype`; a C enum object can hold any integer value, so
the tag is a natural number and the seven enumerators are named constants. -/
abbrev CamelliaKeytype := Nat

/-- Enumerator `CamelliaUnknown=0`. -/
abbrev CamelliaUnknown : CamelliaKeytype := 0
/-- Enumerator `Camellia128Encrypt`. -/
abbrev Camellia128Encrypt : CamelliaKeytype := 1
/-- Enumerator `Camellia128Decrypt`. -/
abbrev Camellia128Decrypt : CamelliaKeytype := 2
/-- Enumerator `Camellia192Encrypt`. -/
abbrev Camellia192Encrypt : CamelliaKeytype := 3
/-- Enumerator `Camellia192Decrypt`. -/
abbrev Camellia192Decrypt : CamelliaKeytype := 4
/-- Enumerator `Camellia256Encrypt`. -/
abbrev Camellia256Encrypt : CamelliaKeytype := 5
/-- Enumerator `Camellia256Decrypt`. -/
abbrev Camellia256Decrypt : CamelliaKeytype := 6

/-- The struct `CamelliaData`: tag, whitening subkeys, round subkeys, FL subkeys. -/
structure CamelliaData where
  type : CamelliaKeytype
  kw1 : Nat
  kw2 : Nat
  kw3 : Nat
  kw4 : Nat
  k1 : Nat
  k2 : Nat
  k3 : Nat
  k4 : Nat
  k5 : Nat
  k6 : Nat
  k7 : Nat
  k8 : Nat
  k9 : Nat
  k10 : Nat
  k11 : Nat
  k12 : Nat
  k13 : Nat
  k14 : Nat
  k15 : Nat
  k16 : Nat
  k17 : Nat
  k18 : Nat
  k19 : Nat
  k20 : Nat
  k21 : Nat
  k22 : Nat
  k23 : Nat
  k24 : Nat
  ke1 : Nat
  ke2 : Nat
  ke3 : Nat
  ke4 : Nat
  ke5 : Nat
  ke6 : Nat
  deriving DecidableEq, Repr

/-- Every subkey field of the record is a `uint64_t` value. -/
def CamelliaData.WF (d : CamelliaData) : Prop :=
  (d.kw1 < 2 ^ 64 ∧ d.kw2 < 2 ^ 64 ∧ d.kw3 < 2 ^ 64 ∧ d.kw4 < 2 ^ 64) ∧
  (d.k1 < 2 ^ 64 ∧ d.k2 < 2 ^ 64 ∧ d.k3 < 2 ^ 64 ∧ d.k4 < 2 ^ 64 ∧
   d.k5 < 2 ^ 64 ∧ d.k6 < 2 ^ 64) ∧
  (d.k7 < 2 ^ 64 ∧ d.k8 < 2 ^ 64 ∧ d.k9 < 2 ^ 64 ∧ d.k10 < 2 ^ 64 ∧
   d.k11 < 2 ^ 64 ∧ d.k12 < 2 ^ 64) ∧
  (d.k13 < 2 ^ 64 ∧ d.k14 < 2 ^ 64 ∧ d.k15 < 2 ^ 64 ∧ d.k16 < 2 ^ 64 ∧
   d.k17 < 2 ^ 64 ∧ d.k18 < 2 ^ 64) ∧
  (d.k19 < 2 ^ 64 ∧ d.k20 < 2 ^ 64 ∧ d.k21 < 2 ^ 64 ∧ d.k22 < 2 ^ 64 ∧
   d.k23 < 2 ^ 64 ∧ d.k24 < 2 ^ 64) ∧
  (d.ke1 < 2 ^ 64 ∧ d.ke2 < 2 ^ 64 ∧ d.ke3 < 2 ^ 64 ∧ d.ke4 < 2 ^ 64 ∧
   d.ke5 < 2 ^ 64 ∧ d.ke6 < 2 ^ 64)

instance (d : CamelliaData) : Decidable d.WF := by
  unfold CamelliaData.WF; infer_instance

/-- The tag is one of the six supported kinds (the `case` labels of the entry
switch in `camelliaKeyswap` and `camelliaDatarand`). -/
def validType (t : CamelliaKeytype) : Prop :=
  t = Camellia128Encrypt ∨ t = Camellia128Decrypt ∨
  t = Camellia192Encrypt ∨ t = Camellia192Decrypt ∨
  t = Camellia256Encrypt ∨ t = Camellia256Decrypt

instance (t : CamelliaKeytype) : Decidable (validType t) := by
  unfold validType; infer_instance

/-- The tag is one of the three kinds accepted by the entry switch of
`camelliaKeysche`. -/
def encryptType (t : CamelliaKeytype) : Prop :=
  t = Camellia128Encrypt ∨ t = Camellia192Encrypt ∨ t = Camellia256Encrypt

instance (t : CamelliaKeytype) : Decidable (encryptType t) := by
  unfold encryptType; infer_instance

/-- A byte buffer holds `uint8_t` values only. -/
def isBytes (b : List Nat) : Prop := ∀ x ∈ b, x < 256

instance (b : List Nat) : Decidable (isBytes b) := by
  unfold isBytes; infer_instance

/-! ## Bit primitives -/

/-- Macro `n8u64`: the big-endian `uint64_t` stored in the eight bytes at
offset `off` of the buffer `p`. -/
def n8u64 (p : List Nat) (off : Nat) : Nat :=
  u64 (u8 (p.getD (off + 0) 0) <<< 56) |||
  u64 (u8 (p.getD (off + 1) 0) <<< 48) |||
  u64 (u8 (p.getD (off + 2) 0) <<< 40) |||
  u64 (u8 (p.getD (off + 3) 0) <<< 32) |||
  u64 (u8 (p.getD (off + 4) 0) <<< 24) |||
  u64 (u8 (p.getD (off + 5) 0) <<< 16) |||
  u64 (u8 (p.getD (off + 6) 0) <<<  8) |||
  u64 (u8 (p.getD (off + 7) 0) <<<  0)

/-- Macro `u8n64_set`: stores `v` big-endian into the eight bytes at offset
`off` of the buffer `p`. -/
def u8n64_set (v : Nat) (p : List Nat) (off : Nat) : List Nat :=
  let p := p.set (off + 0) (u8 (u64 v >>> 56))
  let p := p.set (off + 1) (u8 (u64 v >>> 48))
  let p := p.set (off + 2) (u8 (u64 v >>> 40))
  let p := p.set (off + 3) (u8 (u64 v >>> 32))
  let p := p.set (off + 4) (u8 (u64 v >>> 24))
  let p := p.set (off + 5) (u8 (u64 v >>> 16))
  let p := p.set (off + 6) (u8 (u64 v >>>  8))
  let p := p.set (off + 7) (u8 (u64 v >>>  0))
  p

/-- Function `r8`: 8-bit left rotation. The operands are promoted to `int`,
the result is truncated on assignment to `uint8_t`. -/
def r8 (dataIn bit : Nat) : Nat :=
  let bit1 := u8 (bit &&& 0x07)
  let bit2 := u8 (0x08 - bit1)
  if bit1 > 0 then u8 (dataIn <<< bit1 ||| dataIn >>> bit2) else dataIn

/-- Function `r32`: 32-bit left rotation. -/
def r32 (dataIn bit : Nat) : Nat :=
  let bit1 := u32 (bit &&& 0x1f)
  let bit2 := u32 (0x20 - bit1)
  if bit1 > 0 then u32 (dataIn <<< bit1) ||| dataIn >>> bit2 else dataIn

/-- Function `r128`: 128-bit left rotation of `dataIn[0] ‖ dataIn[1]`. The pair
returned is `(dataH, dataL)`; the source stores each half through its output
pointer when that pointer is not `NULL`. The `default` label of the switch
(`ASSERT(0)`) leaves both halves as they are. -/
def r128 (dataIn : Nat × Nat) (bit : Nat) : Nat × Nat :=
  let bit1 := u8 (bit &&& 0x3f)
  let bit2 := u8 (0x40 - bit1)
  let bit3 := u8 (bit &&& 0x40)
  let dataH := if bit1 > 0 then u64 (dataIn.1 <<< bit1) ||| dataIn.2 >>> bit2 else dataIn.1
  let dataL := if bit1 > 0 then u64 (dataIn.2 <<< bit1) ||| dataIn.1 >>> bit2 else dataIn.2
  if bit3 = 0x00 then (dataH, dataL)
  else if bit3 = 0x40 then (dataL, dataH)
  else (dataH, dataL)

/-! ## Constants of RFC 3713 (`camellia`) -/

/-- Constant `camellia.sigma1`. -/
def sigma1 : Nat := 0xa09e667f3bcc908b
/-- Constant `camellia.sigma2`. -/
def sigma2 : Nat := 0xb67ae8584caa73b2
/-- Constant `camellia.sigma3`. -/
def sigma3 : Nat := 0xc6ef372fe94f82be
/-- Constant `camellia.sigma4`. -/
def sigma4 : Nat := 0x54ff53a5f1d36f1c
/-- Constant `camellia.sigma5`. -/
def sigma5 : Nat := 0x10e527fade682d1d
/-- Constant `camellia.sigma6`. -/
def sigma6 : Nat := 0xb05688c2b3e6c1fd

/-- RFC 3713 substitution table `camellia.sbox1` (256 entries). -/
def sbox1 : List Nat :=
  [112, 130,  44, 236, 179,  39, 192, 229, 228, 133,  87,  53, 234,  12, 174,  65,
    35, 239, 107, 147,  69,  25, 165,  33, 237,  14,  79,  78,  29, 101, 146, 189,
   134, 184, 175, 143, 124, 235,  31, 206,  62,  48, 220,  95,  94, 197,  11,  26,
   166, 225,  57, 202, 213,  71,  93,  61, 217,   1,  90, 214,  81,  86, 108,  77,
   139,  13, 154, 102, 251, 204, 176,  45, 116,  18,  43,  32, 240, 177, 132, 153,
   223,  76, 203, 194,  52, 126, 118,   5, 109, 183, 169,  49, 209,  23,   4, 215,
    20,  88,  58,  97, 222,  27,  17,  28,  50,  15, 156,  22,  83,  24, 242,  34,
   254,  68, 207, 178, 195, 181, 122, 145,  36,   8, 232, 168,  96, 252, 105,  80,
   170, 208, 160, 125, 161, 137,  98, 151,  84,  91,  30, 149, 224, 255, 100, 210,
    16, 196,   0,  72, 163, 247, 117, 219, 138,   3, 230, 218,   9,  63, 221, 148,
   135,  92, 131,   2, 205,  74, 144,  51, 115, 103, 246, 243, 157, 127, 191, 226,
    82, 155, 216,  38, 200,  55, 198,  59, 129, 150, 111,  75,  19, 190,  99,  46,
   233, 121, 167, 140, 159, 110, 188, 142,  41, 245, 249, 182,  47, 253, 180,  89,
   120, 152,   6, 106, 231,  70, 113, 186, 212,  37, 171,  66, 136, 162, 141, 250,
   114,   7, 185,  85, 248, 238, 172,  10,  54,  73,  42, 104,  60,  56, 241, 164,
    64,  40, 211, 123, 187, 201,  67, 193,  21, 227, 173, 244, 119, 199, 128, 158]

/-- RFC 3713 substitution table `camellia.sbox2` (256 entries). -/
def sbox2 : List Nat :=
  [224,   5,  88, 217, 103,  78, 129, 203, 201,  11, 174, 106, 213,  24,  93, 130,
    70, 223, 214,  39, 138,  50,  75,  66, 219,  28, 158, 156,  58, 202,  37, 123,
    13, 113,  95,  31, 248, 215,  62, 157, 124,  96, 185, 190, 188, 139,  22,  52,
    77, 195, 114, 149, 171, 142, 186, 122, 179,   2, 180, 173, 162, 172, 216, 154,
    23,  26,  53, 204, 247, 153,  97,  90, 232,  36,  86,  64, 225,  99,   9,  51,
   191, 152, 151, 133, 104, 252, 236,  10, 218, 111,  83,  98, 163,  46,   8, 175,
    40, 176, 116, 194, 189,  54,  34,  56, 100,  30,  57,  44, 166,  48, 229,  68,
   253, 136, 159, 101, 135, 107, 244,  35,  72,  16, 209,  81, 192, 249, 210, 160,
    85, 161,  65, 250,  67,  19, 196,  47, 168, 182,  60,  43, 193, 255, 200, 165,
    32, 137,   0, 144,  71, 239, 234, 183,  21,   6, 205, 181,  18, 126, 187,  41,
    15, 184,   7,   4, 155, 148,  33, 102, 230, 206, 237, 231,  59, 254, 127, 197,
   164,  55, 177,  76, 145, 110, 141, 118,   3,  45, 222, 150,  38, 125, 198,  92,
   211, 242,  79,  25,  63, 220, 121,  29,  82, 235, 243, 109,  94, 251, 105, 178,
   240,  49,  12, 212, 207, 140, 226, 117, 169,  74,  87, 132,  17,  69,  27, 245,
   228,  14, 115, 170, 241, 221,  89,  20, 108, 146,  84, 208, 120, 112, 227,  73,
   128,  80, 167, 246, 119, 147, 134, 131,  42, 199,  91, 233, 238, 143,   1,  61]

/-- RFC 3713 substitution table `camellia.sbox3` (256 entries). -/
def sbox3 : List Nat :=
  [56,  65,  22, 118, 217, 147,  96, 242, 114, 194, 171, 154, 117,   6,  87, 160,
   145, 247, 181, 201, 162, 140, 210, 144, 246,   7, 167,  39, 142, 178,  73, 222,
    67,  92, 215, 199,  62, 245, 143, 103,  31,  24, 110, 175,  47, 226, 133,  13,
    83, 240, 156, 101, 234, 163, 174, 158, 236, 128,  45, 107, 168,  43,  54, 166,
   197, 134,  77,  51, 253, 102,  88, 150,  58,   9, 149,  16, 120, 216,  66, 204,
   239,  38, 229,  97,  26,  63,  59, 130, 182, 219, 212, 152, 232, 139,   2, 235,
    10,  44,  29, 176, 111, 141, 136,  14,  25, 135,  78,  11, 169,  12, 121,  17,
   127,  34, 231,  89, 225, 218,  61, 200,  18,   4, 116,  84,  48, 126, 180,  40,
    85, 104,  80, 190, 208, 196,  49, 203,  42, 173,  15, 202, 112, 255,  50, 105,
     8,  98,   0,  36, 209, 251, 186, 237,  69, 129, 115, 109, 132, 159, 238,  74,
   195,  46, 193,   1, 230,  37,  72, 153, 185, 179, 123, 249, 206, 191, 223, 113,
    41, 205, 108,  19, 100, 155,  99, 157, 192,  75, 183, 165, 137,  95, 177,  23,
   244, 188, 211,  70, 207,  55,  94,  71, 148, 250, 252,  91, 151, 254,  90, 172,
    60,  76,   3,  53, 243,  35, 184,  93, 106, 146, 213,  33,  68,  81, 198, 125,
    57, 131, 220, 170, 124, 119,  86,   5,  27, 164,  21,  52,  30,  28, 248,  82,
    32,  20, 233, 189, 221, 228, 161, 224, 138, 241, 214, 122, 187, 227,  64,  79]

/-- RFC 3713 substitution table `camellia.sbox4` (256 entries). -/
def sbox4 : List Nat :=
  [112,  44, 179, 192, 228,  87, 234, 174,  35, 107,  69, 165, 237,  79,  29, 146,
   134, 175, 124,  31,  62, 220,  94,  11, 166,  57, 213,  93, 217,  90,  81, 108,
   139, 154, 251, 176, 116,  43, 240, 132, 223, 203,  52, 118, 109, 169, 209,   4,
    20,  58, 222,  17,  50, 156,  83, 242, 254, 207, 195, 122,  36, 232,  96, 105,
   170, 160, 161,  98,  84,  30, 224, 100,  16,   0, 163, 117, 138, 230,   9, 221,
   135, 131, 205, 144, 115, 246, 157, 191,  82, 216, 200, 198, 129, 111,  19,  99,
   233, 167, 159, 188,  41, 249,  47, 180, 120,   6, 231, 113, 212, 171, 136, 141,
   114, 185, 248, 172,  54,  42,  60, 241,  64, 211, 187,  67,  21, 173, 119, 128,
   130, 236,  39, 229, 133,  53,  12,  65, 239, 147,  25,  33,  14,  78, 101, 189,
   184, 143, 235, 206,  48,  95, 197,  26, 225, 202,  71,  61,   1, 214,  86,  77,
    13, 102, 204,  45,  18,  32, 177, 153,  76, 194, 126,   5, 183,  49,  23, 215,
    88,  97,  27,  28,  15,  22,  24,  34,  68, 178, 181, 145,   8, 168, 252,  80,
   208, 125, 137, 151,  91, 149, 255, 210, 196,  72, 247, 219,   3, 218,  63, 148,
    92,   2,  74,  51, 103, 243, 127, 226, 155,  38,  55,  59, 150,  75, 190,  46,
   121, 140, 110, 142, 245, 182, 253,  89, 152, 106,  70, 186,  37,  66, 162, 250,
     7,  85, 238,  10,  73, 104,  56, 164,  40, 123, 201, 193, 227, 244, 199, 158]

/-! ## F, FL, FLINV -/

/-- Function `f`: the F-function of RFC 3713. -/
def f (fIn ke : Nat) : Nat :=
  let x := fIn ^^^ ke
  let t1 := sbox1.getD (u8 (x >>> 56)) 0
  let t2 := sbox2.getD (u8 (x >>> 48)) 0
  let t3 := sbox3.getD (u8 (x >>> 40)) 0
  let t4 := sbox4.getD (u8 (x >>> 32)) 0
  let t5 := sbox2.getD (u8 (x >>> 24)) 0
  let t6 := sbox3.getD (u8 (x >>> 16)) 0
  let t7 := sbox4.getD (u8 (x >>>  8)) 0
  let t8 := sbox1.getD (u8 (x >>>  0)) 0
  let y8 := t1 ^^^ t4 ^^^ t5 ^^^ t6 ^^^ t7
  let y4 := y8 ^^^ t1 ^^^ t2 ^^^ t3
  let y7 := y4 ^^^ t2 ^^^ t7 ^^^ t8
  let y3 := y7 ^^^ t1 ^^^ t2 ^^^ t4
  let y6 := y3 ^^^ t1 ^^^ t6 ^^^ t7
  let y2 := y6 ^^^ t1 ^^^ t3 ^^^ t4
  let y5 := y2 ^^^ t4 ^^^ t5 ^^^ t6
  let y1 := y5 ^^^ t2 ^^^ t3 ^^^ t4
  u64 (y1 <<< 56) ||| u64 (y2 <<< 48) |||
  u64 (y3 <<< 40) ||| u64 (y4 <<< 32) |||
  u64 (y5 <<< 24) ||| u64 (y6 <<< 16) |||
  u64 (y7 <<<  8) ||| u64 (y8 <<<  0)

/-- Function `fl`: the FL-function of RFC 3713. -/
def fl (flIn ke : Nat) : Nat :=
  let x1 := u32 (flIn >>> 32)
  let x2 := u32 flIn
  let k1 := u32 (ke >>> 32)
  let k2 := u32 ke
  let x2 := x2 ^^^ r32 (x1 &&& k1) 1
  let x1 := x1 ^^^ (x2 ||| k2)
  u64 (x1 <<< 32) ||| x2

/-- Function `flinv`: the FLINV-function of RFC 3713. -/
def flinv (flinvIn ke : Nat) : Nat :=
  let y1 := u32 (flinvIn >>> 32)
  let y2 := u32 flinvIn
  let k1 := u32 (ke >>> 32)
  let k2 := u32 ke
  let y1 := y1 ^^^ (y2 ||| k2)
  let y2 := y2 ^^^ r32 (y1 &&& k1) 1
  u64 (y1 <<< 32) ||| y2

/-! ## Public operations -/

/-- A returned status together with the subkey table left behind `data`. -/
structure KeyResult where
  status : Int
  data : CamelliaData
  deriving DecidableEq, Repr

/-- A returned status together with the subkey table behind `data` and the
output buffer behind `c` as they are when the call returns. -/
structure DatarandResult where
  status : Int
  data : CamelliaData
  c : List Nat
  deriving DecidableEq, Repr

/-- Function `camelliaKeysche`: key schedule. `k` is the key buffer, `data` the
table behind the output pointer on entry. The locals `kl`, `kr`, `kb` are
indeterminate on the paths that do not assign them (`default` labels with
`ASSERT(0)`, and `kb` for a 128-bit key); they read as zero here. -/
def camelliaKeysche (type : CamelliaKeytype) (k : List Nat) (data : CamelliaData) :
    KeyResult :=
  if ¬ (type = Camellia128Encrypt ∨ type = Camellia192Encrypt ∨
        type = Camellia256Encrypt) then
    ⟨-1, data⟩
  else
    let data := { data with type := type }
    let kl : Nat × Nat :=
      if data.type = Camellia128Encrypt then (n8u64 k 0, n8u64 k 8)
      else if data.type = Camellia192Encrypt then (n8u64 k 0, n8u64 k 8)
      else if data.type = Camellia256Encrypt then (n8u64 k 0, n8u64 k 8)
      else (0, 0)
    let kr : Nat × Nat :=
      if data.type = Camellia128Encrypt then (0, 0)
      else if data.type = Camellia192Encrypt then (n8u64 k 16, not64 (n8u64 k 16))
      else if data.type = Camellia256Encrypt then (n8u64 k 16, n8u64 k 24)
      else (0, 0)
    let d1 := kl.1 ^^^ kr.1
    let d2 := kl.2 ^^^ kr.2
    let d2 := d2 ^^^ f d1 sigma1
    let d1 := d1 ^^^ f d2 sigma2
    let d1 := d1 ^^^ kl.1
    let d2 := d2 ^^^ kl.2
    let d2 := d2 ^^^ f d1 sigma3
    let d1 := d1 ^^^ f d2 sigma4
    let ka : Nat × Nat := (d1, d2)
    let kb : Nat × Nat :=
      if data.type = Camellia128Encrypt then (0, 0)
      else if data.type = Camellia192Encrypt ∨ data.type = Camellia256Encrypt then
        let d1 := ka.1 ^^^ kr.1
        let d2 := ka.2 ^^^ kr.2
        let d2 := d2 ^^^ f d1 sigma5
        let d1 := d1 ^^^ f d2 sigma6
        (d1, d2)
      else (0, 0)
    let data : CamelliaData :=
      if data.type = Camellia128Encrypt then
        { data with
          kw1 := (r128 kl 0).1,   kw2 := (r128 kl 0).2,
          k1  := (r128 ka 0).1,   k2  := (r128 ka 0).2,
          k3  := (r128 kl 15).1,  k4  := (r128 kl 15).2,
          k5  := (r128 ka 15).1,  k6  := (r128 ka 15).2,
          ke1 := (r128 ka 30).1,  ke2 := (r128 ka 30).2,
          k7  := (r128 kl 45).1,  k8  := (r128 kl 45).2,
          k9  := (r128 ka 45).1,
          k10 := (r128 kl 60).2,
          k11 := (r128 ka 60).1,  k12 := (r128 ka 60).2,
          ke3 := (r128 kl 77).1,  ke4 := (r128 kl 77).2,
          k13 := (r128 kl 94).1,  k14 := (r128 kl 94).2,
          k15 := (r128 ka 94).1,  k16 := (r128 ka 94).2,
          k17 := (r128 kl 111).1, k18 := (r128 kl 111).2,
          kw3 := (r128 ka 111).1, kw4 := (r128 ka 111).2 }
      else if data.type = Camellia192Encrypt ∨ data.type = Camellia256Encrypt then
        { data with
          kw1 := (r128 kl 0).1,   kw2 := (r128 kl 0).2,
          k1  := (r128 kb 0).1,   k2  := (r128 kb 0).2,
          k3  := (r128 kr 15).1,  k4  := (r128 kr 15).2,
          k5  := (r128 ka 15).1,  k6  := (r128 ka 15).2,
          ke1 := (r128 kr 30).1,  ke2 := (r128 kr 30).2,
          k7  := (r128 kb 30).1,  k8  := (r128 kb 30).2,
          k9  := (r128 kl 45).1,  k10 := (r128 kl 45).2,
          k11 := (r128 ka 45).1,  k12 := (r128 ka 45).2,
          ke3 := (r128 kl 60).1,  ke4 := (r128 kl 60).2,
          k13 := (r128 kr 60).1,  k14 := (r128 kr 60).2,
          k15 := (r128 kb 60).1,  k16 := (r128 kb 60).2,
          k17 := (r128 kl 77).1,  k18 := (r128 kl 77).2,
          ke5 := (r128 ka 77).1,  ke6 := (r128 ka 77).2,
          k19 := (r128 kr 94).1,  k20 := (r128 kr 94).2,
          k21 := (r128 ka 94).1,  k22 := (r128 ka 94).2,
          k23 := (r128 kl 111).1, k24 := (r128 kl 111).2,
          kw3 := (r128 kb 111).1, kw4 := (r128 kb 111).2 }
      else data
    ⟨0, data⟩

/-- Function `camelliaKeyswap`: converts the table between its encryption and
decryption form. Each `s64` exchanges two fields; the exchanges of one switch
arm touch pairwise distinct fields and are written as one record update. The
last switch returns through `error` from its `default` label, with the
exchanges already done. -/
def camelliaKeyswap (data : CamelliaData) : KeyResult :=
  if ¬ (data.type = Camellia128Encrypt ∨ data.type = Camellia128Decrypt ∨
        data.type = Camellia192Encrypt ∨ data.type = Camellia192Decrypt ∨
        data.type = Camellia256Encrypt ∨ data.type = Camellia256Decrypt) then
    ⟨-1, data⟩
  else
    let data := { data with kw1 := data.kw3, kw3 := data.kw1 }
    let data := { data with kw2 := data.kw4, kw4 := data.kw2 }
    let data : CamelliaData :=
      if data.type = Camellia128Encrypt ∨ data.type = Camellia128Decrypt then
        { data with
          k1 := data.k18, k18 := data.k1,
          k2 := data.k17, k17 := data.k2,
          k3 := data.k16, k16 := data.k3,
          k4 := data.k15, k15 := data.k4,
          k5 := data.k14, k14 := data.k5,
          k6 := data.k13, k13 := data.k6,
          k7 := data.k12, k12 := data.k7,
          k8 := data.k11, k11 := data.k8,
          k9 := data.k10, k10 := data.k9,
          ke1 := data.ke4, ke4 := data.ke1,
          ke2 := data.ke3, ke3 := data.ke2 }
      else if data.type = Camellia192Encrypt ∨ data.type = Camellia192Decrypt ∨
              data.type = Camellia256Encrypt ∨ data.type = Camellia256Decrypt then
        { data with
          k1 := data.k24, k24 := data.k1,
          k2 := data.k23, k23 := data.k2,
          k3 := data.k22, k22 := data.k3,
          k4 := data.k21, k21 := data.k4,
          k5 := data.k20, k20 := data.k5,
          k6 := data.k19, k19 := data.k6,
          k7 := data.k18, k18 := data.k7,
          k8 := data.k17, k17 := data.k8,
          k9 := data.k16, k16 := data.k9,
          k10 := data.k15, k15 := data.k10,
          k11 := data.k14, k14 := data.k11,
          k12 := data.k13, k13 := data.k12,
          ke1 := data.ke6, ke6 := data.ke1,
          ke2 := data.ke5, ke5 := data.ke2,
          ke3 := data.ke4, ke4 := data.ke3 }
      else data
    if data.type = Camellia128Encrypt then ⟨0, { data with type := Camellia128Decrypt }⟩
    else if data.type = Camellia128Decrypt then ⟨0, { data with type := Camellia128Encrypt }⟩
    else if data.type = Camellia192Encrypt then ⟨0, { data with type := Camellia192Decrypt }⟩
    else if data.type = Camellia192Decrypt then ⟨0, { data with type := Camellia192Encrypt }⟩
    else if data.type = Camellia256Encrypt then ⟨0, { data with type := Camellia256Decrypt }⟩
    else if data.type = Camellia256Decrypt then ⟨0, { data with type := Camellia256Encrypt }⟩
    else ⟨-1, data⟩

/-- Function `camelliaDatarand`: data randomisation of one 16-byte block. `m`
is the input buffer, `data` the table (read only), `c` the output buffer on
entry. -/
def camelliaDatarand (m : List Nat) (data : CamelliaData) (c : List Nat) :
    DatarandResult :=
  if ¬ (data.type = Camellia128Encrypt ∨ data.type = Camellia128Decrypt ∨
        data.type = Camellia192Encrypt ∨ data.type = Camellia192Decrypt ∨
        data.type = Camellia256Encrypt ∨ data.type = Camellia256Decrypt) then
    ⟨-1, data, c⟩
  else
    let d1 := n8u64 m 0
    let d2 := n8u64 m 8
    let d1 := d1 ^^^ data.kw1
    let d2 := d2 ^^^ data.kw2
    let d2 := d2 ^^^ f d1 data.k1
    let d1 := d1 ^^^ f d2 data.k2
    let d2 := d2 ^^^ f d1 data.k3
    let d1 := d1 ^^^ f d2 data.k4
    let d2 := d2 ^^^ f d1 data.k5
    let d1 := d1 ^^^ f d2 data.k6
    let d1 := fl d1 data.ke1
    let d2 := flinv d2 data.ke2
    let d2 := d2 ^^^ f d1 data.k7
    let d1 := d1 ^^^ f d2 data.k8
    let d2 := d2 ^^^ f d1 data.k9
    let d1 := d1 ^^^ f d2 data.k10
    let d2 := d2 ^^^ f d1 data.k11
    let d1 := d1 ^^^ f d2 data.k12
    let d1 := fl d1 data.ke3
    let d2 := flinv d2 data.ke4
    let d2 := d2 ^^^ f d1 data.k13
    let d1 := d1 ^^^ f d2 data.k14
    let d2 := d2 ^^^ f d1 data.k15
    let d1 := d1 ^^^ f d2 data.k16
    let d2 := d2 ^^^ f d1 data.k17
    let d1 := d1 ^^^ f d2 data.k18
    let d : Nat × Nat :=
      if data.type = Camellia128Encrypt ∨ data.type = Camellia128Decrypt then (d1, d2)
      else if data.type = Camellia192Encrypt ∨ data.type = Camellia192Decrypt ∨
              data.type = Camellia256Encrypt ∨ data.type = Camellia256Decrypt then
        let d1 := fl d1 data.ke5
        let d2 := flinv d2 data.ke6
        let d2 := d2 ^^^ f d1 data.k19
        let d1 := d1 ^^^ f d2 data.k20
        let d2 := d2 ^^^ f d1 data.k21
        let d1 := d1 ^^^ f d2 data.k22
        let d2 := d2 ^^^ f d1 data.k23
        let d1 := d1 ^^^ f d2 data.k24
        (d1, d2)
      else (d1, d2)
    let d2 := d.2 ^^^ data.kw3
    let d1 := d.1 ^^^ data.kw4
    let c := u8n64_set d2 c 0
    let c := u8n64_set d1 c 8
    ⟨0, data, c⟩

/-! ## Test data of `example.c` -/

/-- Array `k128` of `example.c`. -/
def k128 : List Nat :=
  [0x01, 0x23, 0x45, 0x67, 0x89, 0xab, 0xcd, 0xef,
   0xfe, 0xdc, 0xba, 0x98, 0x76, 0x54, 0x32, 0x10]

/-- Array `k192` of `example.c`. -/
def k192 : List Nat :=
  [0x01, 0x23, 0x45, 0x67, 0x89, 0xab, 0xcd, 0xef,
   0xfe, 0xdc, 0xba, 0x98, 0x76, 0x54, 0x32, 0x10,
   0x00, 0x11, 0x22, 0x33, 0x44, 0x55, 0x66, 0x77]

/-- Array `k256` of `example.c`. -/
def k256 : List Nat :=
  [0x01, 0x23, 0x45, 0x67, 0x89, 0xab, 0xcd, 0xef,
   0xfe, 0xdc, 0xba, 0x98, 0x76, 0x54, 0x32, 0x10,
   0x00, 0x11, 0x22, 0x33, 0x44, 0x55, 0x66, 0x77,
   0x88, 0x99, 0xaa, 0xbb, 0xcc, 0xdd, 0xee, 0xff]

/-- Array `p` of `example.c`: the plaintext of all three cases. -/
def p : List Nat :=
  [0x01, 0x23, 0x45, 0x67, 0x89, 0xab, 0xcd, 0xef,
   0xfe, 0xdc, 0xba, 0x98, 0x76, 0x54, 0x32, 0x10]

/-- Array `c128` of `example.c`. -/
def c128 : List Nat :=
  [0x67, 0x67, 0x31, 0x38, 0x54, 0x96, 0x69, 0x73,
   0x08, 0x57, 0x06, 0x56, 0x48, 0xea, 0xbe, 0x43]

/-- Array `c192` of `example.c`. -/
def c192 : List Nat :=
  [0xb4, 0x99, 0x34, 0x01, 0xb3, 0xe9, 0x96, 0xf8,
   0x4e, 0xe5, 0xce, 0xe7, 0xd7, 0x9b, 0x09, 0xb9]

/-- Array `c256` of `example.c`. -/
def c256 : List Nat :=
  [0x9a, 0xcc, 0x23, 0x7d, 0xff, 0x16, 0xd7, 0x6c,
   0x20, 0xef, 0x7c, 0x91, 0x9e, 0x3a, 0x75, 0x09]

/-- A zero-initialised `CamelliaData` (tag `CamelliaUnknown`). -/
def zeroData : CamelliaData :=
  ⟨0, 0, 0, 0, 0, 0, 0, 0, 0, 0, 0, 0, 0, 0, 0, 0, 0, 0, 0, 0, 0, 0, 0, 0, 0, 0, 0, 0, 0,
   0, 0, 0, 0, 0, 0⟩

/-- The buffer `v` of `example.c` after `memset(v, 0, sizeof(v))`. -/
def zeroBlock : List Nat := List.replicate 16 0

/-! ## Auxiliary decomposition of the round pipeline (used in proofs only) -/

/-- Two consecutive Feistel steps `d2 ^= f(d1, kA); d1 ^= f(d2, kB)` on the
pair `(d1, d2)`. -/
def feistel2 (kA kB : Nat) (d : Nat × Nat) : Nat × Nat :=
  (d.1 ^^^ f (d.2 ^^^ f d.1 kA) kB, d.2 ^^^ f d.1 kA)

/-- Six consecutive Feistel steps. -/
def rounds6 (a b c d e g : Nat) (x : Nat × Nat) : Nat × Nat :=
  feistel2 e g (feistel2 c d (feistel2 a b x))

/-- One FL layer `d1 = fl(d1, kA); d2 = flinv(d2, kB)`. -/
def flLayer (kA kB : Nat) (d : Nat × Nat) : Nat × Nat :=
  (fl d.1 kA, flinv d.2 kB)

/-- Rounds 1..18 with the two FL layers between them. -/
def crypt18 (data : CamelliaData) (x : Nat × Nat) : Nat × Nat :=
  rounds6 data.k13 data.k14 data.k15 data.k16 data.k17 data.k18
    (flLayer data.ke3 data.ke4
      (rounds6 data.k7 data.k8 data.k9 data.k10 data.k11 data.k12
        (flLayer data.ke1 data.ke2
          (rounds6 data.k1 data.k2 data.k3 data.k4 data.k5 data.k6 x))))

/-- The third FL layer and rounds 19..24. -/
def tail24 (data : CamelliaData) (x : Nat × Nat) : Nat × Nat :=
  rounds6 data.k19 data.k20 data.k21 data.k22 data.k23 data.k24
    (flLayer data.ke5 data.ke6 x)

/-- The two 64-bit words `(d2, d1)` that `camelliaDatarand` stores at `c + 0`
and `c + 8`, as a function of the two words read from `m`. -/
def datarandWords (data : CamelliaData) (x : Nat × Nat) : Nat × Nat :=
  let y := crypt18 data (x.1 ^^^ data.kw1, x.2 ^^^ data.kw2)
  let d : Nat × Nat :=
    if data.type = Camellia128Encrypt ∨ data.type = Camellia128Decrypt then y
    else if data.type = Camellia192Encrypt ∨ data.type = Camellia192Decrypt ∨
            data.type = Camellia256Encrypt ∨ data.type = Camellia256Decrypt then
      tail24 data y
    else y
  (d.2 ^^^ data.kw3, d.1 ^^^ data.kw4)

/-- The eight bytes `u8n64_set` stores for the value `v`. -/
def bytesOf (v : Nat) : List Nat :=
  [u8 (u64 v >>> 56), u8 (u64 v >>> 48), u8 (u64 v >>> 40), u8 (u64 v >>> 32),
   u8 (u64 v >>> 24), u8 (u64 v >>> 16), u8 (u64 v >>> 8), u8 (u64 v >>> 0)]

/-- Two tables hold the same subkeys in the slots a 128-bit table uses:
`kw1..kw4`, `k1..k18`, `ke1..ke4`. -/
def agree128 (a b : CamelliaData) : Prop :=
  (a.kw1 = b.kw1 ∧ a.kw2 = b.kw2 ∧ a.kw3 = b.kw3 ∧ a.kw4 = b.kw4) ∧
  (a.k1 = b.k1 ∧ a.k2 = b.k2 ∧ a.k3 = b.k3 ∧ a.k4 = b.k4 ∧ a.k5 = b.k5 ∧ a.k6 = b.k6) ∧
  (a.k7 = b.k7 ∧ a.k8 = b.k8 ∧ a.k9 = b.k9 ∧ a.k10 = b.k10 ∧ a.k11 = b.k11 ∧
   a.k12 = b.k12) ∧
  (a.k13 = b.k13 ∧ a.k14 = b.k14 ∧ a.k15 = b.k15 ∧ a.k16 = b.k16 ∧ a.k17 = b.k17 ∧
   a.k18 = b.k18) ∧
  (a.ke1 = b.ke1 ∧ a.ke2 = b.ke2 ∧ a.ke3 = b.ke3 ∧ a.ke4 = b.ke4)

/-- Two tables hold the same values in the slots a 128-bit table does not use:
`k19..k24`, `ke5`, `ke6`. -/
def agreeUnused128 (a b : CamelliaData) : Prop :=
  a.k19 = b.k19 ∧ a.k20 = b.k20 ∧ a.k21 = b.k21 ∧ a.k22 = b.k22 ∧ a.k23 = b.k23 ∧
  a.k24 = b.k24 ∧ a.ke5 = b.ke5 ∧ a.ke6 = b.ke6

/-- A table tagged `Camellia128Encrypt` whose 34 subkey slots hold the values
`1..34`. -/
def sampleData : CamelliaData :=
  ⟨Camellia128Encrypt, 1, 2, 3, 4, 5, 6, 7, 8, 9, 10, 11, 12, 13, 14, 15, 16, 17, 18, 19,
   20, 21, 22, 23, 24, 25, 26, 27, 28, 29, 30, 31, 32, 33, 34⟩

/-- Both words of a pair are `uint64_t` values. -/
def inU64 (d : Nat × Nat) : Prop := d.1 < 2 ^ 64 ∧ d.2 < 2 ^ 64

/-! ## Reference definitions in the words of the specification -/

/-- Function `r128` seen through its two output pointers: `none` is a `NULL`
pointer, `some v` a pointer to a cell that holds `v`. A non-`NULL` pointer
receives its half (`*dataOutH = dataH`, `*dataOutL = dataL`), a `NULL`
pointer is skipped. -/
def r128Out (dataIn : Nat × Nat) (bit : Nat) (dataOutH dataOutL : Option Nat) :
    Option Nat × Option Nat :=
  (dataOutH.map (fun _ => (r128 dataIn bit).1), dataOutL.map (fun _ => (r128 dataIn bit).2))

/-- Left rotation of a 128-bit integer by `n` bits (`0 ≤ n < 128`): the left
shift cut to 128 bits, with the bits that fell off brought in at the bottom. -/
def rotl128 (x n : Nat) : Nat := (x <<< n) % 2 ^ 128 ||| x >>> (128 - n)

/-- Upper 64 bits of a 128-bit integer. -/
def upper64 (x : Nat) : Nat := x / 2 ^ 64

/-- Lower 64 bits of a 128-bit integer. -/
def lower64 (x : Nat) : Nat := x % 2 ^ 64

/-- Big-endian value of a byte string, first byte most significant. -/
def packBE (bytes : List Nat) : Nat := bytes.foldl (fun acc b => acc * 256 + b) 0

/-- Specification 4.4 step 1: `KL`, the first 16 key bytes as a 128-bit
big-endian integer. -/
def specKL (k : List Nat) : Nat := packBE (k.take 16)

/-- Specification 4.4 step 1: `KR`. 128-bit key: zero. 192-bit key: the upper
half is the next 8 key bytes, the lower half its bitwise complement. 256-bit
key: the next 16 key bytes. -/
def specKR (type : CamelliaKeytype) (k : List Nat) : Nat :=
  if type = Camellia128Encrypt then 0
  else if type = Camellia192Encrypt then
    packBE ((k.drop 16).take 8) * 2 ^ 64 + (2 ^ 64 - 1 - packBE ((k.drop 16).take 8))
  else packBE ((k.drop 16).take 16)

/-- Specification 4.4 step 2: `KA` from `KL` and `KR`, with `F` and the
constants Σ1..Σ4. -/
def specKA (KL KR : Nat) : Nat :=
  let D1 := upper64 KL ^^^ upper64 KR
  let D2 := lower64 KL ^^^ lower64 KR
  let D2 := D2 ^^^ f D1 sigma1
  let D1 := D1 ^^^ f D2 sigma2
  let D1 := D1 ^^^ upper64 KL
  let D2 := D2 ^^^ lower64 KL
  let D2 := D2 ^^^ f D1 sigma3
  let D1 := D1 ^^^ f D2 sigma4
  D1 * 2 ^ 64 + D2

/-- Specification 4.4 step 2: `KB` from `KA` and `KR`, with `F` and the
constants Σ5, Σ6 (192- and 256-bit keys only). -/
def specKB (KA KR : Nat) : Nat :=
  let D1 := upper64 KA ^^^ upper64 KR
  let D2 := lower64 KA ^^^ lower64 KR
  let D2 := D2 ^^^ f D1 sigma5
  let D1 := D1 ^^^ f D2 sigma6
  D1 * 2 ^ 64 + D2

/-- Specification 4.4 step 3, 128-bit key: the subkeys as halves of rotations
of `KL` and `KA`, written into the record `d` with tag `Camellia128Encrypt`;
the slots `k19..k24`, `ke5`, `ke6` are not part of the table. -/
def specTable128 (KL KA : Nat) (d : CamelliaData) : CamelliaData :=
  { d with
    type := Camellia128Encrypt,
    kw1 := upper64 (rotl128 KL 0),   kw2 := lower64 (rotl128 KL 0),
    k1  := upper64 (rotl128 KA 0),   k2  := lower64 (rotl128 KA 0),
    k3  := upper64 (rotl128 KL 15),  k4  := lower64 (rotl128 KL 15),
    k5  := upper64 (rotl128 KA 15),  k6  := lower64 (rotl128 KA 15),
    ke1 := upper64 (rotl128 KA 30),  ke2 := lower64 (rotl128 KA 30),
    k7  := upper64 (rotl128 KL 45),  k8  := lower64 (rotl128 KL 45),
    k9  := upper64 (rotl128 KA 45),
    k10 := lower64 (rotl128 KL 60),
    k11 := upper64 (rotl128 KA 60),  k12 := lower64 (rotl128 KA 60),
    ke3 := upper64 (rotl128 KL 77),  ke4 := lower64 (rotl128 KL 77),
    k13 := upper64 (rotl128 KL 94),  k14 := lower64 (rotl128 KL 94),
    k15 := upper64 (rotl128 KA 94),  k16 := lower64 (rotl128 KA 94),
    k17 := upper64 (rotl128 KL 111), k18 := lower64 (rotl128 KL 111),
    kw3 := upper64 (rotl128 KA 111), kw4 := lower64 (rotl128 KA 111) }

/-- Specification 4.4 step 3, 192- and 256-bit keys: the subkeys as halves of
rotations of `KL`, `KR`, `KA`, `KB`, with the tag `type`. -/
def specTable256 (type : CamelliaKeytype) (KL KR KA KB : Nat) : CamelliaData :=
  { type := type,
    kw1 := upper64 (rotl128 KL 0),   kw2 := lower64 (rotl128 KL 0),
    k1  := upper64 (rotl128 KB 0),   k2  := lower64 (rotl128 KB 0),
    k3  := upper64 (rotl128 KR 15),  k4  := lower64 (rotl128 KR 15),
    k5  := upper64 (rotl128 KA 15),  k6  := lower64 (rotl128 KA 15),
    ke1 := upper64 (rotl128 KR 30),  ke2 := lower64 (rotl128 KR 30),
    k7  := upper64 (rotl128 KB 30),  k8  := lower64 (rotl128 KB 30),
    k9  := upper64 (rotl128 KL 45),  k10 := lower64 (rotl128 KL 45),
    k11 := upper64 (rotl128 KA 45),  k12 := lower64 (rotl128 KA 45),
    ke3 := upper64 (rotl128 KL 60),  ke4 := lower64 (rotl128 KL 60),
    k13 := upper64 (rotl128 KR 60),  k14 := lower64 (rotl128 KR 60),
    k15 := upper64 (rotl128 KB 60),  k16 := lower64 (rotl128 KB 60),
    k17 := upper64 (rotl128 KL 77),  k18 := lower64 (rotl128 KL 77),
    ke5 := upper64 (rotl128 KA 77),  ke6 := lower64 (rotl128 KA 77),
    k19 := upper64 (rotl128 KR 94),  k20 := lower64 (rotl128 KR 94),
    k21 := upper64 (rotl128 KA 94),  k22 := lower64 (rotl128 KA 94),
    k23 := upper64 (rotl128 KL 111), k24 := lower64 (rotl128 KL 111),
    kw3 := upper64 (rotl128 KB 111), kw4 := lower64 (rotl128 KB 111) }

/-- Specification 4.4, the whole schedule for an Encrypt kind and a key of the
matching length, written into the record `d`. -/
def specSchedule (type : CamelliaKeytype) (k : List Nat) (d : CamelliaData) :
    CamelliaData :=
  if type = Camellia128Encrypt then
    specTable128 (specKL k) (specKA (specKL k) (specKR type k)) d
  else
    specTable256 type (specKL k) (specKR type k) (specKA (specKL k) (specKR type k))
      (specKB (specKA (specKL k) (specKR type k)) (specKR type k))

/-- Key length in bytes that goes with an Encrypt kind (16, 24, 32). -/
def keyLength (type : CamelliaKeytype) : Nat :=
  if type = Camellia128Encrypt then 16
  else if type = Camellia192Encrypt then 24
  else 32

/-- Specification 4.3, `F` in matrix form: the bytes `x1..x8` of `fIn XOR ke`
(`x1` most significant) go through the S-boxes, the eight output bytes are the
fixed XOR combinations of RFC 3713, packed big-endian. -/
def fMatrix (fIn ke : Nat) : Nat :=
  let x := fIn ^^^ ke
  let x1 := x / 2 ^ 56 % 256
  let x2 := x / 2 ^ 48 % 256
  let x3 := x / 2 ^ 40 % 256
  let x4 := x / 2 ^ 32 % 256
  let x5 := x / 2 ^ 24 % 256
  let x6 := x / 2 ^ 16 % 256
  let x7 := x / 2 ^ 8 % 256
  let x8 := x % 256
  let t1 := sbox1.getD x1 0
  let t2 := sbox2.getD x2 0
  let t3 := sbox3.getD x3 0
  let t4 := sbox4.getD x4 0
  let t5 := sbox2.getD x5 0
  let t6 := sbox3.getD x6 0
  let t7 := sbox4.getD x7 0
  let t8 := sbox1.getD x8 0
  let y1 := t1 ^^^ t3 ^^^ t4 ^^^ t6 ^^^ t7 ^^^ t8
  let y2 := t1 ^^^ t2 ^^^ t4 ^^^ t5 ^^^ t7 ^^^ t8
  let y3 := t1 ^^^ t2 ^^^ t3 ^^^ t5 ^^^ t6 ^^^ t8
  let y4 := t2 ^^^ t3 ^^^ t4 ^^^ t5 ^^^ t6 ^^^ t7
  let y5 := t1 ^^^ t2 ^^^ t6 ^^^ t7 ^^^ t8
  let y6 := t2 ^^^ t3 ^^^ t5 ^^^ t7 ^^^ t8
  let y7 := t3 ^^^ t4 ^^^ t5 ^^^ t6 ^^^ t8
  let y8 := t1 ^^^ t4 ^^^ t5 ^^^ t6 ^^^ t7
  packBE [y1, y2, y3, y4, y5, y6, y7, y8]

/-- The 128-bit integer `hi * 2^64 + lo` held by a pair of 64-bit words. -/
def join128 (w : Nat × Nat) : Nat := w.1 * 2 ^ 64 + w.2

/-- The pair `ka` computed by `camelliaKeysche` from `kl` and `kr` (lines
328..336 of `camellia.c`). -/
def kaPair (kl kr : Nat × Nat) : Nat × Nat :=
  let d1 := kl.1 ^^^ kr.1
  let d2 := kl.2 ^^^ kr.2
  let d2 := d2 ^^^ f d1 sigma1
  let d1 := d1 ^^^ f d2 sigma2
  let d1 := d1 ^^^ kl.1
  let d2 := d2 ^^^ kl.2
  let d2 := d2 ^^^ f d1 sigma3
  let d1 := d1 ^^^ f d2 sigma4
  (d1, d2)

/-- The pair `kb` computed by `camelliaKeysche` from `ka` and `kr` (lines
342..346 of `camellia.c`). -/
def kbPair (ka kr : Nat × Nat) : Nat × Nat :=
  let d1 := ka.1 ^^^ kr.1
  let d2 := ka.2 ^^^ kr.2
  let d2 := d2 ^^^ f d1 sigma5
  let d1 := d1 ^^^ f d2 sigma6
  (d1, d2)

/-- The pairs `kl` and `kr` that `camelliaKeysche` reads from the key buffer for
an Encrypt kind. -/
def klPair (k : List Nat) : Nat × Nat := (n8u64 k 0, n8u64 k 8)

/-- The pair `kr` that `camelliaKeysche` forms for an Encrypt kind. -/
def krPair (type : CamelliaKeytype) (k : List Nat) : Nat × Nat :=
  if type = Camellia128Encrypt then (0, 0)
  else if type = Camellia192Encrypt then (n8u64 k 16, not64 (n8u64 k 16))
  else (n8u64 k 16, n8u64 k 24)

/-- The 8 bytes `K[16..23]` of a key, each bitwise complemented. -/
def complTail (K : List Nat) : List Nat := ((K.drop 16).take 8).map (fun b => 255 - b)

/-- The two tags have the same key size and opposite directions. -/
def oppositeDirection (a b : CamelliaKeytype) : Prop :=
  (a = Camellia128Encrypt ∧ b = Camellia128Decrypt) ∨
  (a = Camellia128Decrypt ∧ b = Camellia128Encrypt) ∨
  (a = Camellia192Encrypt ∧ b = Camellia192Decrypt) ∨
  (a = Camellia192Decrypt ∧ b = Camellia192Encrypt) ∨
  (a = Camellia256Encrypt ∧ b = Camellia256Decrypt) ∨
  (a = Camellia256Decrypt ∧ b = Camellia256Encrypt)

instance (a b : CamelliaKeytype) : Decidable (oppositeDirection a b) := by
  unfold oppositeDirection; infer_instance

/-- Two tables hold the same subkeys in all 34 slots. -/
def sameSubkeys (a b : CamelliaData) : Prop :=
  agree128 a b ∧ agreeUnused128 a b

instance (a b : CamelliaData) : Decidable (agree128 a b) := by
  unfold agree128; infer_instance

instance (a b : CamelliaData) : Decidable (agreeUnused128 a b) := by
  unfold agreeUnused128; infer_instance

instance (a b : CamelliaData) : Decidable (sameSubkeys a b) := by
  unfold sameSubkeys; infer_instance

/-- A table tagged `Camellia256Encrypt` whose 34 subkey slots hold the values
`101..134`. -/
def sampleData256 : CamelliaData :=
  ⟨Camellia256Encrypt, 101, 102, 103, 104, 105, 106, 107, 108, 109, 110, 111, 112, 113,
   114, 115, 116, 117, 118, 119, 120, 121, 122, 123, 124, 125, 126, 127, 128, 129, 130,
   131, 132, 133, 134⟩

/-! ## Shift counts and the branches marked `never reached` -/

/-- Local `bit1` of `r32` (line 100): `bit & 0x1f`. -/
def r32Bit1 (bit : Nat) : Nat := u32 (bit &&& 0x1f)

/-- Local `bit2` of `r32` (line 100): `0x20 - bit1`. -/
def r32Bit2 (bit : Nat) : Nat := u32 (0x20 - r32Bit1 bit)

/-- Local `bit1` of `r128` (line 117): `bit & 0x3f`. -/
def r128Bit1 (bit : Nat) : Nat := u8 (bit &&& 0x3f)

/-- Local `bit2` of `r128` (line 117): `0x40 - bit1`. -/
def r128Bit2 (bit : Nat) : Nat := u8 (0x40 - r128Bit1 bit)

/-- Local `bit3` of `r128` (line 117), the selector of its switch: `bit & 0x40`. -/
def r128Bit3 (bit : Nat) : Nat := u8 (bit &&& 0x40)

/-- The two kinds of branch the source does not expect to take: a `default`
label with `ASSERT(0)`, and the `default: goto error` of the last switch of
`camelliaKeyswap`, which comes after the subkeys have been exchanged. -/
inductive Unreached where
  | assert0
  | lateError
  deriving DecidableEq, Repr

/-- Function `r128` with the `default` label of its switch made explicit: taking
it is the error `assert0`. -/
def r128Checked (dataIn : Nat × Nat) (bit : Nat) : Except Unreached (Nat × Nat) :=
  let bit1 := u8 (bit &&& 0x3f)
  let bit2 := u8 (0x40 - bit1)
  let bit3 := u8 (bit &&& 0x40)
  let dataH := if bit1 > 0 then u64 (dataIn.1 <<< bit1) ||| dataIn.2 >>> bit2 else dataIn.1
  let dataL := if bit1 > 0 then u64 (dataIn.2 <<< bit1) ||| dataIn.1 >>> bit2 else dataIn.2
  if bit3 = 0x00 then Except.ok (dataH, dataL)
  else if bit3 = 0x40 then Except.ok (dataL, dataH)
  else Except.error Unreached.assert0

/-- First later switch of `camelliaKeysche` (line 312): the pairs `kl` and `kr`
read from the key buffer; its `default` label is the error `assert0`. -/
def keyscheKlKrChecked (type : CamelliaKeytype) (k : List Nat) :
    Except Unreached ((Nat × Nat) × (Nat × Nat)) :=
  if type = Camellia128Encrypt then
    Except.ok ((n8u64 k 0, n8u64 k 8), (0, 0))
  else if type = Camellia192Encrypt then
    Except.ok ((n8u64 k 0, n8u64 k 8), (n8u64 k 16, not64 (n8u64 k 16)))
  else if type = Camellia256Encrypt then
    Except.ok ((n8u64 k 0, n8u64 k 8), (n8u64 k 16, n8u64 k 24))
  else Except.error Unreached.assert0

/-- Second later switch of `camelliaKeysche` (line 337): the pair `kb`, not
assigned for a 128-bit key (read as zero); its `default` label is the error
`assert0`. -/
def keyscheKbChecked (type : CamelliaKeytype) (ka kr : Nat × Nat) :
    Except Unreached (Nat × Nat) :=
  if type = Camellia128Encrypt then Except.ok (0, 0)
  else if type = Camellia192Encrypt ∨ type = Camellia256Encrypt then
    Except.ok (kbPair ka kr)
  else Except.error Unreached.assert0

/-- The `Camellia128Encrypt` arm of the third later switch of `camelliaKeysche`
(lines 353..366), every call of `r128` going through `r128Checked`; `r1..r14`
are the pairs `(dataH, dataL)` of the fourteen calls in source order, each
stored through the output pointers of its call. -/
def keyscheStore128Checked (kl ka : Nat × Nat) (data : CamelliaData) :
    Except Unreached CamelliaData :=
  (r128Checked kl 0).bind fun r1 =>
  (r128Checked ka 0).bind fun r2 =>
  (r128Checked kl 15).bind fun r3 =>
  (r128Checked ka 15).bind fun r4 =>
  (r128Checked ka 30).bind fun r5 =>
  (r128Checked kl 45).bind fun r6 =>
  (r128Checked ka 45).bind fun r7 =>
  (r128Checked kl 60).bind fun r8 =>
  (r128Checked ka 60).bind fun r9 =>
  (r128Checked kl 77).bind fun r10 =>
  (r128Checked kl 94).bind fun r11 =>
  (r128Checked ka 94).bind fun r12 =>
  (r128Checked kl 111).bind fun r13 =>
  (r128Checked ka 111).bind fun r14 =>
  Except.ok
    { data with
      kw1 := r1.1, kw2 := r1.2,
      k1 := r2.1, k2 := r2.2,
      k3 := r3.1, k4 := r3.2,
      k5 := r4.1, k6 := r4.2,
      ke1 := r5.1, ke2 := r5.2,
      k7 := r6.1, k8 := r6.2,
      k9 := r7.1,
      k10 := r8.2,
      k11 := r9.1, k12 := r9.2,
      ke3 := r10.1, ke4 := r10.2,
      k13 := r11.1, k14 := r11.2,
      k15 := r12.1, k16 := r12.2,
      k17 := r13.1, k18 := r13.2,
      kw3 := r14.1, kw4 := r14.2 }

/-- The `Camellia192Encrypt` / `Camellia256Encrypt` arm of the third later
switch of `camelliaKeysche` (lines 370..386), every call of `r128` going through
`r128Checked`; `r1..r17` are the pairs `(dataH, dataL)` of the seventeen calls
in source order, each stored through the output pointers of its call. -/
def keyscheStore256Checked (kl kr ka kb : Nat × Nat) (data : CamelliaData) :
    Except Unreached CamelliaData :=
  (r128Checked kl 0).bind fun r1 =>
  (r128Checked kb 0).bind fun r2 =>
  (r128Checked kr 15).bind fun r3 =>
  (r128Checked ka 15).bind fun r4 =>
  (r128Checked kr 30).bind fun r5 =>
  (r128Checked kb 30).bind fun r6 =>
  (r128Checked kl 45).bind fun r7 =>
  (r128Checked ka 45).bind fun r8 =>
  (r128Checked kl 60).bind fun r9 =>
  (r128Checked kr 60).bind fun r10 =>
  (r128Checked kb 60).bind fun r11 =>
  (r128Checked kl 77).bind fun r12 =>
  (r128Checked ka 77).bind fun r13 =>
  (r128Checked kr 94).bind fun r14 =>
  (r128Checked ka 94).bind fun r15 =>
  (r128Checked kl 111).bind fun r16 =>
  (r128Checked kb 111).bind fun r17 =>
  Except.ok
    { data with
      kw1 := r1.1, kw2 := r1.2,
      k1 := r2.1, k2 := r2.2,
      k3 := r3.1, k4 := r3.2,
      k5 := r4.1, k6 := r4.2,
      ke1 := r5.1, ke2 := r5.2,
      k7 := r6.1, k8 := r6.2,
      k9 := r7.1, k10 := r7.2,
      k11 := r8.1, k12 := r8.2,
      ke3 := r9.1, ke4 := r9.2,
      k13 := r10.1, k14 := r10.2,
      k15 := r11.1, k16 := r11.2,
      k17 := r12.1, k18 := r12.2,
      ke5 := r13.1, ke6 := r13.2,
      k19 := r14.1, k20 := r14.2,
      k21 := r15.1, k22 := r15.2,
      k23 := r16.1, k24 := r16.2,
      kw3 := r17.1, kw4 := r17.2 }

/-- Function `camelliaKeysche` with the `default` labels of its three later
switches made explicit (each is the error `assert0`), and with every call of
`r128` going through `r128Checked`. -/
def camelliaKeyscheChecked (type : CamelliaKeytype) (k : List Nat) (data : CamelliaData) :
    Except Unreached KeyResult :=
  if ¬ (type = Camellia128Encrypt ∨ type = Camellia192Encrypt ∨
        type = Camellia256Encrypt) then
    Except.ok ⟨-1, data⟩
  else
    let data := { data with type := type }
    (keyscheKlKrChecked data.type k).bind fun klkr =>
    (keyscheKbChecked data.type (kaPair klkr.1 klkr.2) klkr.2).bind fun kb =>
    (if data.type = Camellia128Encrypt then
       keyscheStore128Checked klkr.1 (kaPair klkr.1 klkr.2) data
     else if data.type = Camellia192Encrypt ∨ data.type = Camellia256Encrypt then
       keyscheStore256Checked klkr.1 klkr.2 (kaPair klkr.1 klkr.2) kb data
     else Except.error Unreached.assert0).bind fun data =>
    Except.ok ⟨0, data⟩

/-- Function `camelliaKeyswap` with the `default` label of its second switch
(`ASSERT(0)`) as the error `assert0` and the `default: goto error` of its last
switch as the error `lateError`. -/
def camelliaKeyswapChecked (data : CamelliaData) : Except Unreached KeyResult :=
  if ¬ (data.type = Camellia128Encrypt ∨ data.type = Camellia128Decrypt ∨
        data.type = Camellia192Encrypt ∨ data.type = Camellia192Decrypt ∨
        data.type = Camellia256Encrypt ∨ data.type = Camellia256Decrypt) then
    Except.ok ⟨-1, data⟩
  else do
    let data := { data with kw1 := data.kw3, kw3 := data.kw1 }
    let data := { data with kw2 := data.kw4, kw4 := data.kw2 }
    let data : CamelliaData ←
      if data.type = Camellia128Encrypt ∨ data.type = Camellia128Decrypt then
        pure { data with
          k1 := data.k18, k18 := data.k1,
          k2 := data.k17, k17 := data.k2,
          k3 := data.k16, k16 := data.k3,
          k4 := data.k15, k15 := data.k4,
          k5 := data.k14, k14 := data.k5,
          k6 := data.k13, k13 := data.k6,
          k7 := data.k12, k12 := data.k7,
          k8 := data.k11, k11 := data.k8,
          k9 := data.k10, k10 := data.k9,
          ke1 := data.ke4, ke4 := data.ke1,
          ke2 := data.ke3, ke3 := data.ke2 }
      else if data.type = Camellia192Encrypt ∨ data.type = Camellia192Decrypt ∨
              data.type = Camellia256Encrypt ∨ data.type = Camellia256Decrypt then
        pure { data with
          k1 := data.k24, k24 := data.k1,
          k2 := data.k23, k23 := data.k2,
          k3 := data.k22, k22 := data.k3,
          k4 := data.k21, k21 := data.k4,
          k5 := data.k20, k20 := data.k5,
          k6 := data.k19, k19 := data.k6,
          k7 := data.k18, k18 := data.k7,
          k8 := data.k17, k17 := data.k8,
          k9 := data.k16, k16 := data.k9,
          k10 := data.k15, k15 := data.k10,
          k11 := data.k14, k14 := data.k11,
          k12 := data.k13, k13 := data.k12,
          ke1 := data.ke6, ke6 := data.ke1,
          ke2 := data.ke5, ke5 := data.ke2,
          ke3 := data.ke4, ke4 := data.ke3 }
      else Except.error Unreached.assert0
    if data.type = Camellia128Encrypt then
      pure ⟨0, { data with type := Camellia128Decrypt }⟩
    else if data.type = Camellia128Decrypt then
      pure ⟨0, { data with type := Camellia128Encrypt }⟩
    else if data.type = Camellia192Encrypt then
      pure ⟨0, { data with type := Camellia192Decrypt }⟩
    else if data.type = Camellia192Decrypt then
      pure ⟨0, { data with type := Camellia192Encrypt }⟩
    else if data.type = Camellia256Encrypt then
      pure ⟨0, { data with type := Camellia256Decrypt }⟩
    else if data.type = Camellia256Decrypt then
      pure ⟨0, { data with type := Camellia256Encrypt }⟩
    else Except.error Unreached.lateError

/-- Function `camelliaDatarand` with the `default` label of its second switch
(`ASSERT(0)`) as the error `assert0`. -/
def camelliaDatarandChecked (m : List Nat) (data : CamelliaData) (c : List Nat) :
    Except Unreached DatarandResult :=
  if ¬ (data.type = Camellia128Encrypt ∨ data.type = Camellia128Decrypt ∨
        data.type = Camellia192Encrypt ∨ data.type = Camellia192Decrypt ∨
        data.type = Camellia256Encrypt ∨ data.type = Camellia256Decrypt) then
    Except.ok ⟨-1, data, c⟩
  else do
    let d1 := n8u64 m 0
    let d2 := n8u64 m 8
    let d1 := d1 ^^^ data.kw1
    let d2 := d2 ^^^ data.kw2
    let d2 := d2 ^^^ f d1 data.k1
    let d1 := d1 ^^^ f d2 data.k2
    let d2 := d2 ^^^ f d1 data.k3
    let d1 := d1 ^^^ f d2 data.k4
    let d2 := d2 ^^^ f d1 data.k5
    let d1 := d1 ^^^ f d2 data.k6
    let d1 := fl d1 data.ke1
    let d2 := flinv d2 data.ke2
    let d2 := d2 ^^^ f d1 data.k7
    let d1 := d1 ^^^ f d2 data.k8
    let d2 := d2 ^^^ f d1 data.k9
    let d1 := d1 ^^^ f d2 data.k10
    let d2 := d2 ^^^ f d1 data.k11
    let d1 := d1 ^^^ f d2 data.k12
    let d1 := fl d1 data.ke3
    let d2 := flinv d2 data.ke4
    let d2 := d2 ^^^ f d1 data.k13
    let d1 := d1 ^^^ f d2 data.k14
    let d2 := d2 ^^^ f d1 data.k15
    let d1 := d1 ^^^ f d2 data.k16
    let d2 := d2 ^^^ f d1 data.k17
    let d1 := d1 ^^^ f d2 data.k18
    let d : Nat × Nat ←
      if data.type = Camellia128Encrypt ∨ data.type = Camellia128Decrypt then
        pure (d1, d2)
      else if data.type = Camellia192Encrypt ∨ data.type = Camellia192Decrypt ∨
              data.type = Camellia256Encrypt ∨ data.type = Camellia256Decrypt then
        let d1 := fl d1 data.ke5
        let d2 := flinv d2 data.ke6
        let d2 := d2 ^^^ f d1 data.k19
        let d1 := d1 ^^^ f d2 data.k20
        let d2 := d2 ^^^ f d1 data.k21
        let d1 := d1 ^^^ f d2 data.k22
        let d2 := d2 ^^^ f d1 data.k23
        let d1 := d1 ^^^ f d2 data.k24
        pure (d1, d2)
      else Except.error Unreached.assert0
    let d2 := d.2 ^^^ data.kw3
    let d1 := d.1 ^^^ data.kw4
    let c := u8n64_set d2 c 0
    let c := u8n64_set d1 c 8
    pure ⟨0, data, c⟩

/-! ## Lemmas -/

theorem camelliaDatarand_eq (m : List Nat) (data : CamelliaData) (c : List Nat) :
    camelliaDatarand m data c =
      if ¬ validType data.type then ⟨-1, data, c⟩
      else ⟨0, data,
        u8n64_set (datarandWords data (n8u64 m 0, n8u64 m 8)).2
          (u8n64_set (datarandWords data (n8u64 m 0, n8u64 m 8)).1 c 0) 8⟩ := by
  unfold camelliaDatarand validType
  split
  · rfl
  · simp only [datarandWords, crypt18, tail24, rounds6, flLayer, feistel2]

theorem camelliaKeyswap_status (data : CamelliaData) :
    (camelliaKeyswap data).status = if validType data.type then 0 else -1 := by
  by_cases h : validType data.type
  · rw [if_pos h]
    unfold validType at h
    rcases h with h | h | h | h | h | h <;> simp [camelliaKeyswap, h]
  · rw [if_neg h]
    unfold validType at h
    simp [camelliaKeyswap, h]

theorem camelliaKeyswap_invalid (data : CamelliaData) (h : ¬ validType data.type) :
    camelliaKeyswap data = ⟨-1, data⟩ := by
  unfold validType at h
  simp [camelliaKeyswap, h]

theorem camelliaKeyswap_twice (data : CamelliaData) (h : validType data.type) :
    (camelliaKeyswap (camelliaKeyswap data).data).data = data := by
  obtain ⟨t, kw1, kw2, kw3, kw4, k1, k2, k3, k4, k5, k6, k7, k8, k9, k10, k11, k12,
    k13, k14, k15, k16, k17, k18, k19, k20, k21, k22, k23, k24,
    ke1, ke2, ke3, ke4, ke5, ke6⟩ := data
  unfold validType at h
  simp only at h
  rcases h with h | h | h | h | h | h <;> subst h <;> simp [camelliaKeyswap]
theorem camelliaKeysche_invalid (type : CamelliaKeytype) (k : List Nat)
    (data : CamelliaData) (h : ¬ encryptType type) :
    camelliaKeysche type k data = ⟨-1, data⟩ := by
  unfold encryptType at h
  simp [camelliaKeysche, h]

theorem camelliaKeysche_status (type : CamelliaKeytype) (k : List Nat)
    (data : CamelliaData) :
    (camelliaKeysche type k data).status = if encryptType type then 0 else -1 := by
  by_cases h : encryptType type
  · rw [if_pos h]
    unfold encryptType at h
    rcases h with h | h | h <;> simp [camelliaKeysche, h]
  · rw [if_neg h, camelliaKeysche_invalid type k data h]

theorem camelliaKeysche_type (type : CamelliaKeytype) (k : List Nat)
    (data : CamelliaData) (h : encryptType type) :
    (camelliaKeysche type k data).data.type = type := by
  unfold encryptType at h
  rcases h with h | h | h <;> simp [camelliaKeysche, h]

theorem encryptType_valid (t : CamelliaKeytype) (h : encryptType t) : validType t := by
  unfold encryptType at h
  rcases h with h | h | h <;> subst h <;> decide

/-! ## Claims -/

/-- C6: `camelliaKeyswap` is an involution. For every table with a valid tag the
first and the second call both return 0 and the table after the second call
equals the original in every field; in particular this holds for the table
`camelliaKeysche` produces for an Encrypt kind, whatever the key and the prior
content of the record. -/
theorem keyswap_involution :
    (∀ data : CamelliaData, validType data.type →
      (camelliaKeyswap data).status = 0 ∧
      (camelliaKeyswap (camelliaKeyswap data).data).status = 0 ∧
      (camelliaKeyswap (camelliaKeyswap data).data).data = data) ∧
    (∀ (type : CamelliaKeytype) (k : List Nat) (data0 : CamelliaData),
      encryptType type →
      (camelliaKeysche type k data0).status = 0 ∧
      (camelliaKeyswap (camelliaKeysche type k data0).data).status = 0 ∧
      (camelliaKeyswap (camelliaKeyswap (camelliaKeysche type k data0).data).data).status
        = 0 ∧
      (camelliaKeyswap (camelliaKeyswap (camelliaKeysche type k data0).data).data).data
        = (camelliaKeysche type k data0).data) := by
  have key : ∀ data : CamelliaData, validType data.type →
      (camelliaKeyswap data).status = 0 ∧
      (camelliaKeyswap (camelliaKeyswap data).data).status = 0 ∧
      (camelliaKeyswap (camelliaKeyswap data).data).data = data := by
    intro data h
    have h1 : (camelliaKeyswap data).status = 0 := by
      rw [camelliaKeyswap_status, if_pos h]
    have h2 : validType (camelliaKeyswap data).data.type := by
      unfold validType at h ⊢
      rcases h with h | h | h | h | h | h <;> simp [camelliaKeyswap, h]
    exact ⟨h1, by rw [camelliaKeyswap_status, if_pos h2], camelliaKeyswap_twice data h⟩
  refine ⟨key, ?_⟩
  intro type k data0 h
  have hv : validType (camelliaKeysche type k data0).data.type := by
    rw [camelliaKeysche_type type k data0 h]
    exact encryptType_valid type h
  refine ⟨?_, key _ hv⟩
  rw [camelliaKeysche_status, if_pos h]

/-- Witness for C6 on the sample table and on the schedule of the 128-bit test
key. -/
theorem keyswap_involution_witness :
    (validType sampleData.type ∧
      (camelliaKeyswap (camelliaKeyswap sampleData).data).data = sampleData) ∧
    (encryptType Camellia128Encrypt ∧
      (camelliaKeyswap (camelliaKeyswap
        (camelliaKeysche Camellia128Encrypt k128 zeroData).data).data).data
        = (camelliaKeysche Camellia128Encrypt k128 zeroData).data) :=
  ⟨⟨by decide, (keyswap_involution.1 sampleData (by decide)).2.2⟩,
   ⟨by decide,
    (keyswap_involution.2 Camellia128Encrypt k128 zeroData (by decide)).2.2.2⟩⟩

/-- C7: `camelliaKeysche` returns a negative status exactly when the requested
type is not one of `Camellia128Encrypt`, `Camellia192Encrypt`,
`Camellia256Encrypt` (so `CamelliaUnknown` and the three Decrypt kinds are
rejected) and returns 0 otherwise; when it fails the record behind `data` is
unchanged in every field, the tag included. -/
theorem keysche_status_iff (type : CamelliaKeytype) (k : List Nat) (data : CamelliaData) :
    ((camelliaKeysche type k data).status < 0 ↔ ¬ encryptType type) ∧
    (encryptType type → (camelliaKeysche type k data).status = 0) ∧
    ((camelliaKeysche type k data).status < 0 → (camelliaKeysche type k data).data = data) ∧
    (camelliaKeysche CamelliaUnknown k data).status < 0 ∧
    (camelliaKeysche Camellia128Decrypt k data).status < 0 ∧
    (camelliaKeysche Camellia192Decrypt k data).status < 0 ∧
    (camelliaKeysche Camellia256Decrypt k data).status < 0 := by
  have hs := camelliaKeysche_status type k data
  refine ⟨?_, ?_, ?_, ?_, ?_, ?_, ?_⟩
  · by_cases h : encryptType type
    · rw [hs, if_pos h]; simp [h]
    · rw [hs, if_neg h]; simp [h]
  · intro h; rw [hs, if_pos h]
  · intro hneg
    by_cases h : encryptType type
    · rw [hs, if_pos h] at hneg; exact absurd hneg (by decide)
    · rw [camelliaKeysche_invalid type k data h]
  · rw [camelliaKeysche_status, if_neg (by decide)]; decide
  · rw [camelliaKeysche_status, if_neg (by decide)]; decide
  · rw [camelliaKeysche_status, if_neg (by decide)]; decide
  · rw [camelliaKeysche_status, if_neg (by decide)]; decide

/-- Witness for C7: a Decrypt kind leaves the sample table as it was, an Encrypt
kind returns 0. -/
theorem keysche_status_iff_witness :
    ((camelliaKeysche Camellia128Decrypt k128 sampleData).status < 0 ∧
      (camelliaKeysche Camellia128Decrypt k128 sampleData).data = sampleData) ∧
    (encryptType Camellia192Encrypt ∧
      (camelliaKeysche Camellia192Encrypt k192 sampleData).status = 0) :=
  ⟨⟨(keysche_status_iff Camellia128Decrypt k128 sampleData).2.2.2.2.1,
    (keysche_status_iff Camellia128Decrypt k128 sampleData).2.2.1
      (keysche_status_iff Camellia128Decrypt k128 sampleData).2.2.2.2.1⟩,
   ⟨by decide, (keysche_status_iff Camellia192Encrypt k192 sampleData).2.1 (by decide)⟩⟩

/-- C8: `camelliaDatarand` returns a negative status exactly when the tag of the
table is not one of the six valid kinds (in particular for `CamelliaUnknown`,
the tag of a zero-initialised table) and returns 0 otherwise; when it fails the
output buffer `c` is left as it was, and the table is never modified. -/
theorem datarand_status_iff (m : List Nat) (data : CamelliaData) (c : List Nat) :
    ((camelliaDatarand m data c).status < 0 ↔ ¬ validType data.type) ∧
    (validType data.type → (camelliaDatarand m data c).status = 0) ∧
    ((camelliaDatarand m data c).status < 0 → (camelliaDatarand m data c).c = c) ∧
    (camelliaDatarand m data c).data = data ∧
    (data.type = CamelliaUnknown → (camelliaDatarand m data c).status < 0) ∧
    (camelliaDatarand m zeroData c).status < 0 := by
  rw [camelliaDatarand_eq]
  refine ⟨?_, ?_, ?_, ?_, ?_, ?_⟩
  · by_cases h : validType data.type <;> simp [h]
  · intro h; simp [h]
  · by_cases h : validType data.type <;> simp [h]
  · by_cases h : validType data.type <;> simp [h]
  · intro h0
    have h : ¬ validType data.type := by rw [h0]; decide
    simp [h]
  · rw [camelliaDatarand_eq, if_pos (by decide)]
    exact (by decide : (-1 : Int) < 0)

/-- Witness for C8: the zero-initialised table is rejected and the output buffer
keeps its content; the sample table is accepted. -/
theorem datarand_status_iff_witness :
    ((camelliaDatarand p zeroData c128).status < 0 ∧
      (camelliaDatarand p zeroData c128).c = c128) ∧
    (validType sampleData.type ∧ (camelliaDatarand p sampleData zeroBlock).status = 0) :=
  ⟨⟨(datarand_status_iff p zeroData c128).2.2.2.2.2,
    (datarand_status_iff p zeroData c128).2.2.1
      (datarand_status_iff p zeroData c128).2.2.2.2.2⟩,
   ⟨by decide, (datarand_status_iff p sampleData zeroBlock).2.1 (by decide)⟩⟩

/-- C9: `camelliaKeyswap` returns a negative status exactly when the tag of the
table is not one of the six valid kinds (in particular for `CamelliaUnknown`)
and returns 0 otherwise; whenever it returns a negative status the table is
unchanged in every field. -/
theorem keyswap_status_iff (data : CamelliaData) :
    ((camelliaKeyswap data).status < 0 ↔ ¬ validType data.type) ∧
    (validType data.type → (camelliaKeyswap data).status = 0) ∧
    ((camelliaKeyswap data).status < 0 → (camelliaKeyswap data).data = data) ∧
    (data.type = CamelliaUnknown → (camelliaKeyswap data).status < 0) := by
  have hs := camelliaKeyswap_status data
  refine ⟨?_, ?_, ?_, ?_⟩
  · by_cases h : validType data.type
    · rw [hs, if_pos h]; simp [h]
    · rw [hs, if_neg h]; simp [h]
  · intro h; rw [hs, if_pos h]
  · intro hneg
    by_cases h : validType data.type
    · rw [hs, if_pos h] at hneg; exact absurd hneg (by decide)
    · rw [camelliaKeyswap_invalid data h]
  · intro h0
    have h : ¬ validType data.type := by rw [h0]; decide
    rw [hs, if_neg h]; decide

/-- Witness for C9: the zero-initialised table is rejected and left as it was,
the sample table is accepted. -/
theorem keyswap_status_iff_witness :
    (zeroData.type = CamelliaUnknown ∧ (camelliaKeyswap zeroData).status < 0 ∧
      (camelliaKeyswap zeroData).data = zeroData) ∧
    (validType sampleData.type ∧ (camelliaKeyswap sampleData).status = 0) :=
  ⟨⟨rfl, (keyswap_status_iff zeroData).2.2.2 rfl,
    (keyswap_status_iff zeroData).2.2.1 ((keyswap_status_iff zeroData).2.2.2 rfl)⟩,
   ⟨by decide, (keyswap_status_iff sampleData).2.1 (by decide)⟩⟩
theorem camelliaKeysche_128_agree (k : List Nat) (d d' : CamelliaData) :
    agree128 (camelliaKeysche Camellia128Encrypt k d).data
      (camelliaKeysche Camellia128Encrypt k d').data := by
  simp [camelliaKeysche, agree128]

theorem camelliaKeysche_128_unused (k : List Nat) (d : CamelliaData) :
    agreeUnused128 (camelliaKeysche Camellia128Encrypt k d).data d := by
  simp [camelliaKeysche, agreeUnused128]

theorem camelliaKeysche_192_256_indep (type : CamelliaKeytype) (k : List Nat)
    (d d' : CamelliaData)
    (h : type = Camellia192Encrypt ∨ type = Camellia256Encrypt) :
    (camelliaKeysche type k d).data = (camelliaKeysche type k d').data := by
  rcases h with h | h <;> subst h <;> simp [camelliaKeysche]

/-- Counterexample to C10 as stated: with the kind `Camellia128Encrypt` and the
key `k128`, the call returns 0 on the zeroed record and on the sample record,
yet the slot `k19` keeps its prior value (0 and 23), so the two tables differ. -/
theorem keysche_128_keeps_prior_slots :
    encryptType Camellia128Encrypt ∧
    (camelliaKeysche Camellia128Encrypt k128 zeroData).status = 0 ∧
    (camelliaKeysche Camellia128Encrypt k128 sampleData).status = 0 ∧
    (camelliaKeysche Camellia128Encrypt k128 zeroData).data.k19 = 0 ∧
    (camelliaKeysche Camellia128Encrypt k128 sampleData).data.k19 = 23 ∧
    (camelliaKeysche Camellia128Encrypt k128 zeroData).data ≠
      (camelliaKeysche Camellia128Encrypt k128 sampleData).data := by
  decide!

/-- C10 (amended): for every Encrypt kind and every key, `camelliaKeysche`
returns 0 on any two prior records and tags both with the requested kind. For
`Camellia192Encrypt` and `Camellia256Encrypt` the two records are then equal in
every field. For `Camellia128Encrypt` they are equal in the tag and in
`kw1..kw4`, `k1..k18`, `ke1..ke4`, while `k19..k24`, `ke5`, `ke6` keep what each
record held before the call. -/
theorem keysche_pure_function (type : CamelliaKeytype) (k : List Nat)
    (d d' : CamelliaData) (h : encryptType type) :
    (camelliaKeysche type k d).status = 0 ∧
    (camelliaKeysche type k d').status = 0 ∧
    (camelliaKeysche type k d).data.type = type ∧
    (camelliaKeysche type k d').data.type = type ∧
    (type ≠ Camellia128Encrypt →
      (camelliaKeysche type k d).data = (camelliaKeysche type k d').data) ∧
    (type = Camellia128Encrypt →
      agree128 (camelliaKeysche type k d).data (camelliaKeysche type k d').data ∧
      agreeUnused128 (camelliaKeysche type k d).data d ∧
      agreeUnused128 (camelliaKeysche type k d').data d') := by
  refine ⟨?_, ?_, camelliaKeysche_type type k d h, camelliaKeysche_type type k d' h, ?_, ?_⟩
  · rw [camelliaKeysche_status, if_pos h]
  · rw [camelliaKeysche_status, if_pos h]
  · intro hne
    apply camelliaKeysche_192_256_indep
    unfold encryptType at h
    rcases h with h | h | h
    · exact absurd h hne
    · exact Or.inl h
    · exact Or.inr h
  · intro h1
    subst h1
    exact ⟨camelliaKeysche_128_agree k d d', camelliaKeysche_128_unused k d,
      camelliaKeysche_128_unused k d'⟩

/-- Witness for C10 (amended): the 256-bit test key on the zero and on the sample
record. -/
theorem keysche_pure_function_witness :
    encryptType Camellia256Encrypt ∧ Camellia256Encrypt ≠ Camellia128Encrypt ∧
    (camelliaKeysche Camellia256Encrypt k256 zeroData).data =
      (camelliaKeysche Camellia256Encrypt k256 sampleData).data :=
  ⟨by decide, by decide,
   (keysche_pure_function Camellia256Encrypt k256 zeroData sampleData (by decide)).2.2.2.2.1
     (by decide)⟩
theorem datarandWords_agree128 (a b : CamelliaData) (x : Nat × Nat)
    (ha : a.type = Camellia128Encrypt ∨ a.type = Camellia128Decrypt)
    (hb : b.type = Camellia128Encrypt ∨ b.type = Camellia128Decrypt)
    (h : agree128 a b) : datarandWords a x = datarandWords b x := by
  obtain ⟨⟨h1, h2, h3, h4⟩, ⟨h5, h6, h7, h8, h9, h10⟩, ⟨h11, h12, h13, h14, h15, h16⟩,
    ⟨h17, h18, h19, h20, h21, h22⟩, ⟨h23, h24, h25, h26⟩⟩ := h
  simp only [datarandWords, crypt18, if_pos ha, if_pos hb, h1, h2, h3, h4, h5, h6, h7, h8,
    h9, h10, h11, h12, h13, h14, h15, h16, h17, h18, h19, h20, h21, h22, h23, h24, h25, h26]

theorem u8n64_set_pair (a b : Nat) (c : List Nat) (h : c.length = 16) :
    u8n64_set b (u8n64_set a c 0) 8 = bytesOf a ++ bytesOf b := by
  iterate 16 (rcases c with _ | ⟨_, c⟩; · simp at h)
  rcases c with _ | ⟨_, c⟩
  · rfl
  · simp at h

theorem camelliaDatarand_valid (m : List Nat) (data : CamelliaData) (c : List Nat)
    (hv : validType data.type) (hc : c.length = 16) :
    camelliaDatarand m data c =
      ⟨0, data, bytesOf (datarandWords data (n8u64 m 0, n8u64 m 8)).1 ++
                bytesOf (datarandWords data (n8u64 m 0, n8u64 m 8)).2⟩ := by
  rw [camelliaDatarand_eq, if_neg (not_not.mpr hv), u8n64_set_pair _ _ c hc]

theorem kat128_words :
    bytesOf (datarandWords (camelliaKeysche Camellia128Encrypt k128 zeroData).data
        (n8u64 p 0, n8u64 p 8)).1 ++
      bytesOf (datarandWords (camelliaKeysche Camellia128Encrypt k128 zeroData).data
        (n8u64 p 0, n8u64 p 8)).2 = c128 := by
  decide!

theorem kat192_words :
    bytesOf (datarandWords (camelliaKeysche Camellia192Encrypt k192 zeroData).data
        (n8u64 p 0, n8u64 p 8)).1 ++
      bytesOf (datarandWords (camelliaKeysche Camellia192Encrypt k192 zeroData).data
        (n8u64 p 0, n8u64 p 8)).2 = c192 := by
  decide!

theorem kat256_words :
    bytesOf (datarandWords (camelliaKeysche Camellia256Encrypt k256 zeroData).data
        (n8u64 p 0, n8u64 p 8)).1 ++
      bytesOf (datarandWords (camelliaKeysche Camellia256Encrypt k256 zeroData).data
        (n8u64 p 0, n8u64 p 8)).2 = c256 := by
  decide!

/-- C2: known-answer vector for the 128-bit key. Whatever the record behind
`data` and the 16-byte output buffer hold before, `camelliaKeysche` with
`Camellia128Encrypt` and `k128` returns 0, and `camelliaDatarand` on the
plaintext `p` with the resulting table returns 0 and leaves exactly
`67 67 31 38 54 96 69 73 08 57 06 56 48 ea be 43` in the buffer. -/
theorem known_answer_128 (data0 : CamelliaData) (c0 : List Nat) (hc : c0.length = 16) :
    (camelliaKeysche Camellia128Encrypt k128 data0).status = 0 ∧
    (camelliaDatarand p (camelliaKeysche Camellia128Encrypt k128 data0).data c0).status = 0 ∧
    (camelliaDatarand p (camelliaKeysche Camellia128Encrypt k128 data0).data c0).c =
      [0x67, 0x67, 0x31, 0x38, 0x54, 0x96, 0x69, 0x73,
       0x08, 0x57, 0x06, 0x56, 0x48, 0xea, 0xbe, 0x43] := by
  have ht : (camelliaKeysche Camellia128Encrypt k128 data0).data.type = Camellia128Encrypt :=
    camelliaKeysche_type _ _ _ (by decide)
  have hv : validType (camelliaKeysche Camellia128Encrypt k128 data0).data.type := by
    rw [ht]; decide
  refine ⟨by rw [camelliaKeysche_status, if_pos (by decide)], ?_, ?_⟩
  · rw [camelliaDatarand_valid _ _ _ hv hc]
  · rw [camelliaDatarand_valid _ _ _ hv hc]
    rw [datarandWords_agree128 _ (camelliaKeysche Camellia128Encrypt k128 zeroData).data _
      (Or.inl ht) (Or.inl (camelliaKeysche_type _ _ _ (by decide)))
      (camelliaKeysche_128_agree k128 data0 zeroData)]
    exact kat128_words

/-- Witness for C2: the run of `example.c`, with a zeroed record and the buffer
`v` after `memset`. -/
theorem known_answer_128_witness :
    zeroBlock.length = 16 ∧
    (camelliaDatarand p (camelliaKeysche Camellia128Encrypt k128 zeroData).data zeroBlock).c =
      [0x67, 0x67, 0x31, 0x38, 0x54, 0x96, 0x69, 0x73,
       0x08, 0x57, 0x06, 0x56, 0x48, 0xea, 0xbe, 0x43] :=
  ⟨by decide, (known_answer_128 zeroData zeroBlock (by decide)).2.2⟩
/-- C3: known-answer vector for the 192-bit key. Whatever the record behind
`data` and the 16-byte output buffer hold before, `camelliaKeysche` with
`Camellia192Encrypt` and `k192` returns 0, and `camelliaDatarand` on the
plaintext `p` with the resulting table returns 0 and leaves exactly
`b4 99 34 01 b3 e9 96 f8 4e e5 ce e7 d7 9b 09 b9` in the buffer. -/
theorem known_answer_192 (data0 : CamelliaData) (c0 : List Nat) (hc : c0.length = 16) :
    (camelliaKeysche Camellia192Encrypt k192 data0).status = 0 ∧
    (camelliaDatarand p (camelliaKeysche Camellia192Encrypt k192 data0).data c0).status = 0 ∧
    (camelliaDatarand p (camelliaKeysche Camellia192Encrypt k192 data0).data c0).c =
      [0xb4, 0x99, 0x34, 0x01, 0xb3, 0xe9, 0x96, 0xf8,
       0x4e, 0xe5, 0xce, 0xe7, 0xd7, 0x9b, 0x09, 0xb9] := by
  have hv : validType (camelliaKeysche Camellia192Encrypt k192 data0).data.type := by
    rw [camelliaKeysche_type _ _ _ (by decide)]; decide
  refine ⟨by rw [camelliaKeysche_status, if_pos (by decide)], ?_, ?_⟩
  · rw [camelliaDatarand_valid _ _ _ hv hc]
  · rw [camelliaDatarand_valid _ _ _ hv hc,
      camelliaKeysche_192_256_indep Camellia192Encrypt k192 data0 zeroData (Or.inl rfl)]
    exact kat192_words

/-- Witness for C3: the run of `example.c`, with a zeroed record and the buffer
`v` after `memset`. -/
theorem known_answer_192_witness :
    zeroBlock.length = 16 ∧
    (camelliaDatarand p (camelliaKeysche Camellia192Encrypt k192 zeroData).data zeroBlock).c =
      [0xb4, 0x99, 0x34, 0x01, 0xb3, 0xe9, 0x96, 0xf8,
       0x4e, 0xe5, 0xce, 0xe7, 0xd7, 0x9b, 0x09, 0xb9] :=
  ⟨by decide, (known_answer_192 zeroData zeroBlock (by decide)).2.2⟩

/-- C4: known-answer vector for the 256-bit key. Whatever the record behind
`data` and the 16-byte output buffer hold before, `camelliaKeysche` with
`Camellia256Encrypt` and `k256` returns 0, and `camelliaDatarand` on the
plaintext `p` with the resulting table returns 0 and leaves exactly
`9a cc 23 7d ff 16 d7 6c 20 ef 7c 91 9e 3a 75 09` in the buffer. -/
theorem known_answer_256 (data0 : CamelliaData) (c0 : List Nat) (hc : c0.length = 16) :
    (camelliaKeysche Camellia256Encrypt k256 data0).status = 0 ∧
    (camelliaDatarand p (camelliaKeysche Camellia256Encrypt k256 data0).data c0).status = 0 ∧
    (camelliaDatarand p (camelliaKeysche Camellia256Encrypt k256 data0).data c0).c =
      [0x9a, 0xcc, 0x23, 0x7d, 0xff, 0x16, 0xd7, 0x6c,
       0x20, 0xef, 0x7c, 0x91, 0x9e, 0x3a, 0x75, 0x09] := by
  have hv : validType (camelliaKeysche Camellia256Encrypt k256 data0).data.type := by
    rw [camelliaKeysche_type _ _ _ (by decide)]; decide
  refine ⟨by rw [camelliaKeysche_status, if_pos (by decide)], ?_, ?_⟩
  · rw [camelliaDatarand_valid _ _ _ hv hc]
  · rw [camelliaDatarand_valid _ _ _ hv hc,
      camelliaKeysche_192_256_indep Camellia256Encrypt k256 data0 zeroData (Or.inr rfl)]
    exact kat256_words

/-- Witness for C4: the run of `example.c`, with a zeroed record and the buffer
`v` after `memset`. -/
theorem known_answer_256_witness :
    zeroBlock.length = 16 ∧
    (camelliaDatarand p (camelliaKeysche Camellia256Encrypt k256 zeroData).data zeroBlock).c =
      [0x9a, 0xcc, 0x23, 0x7d, 0xff, 0x16, 0xd7, 0x6c,
       0x20, 0xef, 0x7c, 0x91, 0x9e, 0x3a, 0x75, 0x09] :=
  ⟨by decide, (known_answer_256 zeroData zeroBlock (by decide)).2.2⟩

theorem keyswap_keysche_128_agree (k : List Nat) (d d' : CamelliaData) :
    agree128 (camelliaKeyswap (camelliaKeysche Camellia128Encrypt k d).data).data
      (camelliaKeyswap (camelliaKeysche Camellia128Encrypt k d').data).data := by
  simp [camelliaKeysche, camelliaKeyswap, agree128]

theorem keyswap_keysche_128_type (k : List Nat) (d : CamelliaData) :
    (camelliaKeyswap (camelliaKeysche Camellia128Encrypt k d).data).data.type =
      Camellia128Decrypt := by
  simp [camelliaKeysche, camelliaKeyswap]

theorem keyswap_keysche_status (type : CamelliaKeytype) (k : List Nat) (d : CamelliaData)
    (h : encryptType type) :
    (camelliaKeyswap (camelliaKeysche type k d).data).status = 0 := by
  rw [camelliaKeyswap_status, if_pos]
  rw [camelliaKeysche_type type k d h]
  exact encryptType_valid type h

theorem keyswap_keysche_valid (type : CamelliaKeytype) (k : List Nat) (d : CamelliaData)
    (h : encryptType type) :
    validType (camelliaKeyswap (camelliaKeysche type k d).data).data.type := by
  unfold encryptType at h
  rcases h with h | h | h <;> subst h <;> simp [camelliaKeysche, camelliaKeyswap, validType]

theorem kad128_words :
    bytesOf (datarandWords
        (camelliaKeyswap (camelliaKeysche Camellia128Encrypt k128 zeroData).data).data
        (n8u64 c128 0, n8u64 c128 8)).1 ++
      bytesOf (datarandWords
        (camelliaKeyswap (camelliaKeysche Camellia128Encrypt k128 zeroData).data).data
        (n8u64 c128 0, n8u64 c128 8)).2 = p := by
  decide!

theorem kad192_words :
    bytesOf (datarandWords
        (camelliaKeyswap (camelliaKeysche Camellia192Encrypt k192 zeroData).data).data
        (n8u64 c192 0, n8u64 c192 8)).1 ++
      bytesOf (datarandWords
        (camelliaKeyswap (camelliaKeysche Camellia192Encrypt k192 zeroData).data).data
        (n8u64 c192 0, n8u64 c192 8)).2 = p := by
  decide!

theorem kad256_words :
    bytesOf (datarandWords
        (camelliaKeyswap (camelliaKeysche Camellia256Encrypt k256 zeroData).data).data
        (n8u64 c256 0, n8u64 c256 8)).1 ++
      bytesOf (datarandWords
        (camelliaKeyswap (camelliaKeysche Camellia256Encrypt k256 zeroData).data).data
        (n8u64 c256 0, n8u64 c256 8)).2 = p := by
  decide!

/-- C5: known-answer decryption. For each of the three test keys, whatever the
record behind `data` and the 16-byte output buffer hold before:
`camelliaKeysche` returns 0, `camelliaKeyswap` on the resulting table returns 0,
and `camelliaDatarand` on the expected ciphertext of the case (`c128`, `c192`,
`c256`) with the swapped table returns 0 and leaves exactly the plaintext
`01 23 45 67 89 ab cd ef fe dc ba 98 76 54 32 10` in the buffer. -/
theorem known_answer_decrypt (data0 : CamelliaData) (c0 : List Nat) (hc : c0.length = 16) :
    ((camelliaKeysche Camellia128Encrypt k128 data0).status = 0 ∧
     (camelliaKeyswap (camelliaKeysche Camellia128Encrypt k128 data0).data).status = 0 ∧
     (camelliaDatarand c128
        (camelliaKeyswap (camelliaKeysche Camellia128Encrypt k128 data0).data).data
        c0).status = 0 ∧
     (camelliaDatarand c128
        (camelliaKeyswap (camelliaKeysche Camellia128Encrypt k128 data0).data).data
        c0).c =
      [0x01, 0x23, 0x45, 0x67, 0x89, 0xab, 0xcd, 0xef,
       0xfe, 0xdc, 0xba, 0x98, 0x76, 0x54, 0x32, 0x10]) ∧
    ((camelliaKeysche Camellia192Encrypt k192 data0).status = 0 ∧
     (camelliaKeyswap (camelliaKeysche Camellia192Encrypt k192 data0).data).status = 0 ∧
     (camelliaDatarand c192
        (camelliaKeyswap (camelliaKeysche Camellia192Encrypt k192 data0).data).data
        c0).status = 0 ∧
     (camelliaDatarand c192
        (camelliaKeyswap (camelliaKeysche Camellia192Encrypt k192 data0).data).data
        c0).c =
      [0x01, 0x23, 0x45, 0x67, 0x89, 0xab, 0xcd, 0xef,
       0xfe, 0xdc, 0xba, 0x98, 0x76, 0x54, 0x32, 0x10]) ∧
    ((camelliaKeysche Camellia256Encrypt k256 data0).status = 0 ∧
     (camelliaKeyswap (camelliaKeysche Camellia256Encrypt k256 data0).data).status = 0 ∧
     (camelliaDatarand c256
        (camelliaKeyswap (camelliaKeysche Camellia256Encrypt k256 data0).data).data
        c0).status = 0 ∧
     (camelliaDatarand c256
        (camelliaKeyswap (camelliaKeysche Camellia256Encrypt k256 data0).data).data
        c0).c =
      [0x01, 0x23, 0x45, 0x67, 0x89, 0xab, 0xcd, 0xef,
       0xfe, 0xdc, 0xba, 0x98, 0x76, 0x54, 0x32, 0x10]) := by
  refine ⟨⟨?_, ?_, ?_, ?_⟩, ⟨?_, ?_, ?_, ?_⟩, ⟨?_, ?_, ?_, ?_⟩⟩
  · rw [camelliaKeysche_status, if_pos (by decide)]
  · exact keyswap_keysche_status _ _ _ (by decide)
  · rw [camelliaDatarand_valid _ _ _ (keyswap_keysche_valid _ _ _ (by decide)) hc]
  · rw [camelliaDatarand_valid _ _ _ (keyswap_keysche_valid _ _ _ (by decide)) hc,
      datarandWords_agree128 _
        (camelliaKeyswap (camelliaKeysche Camellia128Encrypt k128 zeroData).data).data _
        (Or.inr (keyswap_keysche_128_type k128 data0))
        (Or.inr (keyswap_keysche_128_type k128 zeroData))
        (keyswap_keysche_128_agree k128 data0 zeroData)]
    exact kad128_words
  · rw [camelliaKeysche_status, if_pos (by decide)]
  · exact keyswap_keysche_status _ _ _ (by decide)
  · rw [camelliaDatarand_valid _ _ _ (keyswap_keysche_valid _ _ _ (by decide)) hc]
  · rw [camelliaDatarand_valid _ _ _ (keyswap_keysche_valid _ _ _ (by decide)) hc,
      camelliaKeysche_192_256_indep Camellia192Encrypt k192 data0 zeroData (Or.inl rfl)]
    exact kad192_words
  · rw [camelliaKeysche_status, if_pos (by decide)]
  · exact keyswap_keysche_status _ _ _ (by decide)
  · rw [camelliaDatarand_valid _ _ _ (keyswap_keysche_valid _ _ _ (by decide)) hc]
  · rw [camelliaDatarand_valid _ _ _ (keyswap_keysche_valid _ _ _ (by decide)) hc,
      camelliaKeysche_192_256_indep Camellia256Encrypt k256 data0 zeroData (Or.inr rfl)]
    exact kad256_words

/-- Witness for C5: the three decryption runs of `example.c`, with a zeroed
record and the buffer `v` after `memset`. -/
theorem known_answer_decrypt_witness :
    zeroBlock.length = 16 ∧
    (camelliaDatarand c128
      (camelliaKeyswap (camelliaKeysche Camellia128Encrypt k128 zeroData).data).data
      zeroBlock).c = p ∧
    (camelliaDatarand c192
      (camelliaKeyswap (camelliaKeysche Camellia192Encrypt k192 zeroData).data).data
      zeroBlock).c = p ∧
    (camelliaDatarand c256
      (camelliaKeyswap (camelliaKeysche Camellia256Encrypt k256 zeroData).data).data
      zeroBlock).c = p :=
  ⟨by decide, (known_answer_decrypt zeroData zeroBlock (by decide)).1.2.2.2,
   (known_answer_decrypt zeroData zeroBlock (by decide)).2.1.2.2.2,
   (known_answer_decrypt zeroData zeroBlock (by decide)).2.2.2.2.2⟩
/-! ## Bit-level lemmas -/

theorem lor_add (a b s : Nat) (ha : a % 2 ^ s = 0) (hb : b < 2 ^ s) : a ||| b = a + b := by
  have h := Nat.mul_add_lt_is_or hb (a / 2 ^ s)
  have e : 2 ^ s * (a / 2 ^ s) = a := by
    have := Nat.div_add_mod a (2 ^ s)
    omega
  rw [e] at h
  exact h.symm

theorem pack8 (b0 b1 b2 b3 b4 b5 b6 b7 : Nat) :
    u64 (u8 b0 <<< 56) ||| u64 (u8 b1 <<< 48) ||| u64 (u8 b2 <<< 40) |||
      u64 (u8 b3 <<< 32) ||| u64 (u8 b4 <<< 24) ||| u64 (u8 b5 <<< 16) |||
      u64 (u8 b6 <<< 8) ||| u64 (u8 b7 <<< 0) =
    (b0 % 256) * 2 ^ 56 + (b1 % 256) * 2 ^ 48 + (b2 % 256) * 2 ^ 40 + (b3 % 256) * 2 ^ 32 +
      (b4 % 256) * 2 ^ 24 + (b5 % 256) * 2 ^ 16 + (b6 % 256) * 2 ^ 8 + b7 % 256 := by
  have e0 : u64 (u8 b0 <<< 56) = (b0 % 256) * 2 ^ 56 := by
    simp only [u64, u8, Nat.shiftLeft_eq]; omega
  have e1 : u64 (u8 b1 <<< 48) = (b1 % 256) * 2 ^ 48 := by
    simp only [u64, u8, Nat.shiftLeft_eq]; omega
  have e2 : u64 (u8 b2 <<< 40) = (b2 % 256) * 2 ^ 40 := by
    simp only [u64, u8, Nat.shiftLeft_eq]; omega
  have e3 : u64 (u8 b3 <<< 32) = (b3 % 256) * 2 ^ 32 := by
    simp only [u64, u8, Nat.shiftLeft_eq]; omega
  have e4 : u64 (u8 b4 <<< 24) = (b4 % 256) * 2 ^ 24 := by
    simp only [u64, u8, Nat.shiftLeft_eq]; omega
  have e5 : u64 (u8 b5 <<< 16) = (b5 % 256) * 2 ^ 16 := by
    simp only [u64, u8, Nat.shiftLeft_eq]; omega
  have e6 : u64 (u8 b6 <<< 8) = (b6 % 256) * 2 ^ 8 := by
    simp only [u64, u8, Nat.shiftLeft_eq]; omega
  have e7 : u64 (u8 b7 <<< 0) = b7 % 256 := by
    simp only [u64, u8, Nat.shiftLeft_eq]; omega
  rw [e0, e1, e2, e3, e4, e5, e6, e7]
  have h1 := lor_add ((b0 % 256) * 2 ^ 56) ((b1 % 256) * 2 ^ 48) 56 (by omega) (by omega)
  rw [h1]
  have h2 := lor_add ((b0 % 256) * 2 ^ 56 + (b1 % 256) * 2 ^ 48) ((b2 % 256) * 2 ^ 40) 48
    (by omega) (by omega)
  rw [h2]
  have h3 := lor_add ((b0 % 256) * 2 ^ 56 + (b1 % 256) * 2 ^ 48 + (b2 % 256) * 2 ^ 40)
    ((b3 % 256) * 2 ^ 32) 40 (by omega) (by omega)
  rw [h3]
  have h4 := lor_add ((b0 % 256) * 2 ^ 56 + (b1 % 256) * 2 ^ 48 + (b2 % 256) * 2 ^ 40 +
    (b3 % 256) * 2 ^ 32) ((b4 % 256) * 2 ^ 24) 32 (by omega) (by omega)
  rw [h4]
  have h5 := lor_add ((b0 % 256) * 2 ^ 56 + (b1 % 256) * 2 ^ 48 + (b2 % 256) * 2 ^ 40 +
    (b3 % 256) * 2 ^ 32 + (b4 % 256) * 2 ^ 24) ((b5 % 256) * 2 ^ 16) 24 (by omega) (by omega)
  rw [h5]
  have h6 := lor_add ((b0 % 256) * 2 ^ 56 + (b1 % 256) * 2 ^ 48 + (b2 % 256) * 2 ^ 40 +
    (b3 % 256) * 2 ^ 32 + (b4 % 256) * 2 ^ 24 + (b5 % 256) * 2 ^ 16) ((b6 % 256) * 2 ^ 8) 16
    (by omega) (by omega)
  rw [h6]
  exact lor_add _ _ 8 (by omega) (by omega)

theorem n8u64_lt (m : List Nat) (off : Nat) : n8u64 m off < 2 ^ 64 := by
  unfold n8u64
  rw [pack8]
  omega
theorem bytes_sum (v : Nat) (hv : v < 2 ^ 64) :
    v / 2 ^ 56 % 256 * 2 ^ 56 + v / 2 ^ 48 % 256 * 2 ^ 48 + v / 2 ^ 40 % 256 * 2 ^ 40 +
      v / 2 ^ 32 % 256 * 2 ^ 32 + v / 2 ^ 24 % 256 * 2 ^ 24 + v / 2 ^ 16 % 256 * 2 ^ 16 +
      v / 2 ^ 8 % 256 * 2 ^ 8 + v % 256 = v := by
  have h1 : v / 2 ^ 8 % 256 * 2 ^ 8 + v % 256 = v % 2 ^ 16 := by omega
  have h2 : v / 2 ^ 16 % 256 * 2 ^ 16 + v % 2 ^ 16 = v % 2 ^ 24 := by omega
  have h3 : v / 2 ^ 24 % 256 * 2 ^ 24 + v % 2 ^ 24 = v % 2 ^ 32 := by omega
  have h4 : v / 2 ^ 32 % 256 * 2 ^ 32 + v % 2 ^ 32 = v % 2 ^ 40 := by omega
  have h5 : v / 2 ^ 40 % 256 * 2 ^ 40 + v % 2 ^ 40 = v % 2 ^ 48 := by omega
  have h6 : v / 2 ^ 48 % 256 * 2 ^ 48 + v % 2 ^ 48 = v % 2 ^ 56 := by omega
  have h7 : v / 2 ^ 56 % 256 * 2 ^ 56 + v % 2 ^ 56 = v := by omega
  linarith

theorem n8u64_bytesOf_0 (a b : Nat) : n8u64 (bytesOf a ++ bytesOf b) 0 = u64 a := by
  simp only [n8u64, bytesOf, List.cons_append, List.nil_append, List.getD_cons_zero,
    List.getD_cons_succ, Nat.zero_add, Nat.reduceAdd]
  rw [pack8]
  have key := bytes_sum (a % 2 ^ 64) (Nat.mod_lt _ (by decide))
  simp only [u64, u8, Nat.shiftRight_eq_div_pow, Nat.reducePow, Nat.mod_mod,
    Nat.div_one] at key ⊢
  exact key

theorem n8u64_bytesOf_8 (a b : Nat) : n8u64 (bytesOf a ++ bytesOf b) 8 = u64 b := by
  simp only [n8u64, bytesOf, List.cons_append, List.nil_append, List.getD_cons_zero,
    List.getD_cons_succ, Nat.zero_add, Nat.reduceAdd]
  rw [pack8]
  have key := bytes_sum (b % 2 ^ 64) (Nat.mod_lt _ (by decide))
  simp only [u64, u8, Nat.shiftRight_eq_div_pow, Nat.reducePow, Nat.mod_mod,
    Nat.div_one] at key ⊢
  exact key

theorem bytesOf_pack (b0 b1 b2 b3 b4 b5 b6 b7 : Nat)
    (h0 : b0 < 256) (h1 : b1 < 256) (h2 : b2 < 256) (h3 : b3 < 256)
    (h4 : b4 < 256) (h5 : b5 < 256) (h6 : b6 < 256) (h7 : b7 < 256) :
    bytesOf ((b0 % 256) * 2 ^ 56 + (b1 % 256) * 2 ^ 48 + (b2 % 256) * 2 ^ 40 +
      (b3 % 256) * 2 ^ 32 + (b4 % 256) * 2 ^ 24 + (b5 % 256) * 2 ^ 16 + (b6 % 256) * 2 ^ 8 +
      b7 % 256) = [b0, b1, b2, b3, b4, b5, b6, b7] := by
  simp only [bytesOf, u64, u8, Nat.shiftRight_eq_div_pow]
  refine congrArg₂ _ (by omega) (congrArg₂ _ (by omega) (congrArg₂ _ (by omega)
    (congrArg₂ _ (by omega) (congrArg₂ _ (by omega) (congrArg₂ _ (by omega)
    (congrArg₂ _ (by omega) (congrArg₂ _ (by omega) rfl)))))))

theorem bytesOf_n8u64 (B : List Nat) (hl : B.length = 16) (hb : isBytes B) :
    bytesOf (n8u64 B 0) ++ bytesOf (n8u64 B 8) = B := by
  iterate 16 (rcases B with _ | ⟨_, B⟩; · simp at hl)
  rcases B with _ | ⟨_, B⟩
  · simp only [isBytes, List.mem_cons, List.mem_nil_iff, or_false, forall_eq_or_imp,
      forall_eq] at hb
    obtain ⟨h0, h1, h2, h3, h4, h5, h6, h7, h8, h9, h10, h11, h12, h13, h14, h15⟩ := hb
    simp only [n8u64, List.getD_cons_zero, List.getD_cons_succ, Nat.zero_add, Nat.reduceAdd]
    rw [pack8, pack8, bytesOf_pack _ _ _ _ _ _ _ _ h0 h1 h2 h3 h4 h5 h6 h7,
      bytesOf_pack _ _ _ _ _ _ _ _ h8 h9 h10 h11 h12 h13 h14 h15]
    rfl
  · simp at hl
theorem u64_lt (n : Nat) : u64 n < 2 ^ 64 := Nat.mod_lt _ (by decide)

theorem u32_lt (n : Nat) : u32 n < 2 ^ 32 := Nat.mod_lt _ (by decide)

theorem r32_one_lt (d : Nat) (h : d < 2 ^ 32) : r32 d 1 < 2 ^ 32 := by
  have e : r32 d 1 = u32 (d <<< 1) ||| d >>> 31 := by
    simp [r32, u32]
  rw [e]
  apply Nat.or_lt_two_pow (u32_lt _)
  rw [Nat.shiftRight_eq_div_pow]
  omega

theorem pack32_hi (a b : Nat) (ha : a < 2 ^ 32) (hb : b < 2 ^ 32) :
    u32 ((u64 (a <<< 32) ||| b) >>> 32) = a := by
  have e : u64 (a <<< 32) = a * 2 ^ 32 := by
    simp only [u64, Nat.shiftLeft_eq]; omega
  rw [e, lor_add _ _ 32 (by omega) hb]
  simp only [u32, Nat.shiftRight_eq_div_pow]
  omega

theorem pack32_lo (a b : Nat) (ha : a < 2 ^ 32) (hb : b < 2 ^ 32) :
    u32 (u64 (a <<< 32) ||| b) = b := by
  have e : u64 (a <<< 32) = a * 2 ^ 32 := by
    simp only [u64, Nat.shiftLeft_eq]; omega
  rw [e, lor_add _ _ 32 (by omega) hb]
  simp only [u32]
  omega

theorem pack32_split (x : Nat) (h : x < 2 ^ 64) :
    u64 (u32 (x >>> 32) <<< 32) ||| u32 x = x := by
  have e : u64 (u32 (x >>> 32) <<< 32) = (x / 2 ^ 32) * 2 ^ 32 := by
    simp only [u64, u32, Nat.shiftLeft_eq, Nat.shiftRight_eq_div_pow]; omega
  rw [e, lor_add _ _ 32 (by omega) (u32_lt x)]
  simp only [u32]
  omega

theorem pack32_lt (a b : Nat) (hb : b < 2 ^ 32) : u64 (a <<< 32) ||| b < 2 ^ 64 :=
  Nat.or_lt_two_pow (u64_lt _) (by omega)

theorem fl_lt (x ke : Nat) : fl x ke < 2 ^ 64 := by
  unfold fl
  apply pack32_lt
  exact Nat.xor_lt_two_pow (u32_lt _)
    (r32_one_lt _ (Nat.and_lt_two_pow _ (u32_lt _)))

theorem flinv_lt (x ke : Nat) : flinv x ke < 2 ^ 64 := by
  unfold flinv
  apply pack32_lt
  exact Nat.xor_lt_two_pow (u32_lt _)
    (r32_one_lt _ (Nat.and_lt_two_pow _ (u32_lt _)))

theorem flinv_fl (x ke : Nat) (h : x < 2 ^ 64) : flinv (fl x ke) ke = x := by
  have hx2 : u32 x ^^^ r32 (u32 (x >>> 32) &&& u32 (ke >>> 32)) 1 < 2 ^ 32 :=
    Nat.xor_lt_two_pow (u32_lt _) (r32_one_lt _ (Nat.and_lt_two_pow _ (u32_lt _)))
  have hx1 : u32 (x >>> 32) ^^^
      (u32 x ^^^ r32 (u32 (x >>> 32) &&& u32 (ke >>> 32)) 1 ||| u32 ke) < 2 ^ 32 :=
    Nat.xor_lt_two_pow (u32_lt _) (Nat.or_lt_two_pow hx2 (u32_lt _))
  simp only [flinv, fl]
  rw [pack32_hi _ _ hx1 hx2, pack32_lo _ _ hx1 hx2]
  simp only [Nat.xor_cancel_right]
  exact pack32_split x h

theorem fl_flinv (x ke : Nat) (h : x < 2 ^ 64) : fl (flinv x ke) ke = x := by
  have hy1 : u32 (x >>> 32) ^^^ (u32 x ||| u32 ke) < 2 ^ 32 :=
    Nat.xor_lt_two_pow (u32_lt _) (Nat.or_lt_two_pow (u32_lt _) (u32_lt _))
  have hy2 : u32 x ^^^
      r32 ((u32 (x >>> 32) ^^^ (u32 x ||| u32 ke)) &&& u32 (ke >>> 32)) 1 < 2 ^ 32 :=
    Nat.xor_lt_two_pow (u32_lt _) (r32_one_lt _ (Nat.and_lt_two_pow _ (u32_lt _)))
  simp only [flinv, fl]
  rw [pack32_hi _ _ hy1 hy2, pack32_lo _ _ hy1 hy2]
  simp only [Nat.xor_cancel_right]
  exact pack32_split x h

theorem f_lt (x k : Nat) : f x k < 2 ^ 64 := by
  unfold f
  exact Nat.or_lt_two_pow (Nat.or_lt_two_pow (Nat.or_lt_two_pow (Nat.or_lt_two_pow
    (Nat.or_lt_two_pow (Nat.or_lt_two_pow (Nat.or_lt_two_pow (u64_lt _) (u64_lt _))
    (u64_lt _)) (u64_lt _)) (u64_lt _)) (u64_lt _)) (u64_lt _)) (u64_lt _)
/-! ## Inverting the round pipeline -/

theorem feistel2_inU64 (kA kB : Nat) (d : Nat × Nat) (h : inU64 d) :
    inU64 (feistel2 kA kB d) :=
  ⟨Nat.xor_lt_two_pow h.1 (f_lt _ _), Nat.xor_lt_two_pow h.2 (f_lt _ _)⟩

theorem rounds6_inU64 (a b c d e g : Nat) (x : Nat × Nat) (h : inU64 x) :
    inU64 (rounds6 a b c d e g x) :=
  feistel2_inU64 _ _ _ (feistel2_inU64 _ _ _ (feistel2_inU64 _ _ _ h))

theorem flLayer_inU64 (kA kB : Nat) (d : Nat × Nat) : inU64 (flLayer kA kB d) :=
  ⟨fl_lt _ _, flinv_lt _ _⟩

theorem feistel2_inv (kA kB : Nat) (d : Nat × Nat) :
    feistel2 kB kA ((feistel2 kA kB d).2, (feistel2 kA kB d).1) = (d.2, d.1) := by
  simp only [feistel2, Nat.xor_cancel_right]

theorem rounds6_inv (a b c d e g : Nat) (x : Nat × Nat) :
    rounds6 g e d c b a ((rounds6 a b c d e g x).2, (rounds6 a b c d e g x).1) =
      (x.2, x.1) := by
  unfold rounds6
  rw [feistel2_inv, feistel2_inv, feistel2_inv]

theorem flLayer_inv (kA kB : Nat) (d : Nat × Nat) (h : inU64 d) :
    flLayer kB kA ((flLayer kA kB d).2, (flLayer kA kB d).1) = (d.2, d.1) := by
  simp only [flLayer, fl_flinv _ _ h.2, flinv_fl _ _ h.1]

theorem crypt18_inU64 (data : CamelliaData) (x : Nat × Nat) :
    inU64 (crypt18 data x) :=
  rounds6_inU64 _ _ _ _ _ _ _ (flLayer_inU64 _ _ _)

theorem tail24_inU64 (data : CamelliaData) (x : Nat × Nat) :
    inU64 (tail24 data x) :=
  rounds6_inU64 _ _ _ _ _ _ _ (flLayer_inU64 _ _ _)

theorem datarandWords_inU64 (data : CamelliaData) (x : Nat × Nat)
    (h3 : data.kw3 < 2 ^ 64) (h4 : data.kw4 < 2 ^ 64) : inU64 (datarandWords data x) := by
  have hy := crypt18_inU64 data (x.1 ^^^ data.kw1, x.2 ^^^ data.kw2)
  have ht := tail24_inU64 data (crypt18 data (x.1 ^^^ data.kw1, x.2 ^^^ data.kw2))
  unfold datarandWords
  simp only
  split_ifs
  · exact ⟨Nat.xor_lt_two_pow hy.2 h3, Nat.xor_lt_two_pow hy.1 h4⟩
  · exact ⟨Nat.xor_lt_two_pow ht.2 h3, Nat.xor_lt_two_pow ht.1 h4⟩
  · exact ⟨Nat.xor_lt_two_pow hy.2 h3, Nat.xor_lt_two_pow hy.1 h4⟩

theorem datarandWords_roundtrip_18 (T : CamelliaData) (x : Nat × Nat)
    (ht : T.type = Camellia128Encrypt ∨ T.type = Camellia128Decrypt)
    (h1 : T.kw1 < 2 ^ 64) (h2 : T.kw2 < 2 ^ 64) (hx : inU64 x) :
    datarandWords (camelliaKeyswap T).data (datarandWords T x) = x := by
  obtain ⟨t, kw1, kw2, kw3, kw4, k1, k2, k3, k4, k5, k6, k7, k8, k9, k10, k11, k12,
    k13, k14, k15, k16, k17, k18, k19, k20, k21, k22, k23, k24,
    ke1, ke2, ke3, ke4, ke5, ke6⟩ := T
  simp only at ht h1 h2
  have h0 : inU64 (x.1 ^^^ kw1, x.2 ^^^ kw2) :=
    ⟨Nat.xor_lt_two_pow hx.1 h1, Nat.xor_lt_two_pow hx.2 h2⟩
  have hD := rounds6_inU64 k1 k2 k3 k4 k5 k6 _ h0
  have hB := rounds6_inU64 k7 k8 k9 k10 k11 k12 _ (flLayer_inU64 ke1 ke2
    (rounds6 k1 k2 k3 k4 k5 k6 (x.1 ^^^ kw1, x.2 ^^^ kw2)))
  rcases ht with ht | ht <;> subst ht <;>
  · simp [camelliaKeyswap, datarandWords, crypt18, Nat.xor_cancel_right, rounds6_inv,
      flLayer_inv _ _ _ hB, flLayer_inv _ _ _ hD]

theorem datarandWords_roundtrip_24 (T : CamelliaData) (x : Nat × Nat)
    (ht : T.type = Camellia192Encrypt ∨ T.type = Camellia192Decrypt ∨
          T.type = Camellia256Encrypt ∨ T.type = Camellia256Decrypt)
    (h1 : T.kw1 < 2 ^ 64) (h2 : T.kw2 < 2 ^ 64) (hx : inU64 x) :
    datarandWords (camelliaKeyswap T).data (datarandWords T x) = x := by
  obtain ⟨t, kw1, kw2, kw3, kw4, k1, k2, k3, k4, k5, k6, k7, k8, k9, k10, k11, k12,
    k13, k14, k15, k16, k17, k18, k19, k20, k21, k22, k23, k24,
    ke1, ke2, ke3, ke4, ke5, ke6⟩ := T
  simp only at ht h1 h2
  have h0 : inU64 (x.1 ^^^ kw1, x.2 ^^^ kw2) :=
    ⟨Nat.xor_lt_two_pow hx.1 h1, Nat.xor_lt_two_pow hx.2 h2⟩
  have hD := rounds6_inU64 k1 k2 k3 k4 k5 k6 _ h0
  have hB := rounds6_inU64 k7 k8 k9 k10 k11 k12 _ (flLayer_inU64 ke1 ke2
    (rounds6 k1 k2 k3 k4 k5 k6 (x.1 ^^^ kw1, x.2 ^^^ kw2)))
  have hE := rounds6_inU64 k13 k14 k15 k16 k17 k18 _ (flLayer_inU64 ke3 ke4
    (rounds6 k7 k8 k9 k10 k11 k12 (flLayer ke1 ke2
      (rounds6 k1 k2 k3 k4 k5 k6 (x.1 ^^^ kw1, x.2 ^^^ kw2)))))
  rcases ht with ht | ht | ht | ht <;> subst ht <;>
  · simp [camelliaKeyswap, datarandWords, crypt18, tail24, Nat.xor_cancel_right,
      rounds6_inv, flLayer_inv _ _ _ hB, flLayer_inv _ _ _ hD, flLayer_inv _ _ _ hE]

theorem datarandWords_roundtrip (T : CamelliaData) (x : Nat × Nat)
    (ht : validType T.type) (h1 : T.kw1 < 2 ^ 64) (h2 : T.kw2 < 2 ^ 64) (hx : inU64 x) :
    datarandWords (camelliaKeyswap T).data (datarandWords T x) = x := by
  unfold validType at ht
  rcases ht with ht | ht | ht | ht | ht | ht
  · exact datarandWords_roundtrip_18 T x (Or.inl ht) h1 h2 hx
  · exact datarandWords_roundtrip_18 T x (Or.inr ht) h1 h2 hx
  · exact datarandWords_roundtrip_24 T x (Or.inl ht) h1 h2 hx
  · exact datarandWords_roundtrip_24 T x (Or.inr (Or.inl ht)) h1 h2 hx
  · exact datarandWords_roundtrip_24 T x (Or.inr (Or.inr (Or.inl ht))) h1 h2 hx
  · exact datarandWords_roundtrip_24 T x (Or.inr (Or.inr (Or.inr ht))) h1 h2 hx

theorem camelliaKeyswap_valid (data : CamelliaData) (h : validType data.type) :
    validType (camelliaKeyswap data).data.type := by
  unfold validType at h ⊢
  rcases h with h | h | h | h | h | h <;> simp [camelliaKeyswap, h]

theorem u64_eq_self (n : Nat) (h : n < 2 ^ 64) : u64 n = n := Nat.mod_eq_of_lt h

/-- C1: encrypt-then-decrypt round trip. For every table `T` with a valid tag
and arbitrary 64-bit subkeys, every 16-byte block `B` and 16-byte output
buffers: `camelliaDatarand` on `B` with `T` returns 0 and leaves a block `C`;
`camelliaKeyswap` on (a copy of) `T` returns 0 and leaves `T'`; and
`camelliaDatarand` on `C` with `T'` returns 0 and leaves exactly `B`. -/
theorem datarand_roundtrip (T : CamelliaData) (B c0 c1 : List Nat)
    (ht : validType T.type) (hwf : T.WF) (hB : B.length = 16) (hb : isBytes B)
    (h0 : c0.length = 16) (h1 : c1.length = 16) :
    (camelliaDatarand B T c0).status = 0 ∧
    (camelliaKeyswap T).status = 0 ∧
    (camelliaDatarand (camelliaDatarand B T c0).c (camelliaKeyswap T).data c1).status = 0 ∧
    (camelliaDatarand (camelliaDatarand B T c0).c (camelliaKeyswap T).data c1).c = B := by
  obtain ⟨⟨hk1, hk2, hk3, hk4⟩, -⟩ := hwf
  have hS := camelliaKeyswap_valid T ht
  have hW := datarandWords_inU64 T (n8u64 B 0, n8u64 B 8) hk3 hk4
  have hx : inU64 (n8u64 B 0, n8u64 B 8) := ⟨n8u64_lt B 0, n8u64_lt B 8⟩
  rw [camelliaDatarand_valid B T c0 ht h0]
  refine ⟨rfl, by rw [camelliaKeyswap_status, if_pos ht], ?_, ?_⟩
  · rw [camelliaDatarand_valid _ _ c1 hS h1]
  · rw [camelliaDatarand_valid _ _ c1 hS h1]
    simp only [n8u64_bytesOf_0, n8u64_bytesOf_8, u64_eq_self _ hW.1, u64_eq_self _ hW.2,
      Prod.mk.eta]
    rw [datarandWords_roundtrip T _ ht hk1 hk2 hx]
    exact bytesOf_n8u64 B hB hb

/-- Witness for C1: the sample table, the plaintext of `example.c` and zeroed
output buffers. -/
theorem datarand_roundtrip_witness :
    validType sampleData.type ∧ sampleData.WF ∧ p.length = 16 ∧ isBytes p ∧
    zeroBlock.length = 16 ∧
    (camelliaDatarand (camelliaDatarand p sampleData zeroBlock).c
      (camelliaKeyswap sampleData).data zeroBlock).c = p :=
  ⟨by decide, by decide, by decide, by decide, by decide,
   (datarand_roundtrip sampleData p zeroBlock zeroBlock (by decide) (by decide) (by decide)
     (by decide) (by decide) (by decide)).2.2.2⟩

/-! ## Postcondition of the swap, and what `camelliaDatarand` reads -/

theorem camelliaKeyswap_data_128 (T : CamelliaData)
    (h : T.type = Camellia128Encrypt ∨ T.type = Camellia128Decrypt) :
    (camelliaKeyswap T).data =
      { type := if T.type = Camellia128Encrypt then Camellia128Decrypt
                else Camellia128Encrypt,
        kw1 := T.kw3, kw2 := T.kw4, kw3 := T.kw1, kw4 := T.kw2,
        k1 := T.k18, k2 := T.k17, k3 := T.k16, k4 := T.k15, k5 := T.k14, k6 := T.k13,
        k7 := T.k12, k8 := T.k11, k9 := T.k10, k10 := T.k9, k11 := T.k8, k12 := T.k7,
        k13 := T.k6, k14 := T.k5, k15 := T.k4, k16 := T.k3, k17 := T.k2, k18 := T.k1,
        k19 := T.k19, k20 := T.k20, k21 := T.k21, k22 := T.k22, k23 := T.k23,
        k24 := T.k24,
        ke1 := T.ke4, ke2 := T.ke3, ke3 := T.ke2, ke4 := T.ke1,
        ke5 := T.ke5, ke6 := T.ke6 } := by
  rcases h with h | h <;> simp [camelliaKeyswap, h]

theorem camelliaKeyswap_data_256 (T : CamelliaData)
    (h : T.type = Camellia192Encrypt ∨ T.type = Camellia192Decrypt ∨
         T.type = Camellia256Encrypt ∨ T.type = Camellia256Decrypt) :
    (camelliaKeyswap T).data =
      { type := if T.type = Camellia192Encrypt then Camellia192Decrypt
                else if T.type = Camellia192Decrypt then Camellia192Encrypt
                else if T.type = Camellia256Encrypt then Camellia256Decrypt
                else Camellia256Encrypt,
        kw1 := T.kw3, kw2 := T.kw4, kw3 := T.kw1, kw4 := T.kw2,
        k1 := T.k24, k2 := T.k23, k3 := T.k22, k4 := T.k21, k5 := T.k20, k6 := T.k19,
        k7 := T.k18, k8 := T.k17, k9 := T.k16, k10 := T.k15, k11 := T.k14, k12 := T.k13,
        k13 := T.k12, k14 := T.k11, k15 := T.k10, k16 := T.k9, k17 := T.k8, k18 := T.k7,
        k19 := T.k6, k20 := T.k5, k21 := T.k4, k22 := T.k3, k23 := T.k2, k24 := T.k1,
        ke1 := T.ke6, ke2 := T.ke5, ke3 := T.ke4, ke4 := T.ke3, ke5 := T.ke2,
        ke6 := T.ke1 } := by
  rcases h with h | h | h | h <;> simp [camelliaKeyswap, h]

/-- C11: postcondition of a successful `camelliaKeyswap`. For a 128-bit tag the
call returns 0, the tag changes to the other direction of the same size,
`kw1..kw4` become the old `kw3, kw4, kw1, kw2`, `k_i` becomes the old `k_(19-i)`
for `i = 1..18`, `ke1..ke4` become the old `ke4, ke3, ke2, ke1`, and `k19..k24`,
`ke5`, `ke6` are unchanged. For a 192- or 256-bit tag the call returns 0, the
tag changes to the other direction of the same size, `kw1..kw4` become the old
`kw3, kw4, kw1, kw2`, `k_i` becomes the old `k_(25-i)` for `i = 1..24` and
`ke1..ke6` become the old `ke6, ke5, ke4, ke3, ke2, ke1`. -/
theorem keyswap_postcondition (T : CamelliaData) :
    (T.type = Camellia128Encrypt ∨ T.type = Camellia128Decrypt →
      (camelliaKeyswap T).status = 0 ∧
      (camelliaKeyswap T).data =
        { type := if T.type = Camellia128Encrypt then Camellia128Decrypt
                  else Camellia128Encrypt,
          kw1 := T.kw3, kw2 := T.kw4, kw3 := T.kw1, kw4 := T.kw2,
          k1 := T.k18, k2 := T.k17, k3 := T.k16, k4 := T.k15, k5 := T.k14, k6 := T.k13,
          k7 := T.k12, k8 := T.k11, k9 := T.k10, k10 := T.k9, k11 := T.k8, k12 := T.k7,
          k13 := T.k6, k14 := T.k5, k15 := T.k4, k16 := T.k3, k17 := T.k2, k18 := T.k1,
          k19 := T.k19, k20 := T.k20, k21 := T.k21, k22 := T.k22, k23 := T.k23,
          k24 := T.k24,
          ke1 := T.ke4, ke2 := T.ke3, ke3 := T.ke2, ke4 := T.ke1,
          ke5 := T.ke5, ke6 := T.ke6 }) ∧
    (T.type = Camellia192Encrypt ∨ T.type = Camellia192Decrypt ∨
     T.type = Camellia256Encrypt ∨ T.type = Camellia256Decrypt →
      (camelliaKeyswap T).status = 0 ∧
      (camelliaKeyswap T).data =
        { type := if T.type = Camellia192Encrypt then Camellia192Decrypt
                  else if T.type = Camellia192Decrypt then Camellia192Encrypt
                  else if T.type = Camellia256Encrypt then Camellia256Decrypt
                  else Camellia256Encrypt,
          kw1 := T.kw3, kw2 := T.kw4, kw3 := T.kw1, kw4 := T.kw2,
          k1 := T.k24, k2 := T.k23, k3 := T.k22, k4 := T.k21, k5 := T.k20, k6 := T.k19,
          k7 := T.k18, k8 := T.k17, k9 := T.k16, k10 := T.k15, k11 := T.k14,
          k12 := T.k13, k13 := T.k12, k14 := T.k11, k15 := T.k10, k16 := T.k9,
          k17 := T.k8, k18 := T.k7, k19 := T.k6, k20 := T.k5, k21 := T.k4, k22 := T.k3,
          k23 := T.k2, k24 := T.k1,
          ke1 := T.ke6, ke2 := T.ke5, ke3 := T.ke4, ke4 := T.ke3, ke5 := T.ke2,
          ke6 := T.ke1 }) := by
  refine ⟨fun h => ⟨?_, camelliaKeyswap_data_128 T h⟩,
    fun h => ⟨?_, camelliaKeyswap_data_256 T h⟩⟩
  · rw [camelliaKeyswap_status, if_pos]
    unfold validType
    rcases h with h | h <;> simp [h]
  · rw [camelliaKeyswap_status, if_pos]
    unfold validType
    rcases h with h | h | h | h <;> simp [h]

/-- Witness for C11: the sample table (128-bit) and the 256-bit sample table. -/
theorem keyswap_postcondition_witness :
    ((sampleData.type = Camellia128Encrypt ∨ sampleData.type = Camellia128Decrypt) ∧
      (camelliaKeyswap sampleData).data =
        ⟨Camellia128Decrypt, 3, 4, 1, 2, 22, 21, 20, 19, 18, 17, 16, 15, 14, 13, 12, 11, 10, 9,
         8, 7, 6, 5, 23, 24, 25, 26, 27, 28, 32, 31, 30, 29, 33, 34⟩) ∧
    ((sampleData256.type = Camellia192Encrypt ∨ sampleData256.type = Camellia192Decrypt ∨
      sampleData256.type = Camellia256Encrypt ∨ sampleData256.type = Camellia256Decrypt) ∧
      (camelliaKeyswap sampleData256).data =
        ⟨Camellia256Decrypt, 103, 104, 101, 102, 128, 127, 126, 125, 124, 123, 122, 121, 120,
         119, 118, 117, 116, 115, 114, 113, 112, 111, 110, 109, 108, 107, 106, 105, 134, 133,
         132, 131, 130, 129⟩) :=
  ⟨⟨by decide, ((keyswap_postcondition sampleData).1 (by decide)).2⟩,
   ⟨by decide, ((keyswap_postcondition sampleData256).2 (by decide)).2⟩⟩

theorem datarandWords_direction (a b : CamelliaData) (x : Nat × Nat)
    (hs : sameSubkeys a b) (ht : oppositeDirection a.type b.type) :
    datarandWords a x = datarandWords b x := by
  obtain ⟨ta, a1, a2, a3, a4, a5, a6, a7, a8, a9, a10, a11, a12, a13, a14, a15, a16, a17,
    a18, a19, a20, a21, a22, a23, a24, a25, a26, a27, a28, a29, a30, a31, a32, a33, a34⟩ := a
  obtain ⟨tb, b1, b2, b3, b4, b5, b6, b7, b8, b9, b10, b11, b12, b13, b14, b15, b16, b17,
    b18, b19, b20, b21, b22, b23, b24, b25, b26, b27, b28, b29, b30, b31, b32, b33, b34⟩ := b
  simp only [sameSubkeys, agree128, agreeUnused128] at hs
  obtain ⟨⟨⟨h1, h2, h3, h4⟩, ⟨h5, h6, h7, h8, h9, h10⟩, ⟨h11, h12, h13, h14, h15, h16⟩,
    ⟨h17, h18, h19, h20, h21, h22⟩, ⟨h29, h30, h31, h32⟩⟩,
    ⟨h23, h24, h25, h26, h27, h28, h33, h34⟩⟩ := hs
  subst h1 h2 h3 h4 h5 h6 h7 h8 h9 h10 h11 h12 h13 h14 h15 h16 h17 h18 h19 h20 h21 h22
    h23 h24 h25 h26 h27 h28 h29 h30 h31 h32 h33 h34
  simp only [oppositeDirection] at ht
  rcases ht with ⟨h, h'⟩ | ⟨h, h'⟩ | ⟨h, h'⟩ | ⟨h, h'⟩ | ⟨h, h'⟩ | ⟨h, h'⟩ <;>
    subst h h' <;> simp [datarandWords, crypt18, tail24]

theorem oppositeDirection_valid (a b : CamelliaKeytype) (h : oppositeDirection a b) :
    validType a ∧ validType b := by
  unfold oppositeDirection at h
  rcases h with ⟨h, h'⟩ | ⟨h, h'⟩ | ⟨h, h'⟩ | ⟨h, h'⟩ | ⟨h, h'⟩ | ⟨h, h'⟩ <;>
    subst h h' <;> exact ⟨by decide, by decide⟩

/-- C12: the direction part of the tag has no effect on `camelliaDatarand`. For
every input block, every output buffer and every two tables with identical
subkey fields (`kw1..kw4`, `k1..k24`, `ke1..ke6`) whose tags have the same key
size and opposite directions, the two calls return the same status (0) and
leave the same bytes in the output buffer. -/
theorem datarand_direction_irrelevant (m c : List Nat) (a b : CamelliaData)
    (hs : sameSubkeys a b) (ht : oppositeDirection a.type b.type) :
    (camelliaDatarand m a c).status = (camelliaDatarand m b c).status ∧
    (camelliaDatarand m a c).status = 0 ∧
    (camelliaDatarand m a c).c = (camelliaDatarand m b c).c := by
  obtain ⟨hva, hvb⟩ := oppositeDirection_valid _ _ ht
  rw [camelliaDatarand_eq, camelliaDatarand_eq, if_neg (not_not.mpr hva),
    if_neg (not_not.mpr hvb), datarandWords_direction a b _ hs ht]
  exact ⟨rfl, rfl, rfl⟩

/-- C13: unused slots are never read in the 128-bit case. For every input block,
every output buffer and every two tables with the same tag `Camellia128Encrypt`
or `Camellia128Decrypt` that agree on `kw1..kw4`, `k1..k18`, `ke1..ke4`
(whatever `k19..k24`, `ke5`, `ke6` hold), the two calls return the same status
(0) and leave the same bytes in the output buffer. -/
theorem datarand_ignores_unused_128 (m c : List Nat) (a b : CamelliaData)
    (ht : a.type = b.type)
    (h128 : a.type = Camellia128Encrypt ∨ a.type = Camellia128Decrypt)
    (h : agree128 a b) :
    (camelliaDatarand m a c).status = (camelliaDatarand m b c).status ∧
    (camelliaDatarand m a c).status = 0 ∧
    (camelliaDatarand m a c).c = (camelliaDatarand m b c).c := by
  have hva : validType a.type := by
    unfold validType
    rcases h128 with h' | h' <;> simp [h']
  have hvb : validType b.type := ht ▸ hva
  rw [camelliaDatarand_eq, camelliaDatarand_eq, if_neg (not_not.mpr hva),
    if_neg (not_not.mpr hvb), datarandWords_agree128 a b _ h128 (ht ▸ h128) h]
  exact ⟨rfl, rfl, rfl⟩

/-- Witness for C12: the sample table and the same subkeys tagged
`Camellia128Decrypt`. -/
theorem datarand_direction_irrelevant_witness :
    sameSubkeys sampleData { sampleData with type := Camellia128Decrypt } ∧
    oppositeDirection sampleData.type
      ({ sampleData with type := Camellia128Decrypt } : CamelliaData).type ∧
    (camelliaDatarand p sampleData zeroBlock).c =
      (camelliaDatarand p { sampleData with type := Camellia128Decrypt } zeroBlock).c :=
  ⟨by decide, by decide,
   (datarand_direction_irrelevant p zeroBlock sampleData
     { sampleData with type := Camellia128Decrypt } (by decide) (by decide)).2.2⟩

/-- Witness for C13: the sample table and the same table with other values in
`k19..k24`, `ke5`, `ke6`. -/
theorem datarand_ignores_unused_128_witness :
    agree128 sampleData
      { sampleData with k19 := 0, k20 := 1, k21 := 2, k22 := 3, k23 := 4, k24 := 5,
                        ke5 := 6, ke6 := 7 } ∧
    (camelliaDatarand p sampleData zeroBlock).c =
      (camelliaDatarand p
        { sampleData with k19 := 0, k20 := 1, k21 := 2, k22 := 3, k23 := 4, k24 := 5,
                          ke5 := 6, ke6 := 7 } zeroBlock).c :=
  ⟨by decide,
   (datarand_ignores_unused_128 p zeroBlock sampleData
     { sampleData with k19 := 0, k20 := 1, k21 := 2, k22 := 3, k23 := 4, k24 := 5,
                       ke5 := 6, ke6 := 7 } rfl (Or.inl rfl) (by decide)).2.2⟩

/-- C16: `fl` and `flinv` are mutually inverse under the same key. For every
64-bit `x` and every key `ke`, `flinv (fl x ke) ke = x` and
`fl (flinv x ke) ke = x`. -/
theorem fl_flinv_inverse (x ke : Nat) (hx : x < 2 ^ 64) :
    flinv (fl x ke) ke = x ∧ fl (flinv x ke) ke = x :=
  ⟨flinv_fl x ke hx, fl_flinv x ke hx⟩

/-- Witness for C16 on the first word of the plaintext of `example.c` and the
key Σ1. -/
theorem fl_flinv_inverse_witness :
    (0x0123456789abcdef : Nat) < 2 ^ 64 ∧
    flinv (fl 0x0123456789abcdef sigma1) sigma1 = 0x0123456789abcdef ∧
    fl (flinv 0x0123456789abcdef sigma1) sigma1 = 0x0123456789abcdef :=
  ⟨by decide, fl_flinv_inverse 0x0123456789abcdef sigma1 (by decide)⟩

/-- C18: the key enters `f` only by XOR. For all `x` and `k`,
`f x k = f (x XOR k) 0`. -/
theorem f_key_by_xor (x k : Nat) : f x k = f (x ^^^ k) 0 := by
  simp only [f, Nat.xor_zero]

/-- C20: the four embedded S-box tables satisfy the derivation relations. For
every byte `x` in `0..255`, `sbox2[x] = r8(sbox1[x], 1)`,
`sbox3[x] = r8(sbox1[x], 7)` and `sbox4[x] = sbox1[r8(x, 1)]`. -/
theorem sbox_derivation (x : Nat) (hx : x < 256) :
    sbox2.getD x 0 = r8 (sbox1.getD x 0) 1 ∧
    sbox3.getD x 0 = r8 (sbox1.getD x 0) 7 ∧
    sbox4.getD x 0 = sbox1.getD (r8 x 1) 0 := by
  have h : ∀ y, y < 256 →
      sbox2.getD y 0 = r8 (sbox1.getD y 0) 1 ∧
      sbox3.getD y 0 = r8 (sbox1.getD y 0) 7 ∧
      sbox4.getD y 0 = sbox1.getD (r8 y 1) 0 := by
    decide!
  exact h x hx

/-- Witness for C20 at the byte `0xa5`. -/
theorem sbox_derivation_witness :
    (0xa5 : Nat) < 256 ∧
    sbox2.getD 0xa5 0 = r8 (sbox1.getD 0xa5 0) 1 ∧
    sbox3.getD 0xa5 0 = r8 (sbox1.getD 0xa5 0) 7 ∧
    sbox4.getD 0xa5 0 = sbox1.getD (r8 0xa5 1) 0 :=
  ⟨by decide, sbox_derivation 0xa5 (by decide)⟩

theorem xor_chain (t1 t2 t3 t4 t5 t6 t7 t8 : Nat) :
    let y8 := t1 ^^^ t4 ^^^ t5 ^^^ t6 ^^^ t7
    let y4 := y8 ^^^ t1 ^^^ t2 ^^^ t3
    let y7 := y4 ^^^ t2 ^^^ t7 ^^^ t8
    let y3 := y7 ^^^ t1 ^^^ t2 ^^^ t4
    let y6 := y3 ^^^ t1 ^^^ t6 ^^^ t7
    let y2 := y6 ^^^ t1 ^^^ t3 ^^^ t4
    let y5 := y2 ^^^ t4 ^^^ t5 ^^^ t6
    let y1 := y5 ^^^ t2 ^^^ t3 ^^^ t4
    y1 = t1 ^^^ t3 ^^^ t4 ^^^ t6 ^^^ t7 ^^^ t8 ∧
    y2 = t1 ^^^ t2 ^^^ t4 ^^^ t5 ^^^ t7 ^^^ t8 ∧
    y3 = t1 ^^^ t2 ^^^ t3 ^^^ t5 ^^^ t6 ^^^ t8 ∧
    y4 = t2 ^^^ t3 ^^^ t4 ^^^ t5 ^^^ t6 ^^^ t7 ∧
    y5 = t1 ^^^ t2 ^^^ t6 ^^^ t7 ^^^ t8 ∧
    y6 = t2 ^^^ t3 ^^^ t5 ^^^ t7 ^^^ t8 ∧
    y7 = t3 ^^^ t4 ^^^ t5 ^^^ t6 ^^^ t8 := by
  intro y8 y4 y7 y3 y6 y2 y5 y1
  refine ⟨?_, ?_, ?_, ?_, ?_, ?_, ?_⟩ <;>
  · apply Nat.eq_of_testBit_eq
    intro i
    simp only [y1, y2, y3, y4, y5, y6, y7, y8, Nat.testBit_xor]
    cases t1.testBit i <;> cases t2.testBit i <;> cases t3.testBit i <;>
      cases t4.testBit i <;> cases t5.testBit i <;> cases t6.testBit i <;>
      cases t7.testBit i <;> cases t8.testBit i <;> rfl

theorem getD_lt_of_all (l : List Nat) (h : ∀ x ∈ l, x < 256) (i : Nat) :
    l.getD i 0 < 256 := by
  by_cases hi : i < l.length
  · rw [List.getD_eq_getElem l 0 hi]
    exact h _ (List.getElem_mem hi)
  · rw [List.getD_eq_default l 0 (Nat.le_of_not_lt hi)]
    decide

theorem sbox1_lt (i : Nat) : sbox1.getD i 0 < 256 := getD_lt_of_all sbox1 (by decide!) i

theorem sbox2_lt (i : Nat) : sbox2.getD i 0 < 256 := getD_lt_of_all sbox2 (by decide!) i

theorem sbox3_lt (i : Nat) : sbox3.getD i 0 < 256 := getD_lt_of_all sbox3 (by decide!) i

theorem sbox4_lt (i : Nat) : sbox4.getD i 0 < 256 := getD_lt_of_all sbox4 (by decide!) i

theorem xor_lt_256 (a b : Nat) (ha : a < 256) (hb : b < 256) : a ^^^ b < 256 :=
  Nat.xor_lt_two_pow (n := 8) ha hb

theorem pack8_lt (y1 y2 y3 y4 y5 y6 y7 y8 : Nat)
    (h1 : y1 < 256) (h2 : y2 < 256) (h3 : y3 < 256) (h4 : y4 < 256)
    (h5 : y5 < 256) (h6 : y6 < 256) (h7 : y7 < 256) (h8 : y8 < 256) :
    u64 (y1 <<< 56) ||| u64 (y2 <<< 48) ||| u64 (y3 <<< 40) ||| u64 (y4 <<< 32) |||
      u64 (y5 <<< 24) ||| u64 (y6 <<< 16) ||| u64 (y7 <<< 8) ||| u64 (y8 <<< 0) =
    packBE [y1, y2, y3, y4, y5, y6, y7, y8] := by
  have h := pack8 y1 y2 y3 y4 y5 y6 y7 y8
  have e : ∀ y, y < 256 → u8 y = y := fun y hy => Nat.mod_eq_of_lt hy
  rw [e y1 h1, e y2 h2, e y3 h3, e y4 h4, e y5 h5, e y6 h6, e y7 h7, e y8 h8,
    Nat.mod_eq_of_lt h1, Nat.mod_eq_of_lt h2, Nat.mod_eq_of_lt h3, Nat.mod_eq_of_lt h4,
    Nat.mod_eq_of_lt h5, Nat.mod_eq_of_lt h6, Nat.mod_eq_of_lt h7, Nat.mod_eq_of_lt h8] at h
  rw [h]
  simp only [packBE, List.foldl_cons, List.foldl_nil]
  omega

/-- C17: the chained-accumulator `f` of the code equals the RFC matrix form.
For all `fIn` and `ke`, with `x = fIn XOR ke` split into bytes `x1..x8` (`x1`
most significant), `t1 = sbox1[x1]`, `t2 = sbox2[x2]`, `t3 = sbox3[x3]`,
`t4 = sbox4[x4]`, `t5 = sbox2[x5]`, `t6 = sbox3[x6]`, `t7 = sbox4[x7]`,
`t8 = sbox1[x8]`, the value `f fIn ke` is the big-endian packing of the eight
bytes `y1..y8` given by the XOR matrix of RFC 3713 (`fMatrix`). -/
theorem f_eq_fMatrix (fIn ke : Nat) : f fIn ke = fMatrix fIn ke := by
  have hc := xor_chain
    (sbox1.getD ((fIn ^^^ ke) / 2 ^ 56 % 256) 0) (sbox2.getD ((fIn ^^^ ke) / 2 ^ 48 % 256) 0)
    (sbox3.getD ((fIn ^^^ ke) / 2 ^ 40 % 256) 0) (sbox4.getD ((fIn ^^^ ke) / 2 ^ 32 % 256) 0)
    (sbox2.getD ((fIn ^^^ ke) / 2 ^ 24 % 256) 0) (sbox3.getD ((fIn ^^^ ke) / 2 ^ 16 % 256) 0)
    (sbox4.getD ((fIn ^^^ ke) / 2 ^ 8 % 256) 0) (sbox1.getD ((fIn ^^^ ke) % 256) 0)
  simp only at hc
  obtain ⟨e1, e2, e3, e4, e5, e6, e7⟩ := hc
  have b1 := sbox1_lt ((fIn ^^^ ke) / 2 ^ 56 % 256)
  have b2 := sbox2_lt ((fIn ^^^ ke) / 2 ^ 48 % 256)
  have b3 := sbox3_lt ((fIn ^^^ ke) / 2 ^ 40 % 256)
  have b4 := sbox4_lt ((fIn ^^^ ke) / 2 ^ 32 % 256)
  have b5 := sbox2_lt ((fIn ^^^ ke) / 2 ^ 24 % 256)
  have b6 := sbox3_lt ((fIn ^^^ ke) / 2 ^ 16 % 256)
  have b7 := sbox4_lt ((fIn ^^^ ke) / 2 ^ 8 % 256)
  have b8 := sbox1_lt ((fIn ^^^ ke) % 256)
  have s0 : u8 ((fIn ^^^ ke) >>> 0) = (fIn ^^^ ke) % 256 := by
    simp only [u8, Nat.shiftRight_zero, Nat.reducePow]
  have s : ∀ n, u8 ((fIn ^^^ ke) >>> n) = (fIn ^^^ ke) / 2 ^ n % 256 := by
    intro n
    simp only [u8, Nat.shiftRight_eq_div_pow, Nat.reducePow]
  simp only [f, fMatrix, s0, s 56, s 48, s 40, s 32, s 24, s 16, s 8]
  rw [e1, e5, e2, e6, e3, e7, e4]
  exact pack8_lt _ _ _ _ _ _ _ _
    (by repeat (first | assumption | apply xor_lt_256))
    (by repeat (first | assumption | apply xor_lt_256))
    (by repeat (first | assumption | apply xor_lt_256))
    (by repeat (first | assumption | apply xor_lt_256))
    (by repeat (first | assumption | apply xor_lt_256))
    (by repeat (first | assumption | apply xor_lt_256))
    (by repeat (first | assumption | apply xor_lt_256))
    (by repeat (first | assumption | apply xor_lt_256))

/-! ## Rotation of a 128-bit value -/

theorem shl_or_shr (w a c n : Nat) (hn : n ≤ w) (hc : c < 2 ^ w) :
    (a <<< n) % 2 ^ w ||| c >>> (w - n) = (a % 2 ^ (w - n)) * 2 ^ n + c / 2 ^ (w - n) := by
  have hw : 2 ^ w = 2 ^ (w - n) * 2 ^ n := by
    rw [← Nat.pow_add, Nat.sub_add_cancel hn]
  rw [Nat.shiftLeft_eq, Nat.shiftRight_eq_div_pow, hw, Nat.mul_mod_mul_right]
  apply lor_add _ _ n (Nat.mul_mod_left _ _)
  apply Nat.div_lt_of_lt_mul
  rw [← hw]
  exact hc

theorem rot_core_lo (P Q hi lo : Nat) (hP : 0 < P) (hlo : lo < P * Q) :
    ((hi * (P * Q) + lo) % (P * Q * P)) * Q + (hi * (P * Q) + lo) / (P * Q * P) =
      ((hi % P) * Q + lo / P) * (P * Q) + ((lo % P) * Q + hi / P) := by
  have hhi := Nat.div_add_mod hi P
  have hlo' := Nat.div_add_mod lo P
  have hr : hi % P < P := Nat.mod_lt _ hP
  have hX : hi * (P * Q) + lo = ((hi % P) * (P * Q) + lo) + (P * Q * P) * (hi / P) := by
    conv_lhs => rw [← hhi]
    ring
  have hlt : (hi % P) * (P * Q) + lo < P * Q * P := by
    have h1 : (hi % P + 1) * (P * Q) ≤ P * (P * Q) := Nat.mul_le_mul_right _ hr
    have h2 : (hi % P + 1) * (P * Q) = (hi % P) * (P * Q) + P * Q := by ring
    have h3 : P * (P * Q) = P * Q * P := by ring
    omega
  have hM : 0 < P * Q * P := by omega
  rw [hX, Nat.add_mul_mod_self_left, Nat.add_mul_div_left _ _ hM, Nat.mod_eq_of_lt hlt,
    Nat.div_eq_of_lt hlt]
  conv_lhs => rw [← hlo']
  ring

theorem rot_core_hi (P Q hi lo : Nat) (hP : 0 < P) :
    ((hi * (P * Q) + lo) % P) * (P * Q * Q) + (hi * (P * Q) + lo) / P =
      ((lo % P) * Q + hi / P) * (P * Q) + ((hi % P) * Q + lo / P) := by
  have hhi := Nat.div_add_mod hi P
  have hlo' := Nat.div_add_mod lo P
  have hd : lo % P < P := Nat.mod_lt _ hP
  have hX : hi * (P * Q) + lo = lo % P + P * (hi * Q + lo / P) := by
    conv_lhs => rw [← hlo']
    ring
  rw [hX, Nat.add_mul_mod_self_left, Nat.add_mul_div_left _ _ hP, Nat.mod_eq_of_lt hd,
    Nat.div_eq_of_lt hd]
  conv_lhs => rw [← hhi]
  ring

theorem rotl128_eq (x n : Nat) (hn : n ≤ 128) (hx : x < 2 ^ 128) :
    rotl128 x n = (x % 2 ^ (128 - n)) * 2 ^ n + x / 2 ^ (128 - n) :=
  shl_or_shr 128 x x n hn hx

theorem r128_select (n : Nat) (hn : n < 256) :
    u8 (n &&& 0x3f) = n % 64 ∧ u8 (n &&& 0x40) = n / 64 % 2 * 64 := by
  have h : ∀ m, m < 256 → u8 (m &&& 0x3f) = m % 64 ∧ u8 (m &&& 0x40) = m / 64 % 2 * 64 := by
    decide!
  exact h n hn

theorem r128_eq (hi lo n : Nat) (hlo : lo < 2 ^ 64) (hhi : hi < 2 ^ 64) (hn : n < 256) :
    r128 (hi, lo) n =
      if n / 64 % 2 = 0 then
        ((hi % 2 ^ (64 - n % 64)) * 2 ^ (n % 64) + lo / 2 ^ (64 - n % 64),
         (lo % 2 ^ (64 - n % 64)) * 2 ^ (n % 64) + hi / 2 ^ (64 - n % 64))
      else
        ((lo % 2 ^ (64 - n % 64)) * 2 ^ (n % 64) + hi / 2 ^ (64 - n % 64),
         (hi % 2 ^ (64 - n % 64)) * 2 ^ (n % 64) + lo / 2 ^ (64 - n % 64)) := by
  obtain ⟨h1, h3⟩ := r128_select n hn
  have hb : n % 64 < 64 := Nat.mod_lt _ (by decide)
  have h2 : u8 (0x40 - n % 64) = 64 - n % 64 := by
    unfold u8
    omega
  have hH : (if n % 64 > 0 then u64 (hi <<< (n % 64)) ||| lo >>> (64 - n % 64) else hi) =
      (hi % 2 ^ (64 - n % 64)) * 2 ^ (n % 64) + lo / 2 ^ (64 - n % 64) := by
    split_ifs with h0
    · exact shl_or_shr 64 hi lo (n % 64) (by omega) hlo
    · have e : n % 64 = 0 := by omega
      rw [e]
      simp only [Nat.sub_zero, Nat.pow_zero, Nat.mul_one]
      omega
  have hL : (if n % 64 > 0 then u64 (lo <<< (n % 64)) ||| hi >>> (64 - n % 64) else lo) =
      (lo % 2 ^ (64 - n % 64)) * 2 ^ (n % 64) + hi / 2 ^ (64 - n % 64) := by
    split_ifs with h0
    · exact shl_or_shr 64 lo hi (n % 64) (by omega) hhi
    · have e : n % 64 = 0 := by omega
      rw [e]
      simp only [Nat.sub_zero, Nat.pow_zero, Nat.mul_one]
      omega
  simp only [r128, h1, h2, h3, hH, hL]
  have hs : n / 64 % 2 = 0 ∨ n / 64 % 2 = 1 := by omega
  rcases hs with hs | hs <;> simp [hs]

theorem r128_spec (hi lo n : Nat) (hhi : hi < 2 ^ 64) (hlo : lo < 2 ^ 64) (hn : n < 256) :
    (r128 (hi, lo) n).1 * 2 ^ 64 + (r128 (hi, lo) n).2 =
      rotl128 (hi * 2 ^ 64 + lo) (n % 128) := by
  have hb : n % 64 < 64 := Nat.mod_lt _ (by decide)
  have hx : hi * 2 ^ 64 + lo < 2 ^ 128 := by omega
  have hPQ : (2 : Nat) ^ 64 = 2 ^ (64 - n % 64) * 2 ^ (n % 64) := by
    rw [← Nat.pow_add, Nat.sub_add_cancel (Nat.le_of_lt hb)]
  have hP : 0 < 2 ^ (64 - n % 64) := Nat.pow_pos (by decide)
  have hlo' : lo < 2 ^ (64 - n % 64) * 2 ^ (n % 64) := hPQ ▸ hlo
  rw [r128_eq hi lo n hlo hhi hn, rotl128_eq _ _ (by omega) hx]
  have hs : n / 64 % 2 = 0 ∨ n / 64 % 2 = 1 := by omega
  rcases hs with hs | hs
  · have e : n % 128 = n % 64 := by omega
    have e1 : (2 : Nat) ^ (128 - n % 64) =
        2 ^ (64 - n % 64) * 2 ^ (n % 64) * 2 ^ (64 - n % 64) := by
      rw [← Nat.pow_add, ← Nat.pow_add]
      congr 1
      omega
    rw [if_pos hs, e, e1]
    simp only
    rw [hPQ]
    exact (rot_core_lo _ _ hi lo hP hlo').symm
  · have e : n % 128 = 64 + n % 64 := by omega
    have e1 : 128 - (64 + n % 64) = 64 - n % 64 := by omega
    have e2 : (2 : Nat) ^ (64 + n % 64) =
        2 ^ (64 - n % 64) * 2 ^ (n % 64) * 2 ^ (n % 64) := by
      rw [← Nat.pow_add, ← Nat.pow_add]
      congr 1
      omega
    rw [if_neg (by omega), e, e1, e2]
    simp only
    rw [hPQ]
    exact (rot_core_hi _ _ hi lo hP).symm

theorem r128_inU64 (w : Nat × Nat) (n : Nat) (hw : inU64 w) : inU64 (r128 w n) := by
  have s1 : ∀ a b c : Nat, c < 2 ^ 64 → u64 (a <<< b) ||| c >>> (u8 (0x40 - b)) < 2 ^ 64 := by
    intro a b c hc
    apply Nat.or_lt_two_pow (u64_lt _)
    rw [Nat.shiftRight_eq_div_pow]
    exact Nat.lt_of_le_of_lt (Nat.div_le_self _ _) hc
  obtain ⟨h1, h2⟩ := hw
  unfold r128 inU64
  simp only
  split_ifs <;> exact ⟨by first | assumption | exact s1 _ _ _ h2 | exact s1 _ _ _ h1,
    by first | assumption | exact s1 _ _ _ h2 | exact s1 _ _ _ h1⟩

theorem r128_halves (w : Nat × Nat) (n : Nat) (hw : inU64 w) (hn : n < 128) :
    r128 w n = (upper64 (rotl128 (join128 w) n), lower64 (rotl128 (join128 w) n)) := by
  obtain ⟨hi, lo⟩ := w
  have hs := r128_spec hi lo n hw.1 hw.2 (by omega)
  have hb := r128_inU64 (hi, lo) n hw
  rw [Nat.mod_eq_of_lt hn] at hs
  unfold join128 upper64 lower64
  simp only
  rw [← hs]
  obtain ⟨hb1, hb2⟩ := hb
  apply Prod.ext
  · simp only; omega
  · simp only; omega

/-- C19: `r128` is a true 128-bit left rotation. For all 64-bit `hi`, `lo` and
every 8-bit count `n`, the pair `(H, L)` delivered by `r128` consists of two
64-bit words with `H * 2^64 + L` the left rotation of `hi * 2^64 + lo` by
`n mod 128` bits; `n = 0` returns `(hi, lo)`, `n = 64` returns `(lo, hi)`; and
through the output pointers, a call with one `NULL` pointer delivers the same
half as the call with both pointers set. -/
theorem r128_true_rotation (hi lo n : Nat) (hhi : hi < 2 ^ 64) (hlo : lo < 2 ^ 64)
    (hn : n < 256) :
    (r128 (hi, lo) n).1 < 2 ^ 64 ∧ (r128 (hi, lo) n).2 < 2 ^ 64 ∧
    (r128 (hi, lo) n).1 * 2 ^ 64 + (r128 (hi, lo) n).2 =
      rotl128 (hi * 2 ^ 64 + lo) (n % 128) ∧
    r128 (hi, lo) 0 = (hi, lo) ∧
    r128 (hi, lo) 64 = (lo, hi) ∧
    (∀ a b : Nat, r128Out (hi, lo) n (some a) (some b) =
      (some (r128 (hi, lo) n).1, some (r128 (hi, lo) n).2)) ∧
    (∀ a b : Nat, (r128Out (hi, lo) n (some a) none).1 =
      (r128Out (hi, lo) n (some a) (some b)).1 ∧
      (r128Out (hi, lo) n (some a) none).2 = none) ∧
    (∀ a b : Nat, (r128Out (hi, lo) n none (some b)).2 =
      (r128Out (hi, lo) n (some a) (some b)).2 ∧
      (r128Out (hi, lo) n none (some b)).1 = none) := by
  have hb := r128_inU64 (hi, lo) n ⟨hhi, hlo⟩
  refine ⟨hb.1, hb.2, r128_spec hi lo n hhi hlo hn, rfl, rfl, ?_, ?_, ?_⟩
  · intro a b; rfl
  · intro a b; exact ⟨rfl, rfl⟩
  · intro a b; exact ⟨rfl, rfl⟩

/-- Witness for C19: the first 16 bytes of the test keys as two words, rotated
by 77. -/
theorem r128_true_rotation_witness :
    (0x0123456789abcdef : Nat) < 2 ^ 64 ∧ (0xfedcba9876543210 : Nat) < 2 ^ 64 ∧
    (77 : Nat) < 256 ∧
    (r128 (0x0123456789abcdef, 0xfedcba9876543210) 77).1 * 2 ^ 64 +
      (r128 (0x0123456789abcdef, 0xfedcba9876543210) 77).2 =
      rotl128 (0x0123456789abcdef * 2 ^ 64 + 0xfedcba9876543210) (77 % 128) :=
  ⟨by decide, by decide, by decide,
   (r128_true_rotation 0x0123456789abcdef 0xfedcba9876543210 77 (by decide) (by decide)
     (by decide)).2.2.1⟩

/-! ## The key schedule against the reference schedule -/

theorem camelliaKeysche_128_form (k : List Nat) (d : CamelliaData) :
    (camelliaKeysche Camellia128Encrypt k d).data =
      { d with
        type := Camellia128Encrypt,
        kw1 := (r128 (klPair k) 0).1, kw2 := (r128 (klPair k) 0).2,
        k1 := (r128 (kaPair (klPair k) (0, 0)) 0).1,
        k2 := (r128 (kaPair (klPair k) (0, 0)) 0).2,
        k3 := (r128 (klPair k) 15).1, k4 := (r128 (klPair k) 15).2,
        k5 := (r128 (kaPair (klPair k) (0, 0)) 15).1,
        k6 := (r128 (kaPair (klPair k) (0, 0)) 15).2,
        ke1 := (r128 (kaPair (klPair k) (0, 0)) 30).1,
        ke2 := (r128 (kaPair (klPair k) (0, 0)) 30).2,
        k7 := (r128 (klPair k) 45).1, k8 := (r128 (klPair k) 45).2,
        k9 := (r128 (kaPair (klPair k) (0, 0)) 45).1,
        k10 := (r128 (klPair k) 60).2,
        k11 := (r128 (kaPair (klPair k) (0, 0)) 60).1,
        k12 := (r128 (kaPair (klPair k) (0, 0)) 60).2,
        ke3 := (r128 (klPair k) 77).1, ke4 := (r128 (klPair k) 77).2,
        k13 := (r128 (klPair k) 94).1, k14 := (r128 (klPair k) 94).2,
        k15 := (r128 (kaPair (klPair k) (0, 0)) 94).1,
        k16 := (r128 (kaPair (klPair k) (0, 0)) 94).2,
        k17 := (r128 (klPair k) 111).1, k18 := (r128 (klPair k) 111).2,
        kw3 := (r128 (kaPair (klPair k) (0, 0)) 111).1,
        kw4 := (r128 (kaPair (klPair k) (0, 0)) 111).2 } := by
  simp [camelliaKeysche, klPair, kaPair]

theorem camelliaKeysche_256_form (type : CamelliaKeytype) (k : List Nat) (d : CamelliaData)
    (h : type = Camellia192Encrypt ∨ type = Camellia256Encrypt) :
    (camelliaKeysche type k d).data =
      { type := type,
        kw1 := (r128 (klPair k) 0).1, kw2 := (r128 (klPair k) 0).2,
        k1 := (r128 (kbPair (kaPair (klPair k) (krPair type k)) (krPair type k)) 0).1,
        k2 := (r128 (kbPair (kaPair (klPair k) (krPair type k)) (krPair type k)) 0).2,
        k3 := (r128 (krPair type k) 15).1, k4 := (r128 (krPair type k) 15).2,
        k5 := (r128 (kaPair (klPair k) (krPair type k)) 15).1,
        k6 := (r128 (kaPair (klPair k) (krPair type k)) 15).2,
        ke1 := (r128 (krPair type k) 30).1, ke2 := (r128 (krPair type k) 30).2,
        k7 := (r128 (kbPair (kaPair (klPair k) (krPair type k)) (krPair type k)) 30).1,
        k8 := (r128 (kbPair (kaPair (klPair k) (krPair type k)) (krPair type k)) 30).2,
        k9 := (r128 (klPair k) 45).1, k10 := (r128 (klPair k) 45).2,
        k11 := (r128 (kaPair (klPair k) (krPair type k)) 45).1,
        k12 := (r128 (kaPair (klPair k) (krPair type k)) 45).2,
        ke3 := (r128 (klPair k) 60).1, ke4 := (r128 (klPair k) 60).2,
        k13 := (r128 (krPair type k) 60).1, k14 := (r128 (krPair type k) 60).2,
        k15 := (r128 (kbPair (kaPair (klPair k) (krPair type k)) (krPair type k)) 60).1,
        k16 := (r128 (kbPair (kaPair (klPair k) (krPair type k)) (krPair type k)) 60).2,
        k17 := (r128 (klPair k) 77).1, k18 := (r128 (klPair k) 77).2,
        ke5 := (r128 (kaPair (klPair k) (krPair type k)) 77).1,
        ke6 := (r128 (kaPair (klPair k) (krPair type k)) 77).2,
        k19 := (r128 (krPair type k) 94).1, k20 := (r128 (krPair type k) 94).2,
        k21 := (r128 (kaPair (klPair k) (krPair type k)) 94).1,
        k22 := (r128 (kaPair (klPair k) (krPair type k)) 94).2,
        k23 := (r128 (klPair k) 111).1, k24 := (r128 (klPair k) 111).2,
        kw3 := (r128 (kbPair (kaPair (klPair k) (krPair type k)) (krPair type k)) 111).1,
        kw4 := (r128 (kbPair (kaPair (klPair k) (krPair type k)) (krPair type k)) 111).2 } := by
  rcases h with h | h <;> subst h <;> simp [camelliaKeysche, klPair, krPair, kaPair, kbPair]

theorem n8u64_drop (k : List Nat) (off j : Nat) :
    n8u64 (k.drop off) j = n8u64 k (off + j) := by
  have e : ∀ i, (k.drop off).getD (j + i) 0 = k.getD (off + j + i) 0 := by
    intro i
    rw [List.getD_eq_getElem?_getD, List.getD_eq_getElem?_getD, List.getElem?_drop,
      Nat.add_assoc]
  simp only [n8u64, e]

theorem isBytes_drop (k : List Nat) (n : Nat) (h : isBytes k) : isBytes (k.drop n) :=
  fun x hx => h x (List.mem_of_mem_drop hx)

theorem packBE_take8 (l : List Nat) (hl : 8 ≤ l.length) (hb : isBytes l) :
    packBE (l.take 8) = n8u64 l 0 := by
  iterate 8 (rcases l with _ | ⟨_, l⟩; · simp at hl)
  simp only [isBytes, List.mem_cons, forall_eq_or_imp] at hb
  obtain ⟨h0, h1, h2, h3, h4, h5, h6, h7, -⟩ := hb
  simp only [n8u64, List.getD_cons_zero, List.getD_cons_succ, Nat.zero_add, Nat.reduceAdd]
  rw [pack8]
  simp only [packBE, List.take_succ_cons, List.take_zero, List.foldl_cons, List.foldl_nil]
  omega

theorem packBE_take16 (l : List Nat) (hl : 16 ≤ l.length) (hb : isBytes l) :
    packBE (l.take 16) = n8u64 l 0 * 2 ^ 64 + n8u64 l 8 := by
  iterate 16 (rcases l with _ | ⟨_, l⟩; · simp at hl)
  simp only [isBytes, List.mem_cons, forall_eq_or_imp] at hb
  obtain ⟨h0, h1, h2, h3, h4, h5, h6, h7, h8, h9, h10, h11, h12, h13, h14, h15, -⟩ := hb
  simp only [n8u64, List.getD_cons_zero, List.getD_cons_succ, Nat.zero_add, Nat.reduceAdd]
  rw [pack8, pack8]
  simp only [packBE, List.take_succ_cons, List.take_zero, List.foldl_cons, List.foldl_nil]
  omega

theorem upper64_join (w : Nat × Nat) (h : inU64 w) : upper64 (join128 w) = w.1 := by
  obtain ⟨_, h2⟩ := h
  unfold upper64 join128
  omega

theorem lower64_join (w : Nat × Nat) (h : inU64 w) : lower64 (join128 w) = w.2 := by
  obtain ⟨_, h2⟩ := h
  unfold lower64 join128
  omega

theorem klPair_inU64 (k : List Nat) : inU64 (klPair k) := ⟨n8u64_lt k 0, n8u64_lt k 8⟩

theorem krPair_inU64 (type : CamelliaKeytype) (k : List Nat) : inU64 (krPair type k) := by
  unfold krPair
  split_ifs
  · exact ⟨by decide, by decide⟩
  · exact ⟨n8u64_lt k 16, u64_lt _⟩
  · exact ⟨n8u64_lt k 16, n8u64_lt k 24⟩

theorem kaPair_inU64 (kl kr : Nat × Nat) (hl : inU64 kl) (hr : inU64 kr) :
    inU64 (kaPair kl kr) := by
  obtain ⟨l1, l2⟩ := hl
  obtain ⟨r1, r2⟩ := hr
  exact ⟨Nat.xor_lt_two_pow (Nat.xor_lt_two_pow (Nat.xor_lt_two_pow
      (Nat.xor_lt_two_pow l1 r1) (f_lt _ _)) l1) (f_lt _ _),
    Nat.xor_lt_two_pow (Nat.xor_lt_two_pow (Nat.xor_lt_two_pow
      (Nat.xor_lt_two_pow l2 r2) (f_lt _ _)) l2) (f_lt _ _)⟩

theorem kbPair_inU64 (ka kr : Nat × Nat) (ha : inU64 ka) (hr : inU64 kr) :
    inU64 (kbPair ka kr) := by
  obtain ⟨a1, a2⟩ := ha
  obtain ⟨r1, r2⟩ := hr
  exact ⟨Nat.xor_lt_two_pow (Nat.xor_lt_two_pow a1 r1) (f_lt _ _),
    Nat.xor_lt_two_pow (Nat.xor_lt_two_pow a2 r2) (f_lt _ _)⟩

theorem specKA_join (kl kr : Nat × Nat) (hl : inU64 kl) (hr : inU64 kr) :
    specKA (join128 kl) (join128 kr) = join128 (kaPair kl kr) := by
  simp only [specKA, upper64_join _ hl, lower64_join _ hl, upper64_join _ hr,
    lower64_join _ hr]
  rfl

theorem specKB_join (ka kr : Nat × Nat) (ha : inU64 ka) (hr : inU64 kr) :
    specKB (join128 ka) (join128 kr) = join128 (kbPair ka kr) := by
  simp only [specKB, upper64_join _ ha, lower64_join _ ha, upper64_join _ hr,
    lower64_join _ hr]
  rfl

theorem specKL_join (k : List Nat) (hl : 16 ≤ k.length) (hb : isBytes k) :
    specKL k = join128 (klPair k) := by
  unfold specKL
  rw [packBE_take16 k hl hb]
  rfl

theorem specKR_join (type : CamelliaKeytype) (k : List Nat) (ht : encryptType type)
    (hl : k.length = keyLength type) (hb : isBytes k) :
    specKR type k = join128 (krPair type k) := by
  unfold encryptType at ht
  rcases ht with ht | ht | ht <;> subst ht
  · simp [specKR, krPair, join128]
  · have hlen : 8 ≤ (k.drop 16).length := by
      rw [List.length_drop, hl]; decide
    have e := packBE_take8 (k.drop 16) hlen (isBytes_drop k 16 hb)
    rw [n8u64_drop] at e
    have hlt := n8u64_lt k 16
    simp only [specKR, krPair, join128, e, not64, u64, Nat.add_zero]
    simp only [show ¬ (Camellia192Encrypt = Camellia128Encrypt) by decide, if_false, if_true]
    omega
  · have hlen : 16 ≤ (k.drop 16).length := by
      rw [List.length_drop, hl]; decide
    have e := packBE_take16 (k.drop 16) hlen (isBytes_drop k 16 hb)
    rw [n8u64_drop, n8u64_drop] at e
    simp only [specKR, krPair, join128, e]
    simp

theorem keysche_eq_spec_128 (k : List Nat) (d : CamelliaData) (hl : k.length = 16)
    (hb : isBytes k) :
    (camelliaKeysche Camellia128Encrypt k d).data = specSchedule Camellia128Encrypt k d := by
  have hkl := klPair_inU64 k
  have hkr := krPair_inU64 Camellia128Encrypt k
  have hka := kaPair_inU64 _ _ hkl hkr
  have e0 : krPair Camellia128Encrypt k = (0, 0) := rfl
  have HL := fun n hn => r128_halves (klPair k) n hkl hn
  have HA := fun n hn => r128_halves (kaPair (klPair k) (0, 0)) n (e0 ▸ hka) hn
  rw [camelliaKeysche_128_form]
  unfold specSchedule
  rw [if_pos rfl, specKL_join k (by omega) hb,
    specKR_join Camellia128Encrypt k (by decide) (by rw [hl]; rfl) hb,
    specKA_join _ _ hkl hkr, e0]
  unfold specTable128
  rw [HL 0 (by decide), HL 15 (by decide), HL 45 (by decide), HL 60 (by decide),
    HL 77 (by decide), HL 94 (by decide), HL 111 (by decide),
    HA 0 (by decide), HA 15 (by decide), HA 30 (by decide), HA 45 (by decide),
    HA 60 (by decide), HA 94 (by decide), HA 111 (by decide)]

theorem keysche_eq_spec_256 (type : CamelliaKeytype) (k : List Nat) (d : CamelliaData)
    (ht : type = Camellia192Encrypt ∨ type = Camellia256Encrypt)
    (hl : k.length = keyLength type) (hb : isBytes k) :
    (camelliaKeysche type k d).data = specSchedule type k d := by
  have hne : type ≠ Camellia128Encrypt := by
    rcases ht with h | h <;> subst h <;> decide
  have hlen : 16 ≤ k.length := by
    rcases ht with h | h <;> subst h <;> rw [hl] <;> decide
  have hkl := klPair_inU64 k
  have hkr := krPair_inU64 type k
  have hka := kaPair_inU64 _ _ hkl hkr
  have hkb := kbPair_inU64 _ _ hka hkr
  have HL := fun n hn => r128_halves (klPair k) n hkl hn
  have HR := fun n hn => r128_halves (krPair type k) n hkr hn
  have HA := fun n hn => r128_halves (kaPair (klPair k) (krPair type k)) n hka hn
  have HB := fun n hn =>
    r128_halves (kbPair (kaPair (klPair k) (krPair type k)) (krPair type k)) n hkb hn
  rw [camelliaKeysche_256_form type k d ht]
  unfold specSchedule
  rw [if_neg hne, specKL_join k hlen hb,
    specKR_join type k (by unfold encryptType; tauto) hl hb,
    specKA_join _ _ hkl hkr, specKB_join _ _ hka hkr]
  unfold specTable256
  rw [HL 0 (by decide), HL 45 (by decide), HL 60 (by decide), HL 77 (by decide),
    HL 111 (by decide),
    HR 15 (by decide), HR 30 (by decide), HR 60 (by decide), HR 94 (by decide),
    HA 15 (by decide), HA 45 (by decide), HA 77 (by decide), HA 94 (by decide),
    HB 0 (by decide), HB 30 (by decide), HB 60 (by decide), HB 111 (by decide)]

/-- C14: `camelliaKeysche` equals the RFC 3713 reference schedule. For every
Encrypt kind and every key of the matching length the call returns 0, tags the
table with the requested kind, and the table equals `specSchedule`: with `KL`,
`KR`, `KA`, `KB` the 128-bit values of steps 1-2 of the specification and
`rotl128` the left rotation of a 128-bit integer, every live subkey is the upper
or lower 64-bit half of the rotation listed for it (for the 128-bit kind the
slots `k19..k24`, `ke5`, `ke6` are left as they were). -/
theorem keysche_reference (type : CamelliaKeytype) (k : List Nat) (d : CamelliaData)
    (ht : encryptType type) (hl : k.length = keyLength type) (hb : isBytes k) :
    (camelliaKeysche type k d).status = 0 ∧
    (camelliaKeysche type k d).data.type = type ∧
    (camelliaKeysche type k d).data = specSchedule type k d := by
  refine ⟨by rw [camelliaKeysche_status, if_pos ht], camelliaKeysche_type type k d ht, ?_⟩
  unfold encryptType at ht
  rcases ht with h | h | h
  · subst h
    exact keysche_eq_spec_128 k d hl hb
  · exact keysche_eq_spec_256 type k d (Or.inl h) hl hb
  · exact keysche_eq_spec_256 type k d (Or.inr h) hl hb

/-- Witness for C14: the 192-bit test key of `example.c` on a zeroed record. -/
theorem keysche_reference_witness :
    encryptType Camellia192Encrypt ∧ k192.length = keyLength Camellia192Encrypt ∧
    isBytes k192 ∧
    (camelliaKeysche Camellia192Encrypt k192 zeroData).data =
      specSchedule Camellia192Encrypt k192 zeroData :=
  ⟨by decide, by decide, by decide,
   (keysche_reference Camellia192Encrypt k192 zeroData (by decide) (by decide)
     (by decide)).2.2⟩

/-! ## The 192-bit schedule as a 256-bit schedule -/

theorem n8u64_append_left (K C : List Nat) (off : Nat) (h : off + 8 ≤ K.length) :
    n8u64 (K ++ C) off = n8u64 K off := by
  have e : ∀ i, i < 8 → (K ++ C).getD (off + i) 0 = K.getD (off + i) 0 :=
    fun i hi => List.getD_append K C 0 (off + i) (by omega)
  simp only [n8u64, e 0 (by decide), e 1 (by decide), e 2 (by decide), e 3 (by decide),
    e 4 (by decide), e 5 (by decide), e 6 (by decide), e 7 (by decide)]

theorem n8u64_append_right (K C : List Nat) :
    n8u64 (K ++ C) K.length = n8u64 C 0 := by
  have e : ∀ i, (K ++ C).getD (K.length + i) 0 = C.getD (0 + i) 0 := by
    intro i
    rw [List.getD_append_right K C 0 (K.length + i) (by omega)]
    congr 1
    omega
  simp only [n8u64, e]

theorem n8u64_complTail (K : List Nat) (hl : K.length = 24) (hb : isBytes K) :
    n8u64 (complTail K) 0 = not64 (n8u64 K 16) := by
  have hd : (K.drop 16).length = 8 := by rw [List.length_drop, hl]
  have hbd := isBytes_drop K 16 hb
  have e : n8u64 K 16 = n8u64 (K.drop 16) 0 := (n8u64_drop K 16 0).symm
  rw [e]
  unfold complTail
  generalize K.drop 16 = l at hd hbd
  iterate 8 (rcases l with _ | ⟨_, l⟩; · simp at hd)
  rcases l with _ | ⟨_, l⟩
  · simp only [isBytes, List.mem_cons, List.mem_nil_iff, or_false, forall_eq_or_imp,
      forall_eq] at hbd
    obtain ⟨h0, h1, h2, h3, h4, h5, h6, h7⟩ := hbd
    simp only [List.take_succ_cons, List.take_nil, List.map_cons, List.map_nil, n8u64,
      List.getD_cons_zero, List.getD_cons_succ, Nat.zero_add, Nat.reduceAdd]
    rw [pack8, pack8]
    simp only [not64, u64]
    omega
  · simp at hd

theorem klPair_append (K C : List Nat) (h : 16 ≤ K.length) :
    klPair (K ++ C) = klPair K := by
  unfold klPair
  rw [n8u64_append_left K C 0 (by omega), n8u64_append_left K C 8 (by omega)]

theorem krPair_append_complTail (K : List Nat) (hl : K.length = 24) (hb : isBytes K) :
    krPair Camellia256Encrypt (K ++ complTail K) = krPair Camellia192Encrypt K := by
  have e24 : n8u64 (K ++ complTail K) 24 = n8u64 (complTail K) 0 := by
    have := n8u64_append_right K (complTail K)
    rwa [hl] at this
  simp only [krPair, n8u64_append_left K (complTail K) 16 (by omega), e24,
    n8u64_complTail K hl hb]
  simp

/-- C15: in the 192-bit schedule `KR_lo` is the bitwise complement of `KR_hi`,
observably. For every 24-byte key `K` and any two prior records,
`camelliaKeysche` with `Camellia192Encrypt` and `K` returns 0 and produces
exactly the same subkeys `kw1..kw4`, `k1..k24`, `ke1..ke6` as `camelliaKeysche`
with `Camellia256Encrypt` and `K ++ C`, where `C` is the 8 bytes `K[16..23]`
each bitwise complemented; the tags are `Camellia192Encrypt` and
`Camellia256Encrypt`. -/
theorem keysche_192_as_256 (K : List Nat) (d d' : CamelliaData) (hl : K.length = 24)
    (hb : isBytes K) :
    (camelliaKeysche Camellia192Encrypt K d).status = 0 ∧
    (camelliaKeysche Camellia256Encrypt (K ++ complTail K) d').status = 0 ∧
    sameSubkeys (camelliaKeysche Camellia192Encrypt K d).data
      (camelliaKeysche Camellia256Encrypt (K ++ complTail K) d').data ∧
    (camelliaKeysche Camellia192Encrypt K d).data.type = Camellia192Encrypt ∧
    (camelliaKeysche Camellia256Encrypt (K ++ complTail K) d').data.type =
      Camellia256Encrypt := by
  refine ⟨by rw [camelliaKeysche_status, if_pos (by decide)],
    by rw [camelliaKeysche_status, if_pos (by decide)], ?_,
    camelliaKeysche_type _ _ _ (by decide), camelliaKeysche_type _ _ _ (by decide)⟩
  rw [camelliaKeysche_256_form Camellia192Encrypt K d (Or.inl rfl),
    camelliaKeysche_256_form Camellia256Encrypt (K ++ complTail K) d' (Or.inr rfl),
    klPair_append K (complTail K) (by omega), krPair_append_complTail K hl hb]
  simp [sameSubkeys, agree128, agreeUnused128]

/-- Witness for C15: the 192-bit test key of `example.c`. -/
theorem keysche_192_as_256_witness :
    k192.length = 24 ∧ isBytes k192 ∧
    complTail k192 = [0xff, 0xee, 0xdd, 0xcc, 0xbb, 0xaa, 0x99, 0x88] ∧
    sameSubkeys (camelliaKeysche Camellia192Encrypt k192 zeroData).data
      (camelliaKeysche Camellia256Encrypt (k192 ++ complTail k192) sampleData).data :=
  ⟨by decide, by decide, by decide,
   (keysche_192_as_256 k192 zeroData sampleData (by decide) (by decide)).2.2.1⟩

/-! ## The branches marked `never reached` -/

theorem r128Bit3_cases (bit : Nat) : r128Bit3 bit = 0x00 ∨ r128Bit3 bit = 0x40 := by
  have h := Nat.and_two_pow bit 6
  have e : (0x40 : Nat) = 2 ^ 6 := by decide
  unfold r128Bit3 u8
  rw [e, h]
  cases bit.testBit 6
  · left; rfl
  · right; rfl

theorem r128Checked_eq (w : Nat × Nat) (bit : Nat) :
    r128Checked w bit = Except.ok (r128 w bit) := by
  have h := r128Bit3_cases bit
  unfold r128Bit3 at h
  unfold r128Checked r128
  rcases h with h | h <;> simp [h]

theorem keyscheStore128Checked_eq (kl ka : Nat × Nat) (data : CamelliaData) :
    keyscheStore128Checked kl ka data = Except.ok
      { data with
        kw1 := (r128 kl 0).1,   kw2 := (r128 kl 0).2,
        k1  := (r128 ka 0).1,   k2  := (r128 ka 0).2,
        k3  := (r128 kl 15).1,  k4  := (r128 kl 15).2,
        k5  := (r128 ka 15).1,  k6  := (r128 ka 15).2,
        ke1 := (r128 ka 30).1,  ke2 := (r128 ka 30).2,
        k7  := (r128 kl 45).1,  k8  := (r128 kl 45).2,
        k9  := (r128 ka 45).1,
        k10 := (r128 kl 60).2,
        k11 := (r128 ka 60).1,  k12 := (r128 ka 60).2,
        ke3 := (r128 kl 77).1,  ke4 := (r128 kl 77).2,
        k13 := (r128 kl 94).1,  k14 := (r128 kl 94).2,
        k15 := (r128 ka 94).1,  k16 := (r128 ka 94).2,
        k17 := (r128 kl 111).1, k18 := (r128 kl 111).2,
        kw3 := (r128 ka 111).1, kw4 := (r128 ka 111).2 } := by
  simp only [keyscheStore128Checked, r128Checked_eq]
  rfl

theorem keyscheStore256Checked_eq (kl kr ka kb : Nat × Nat) (data : CamelliaData) :
    keyscheStore256Checked kl kr ka kb data = Except.ok
      { data with
        kw1 := (r128 kl 0).1,   kw2 := (r128 kl 0).2,
        k1  := (r128 kb 0).1,   k2  := (r128 kb 0).2,
        k3  := (r128 kr 15).1,  k4  := (r128 kr 15).2,
        k5  := (r128 ka 15).1,  k6  := (r128 ka 15).2,
        ke1 := (r128 kr 30).1,  ke2 := (r128 kr 30).2,
        k7  := (r128 kb 30).1,  k8  := (r128 kb 30).2,
        k9  := (r128 kl 45).1,  k10 := (r128 kl 45).2,
        k11 := (r128 ka 45).1,  k12 := (r128 ka 45).2,
        ke3 := (r128 kl 60).1,  ke4 := (r128 kl 60).2,
        k13 := (r128 kr 60).1,  k14 := (r128 kr 60).2,
        k15 := (r128 kb 60).1,  k16 := (r128 kb 60).2,
        k17 := (r128 kl 77).1,  k18 := (r128 kl 77).2,
        ke5 := (r128 ka 77).1,  ke6 := (r128 ka 77).2,
        k19 := (r128 kr 94).1,  k20 := (r128 kr 94).2,
        k21 := (r128 ka 94).1,  k22 := (r128 ka 94).2,
        k23 := (r128 kl 111).1, k24 := (r128 kl 111).2,
        kw3 := (r128 kb 111).1, kw4 := (r128 kb 111).2 } := by
  simp only [keyscheStore256Checked, r128Checked_eq]
  rfl

theorem camelliaKeyscheChecked_eq (type : CamelliaKeytype) (k : List Nat)
    (data : CamelliaData) :
    camelliaKeyscheChecked type k data = Except.ok (camelliaKeysche type k data) := by
  by_cases h : type = Camellia128Encrypt ∨ type = Camellia192Encrypt ∨
      type = Camellia256Encrypt
  · rcases h with h | h | h <;> subst h <;>
      simp [camelliaKeyscheChecked, camelliaKeysche, keyscheKlKrChecked, keyscheKbChecked,
        keyscheStore128Checked_eq, keyscheStore256Checked_eq, Except.bind, kaPair, kbPair]
  · simp [camelliaKeyscheChecked, camelliaKeysche, h]

theorem camelliaKeyswapChecked_eq (data : CamelliaData) :
    camelliaKeyswapChecked data = Except.ok (camelliaKeyswap data) := by
  by_cases h : data.type = Camellia128Encrypt ∨ data.type = Camellia128Decrypt ∨
      data.type = Camellia192Encrypt ∨ data.type = Camellia192Decrypt ∨
      data.type = Camellia256Encrypt ∨ data.type = Camellia256Decrypt
  · rcases h with h | h | h | h | h | h <;>
      simp [camelliaKeyswapChecked, camelliaKeyswap, h, bind, Except.bind, pure, Except.pure]
  · simp [camelliaKeyswapChecked, camelliaKeyswap, h]

theorem camelliaDatarandChecked_eq (m : List Nat) (data : CamelliaData) (c : List Nat) :
    camelliaDatarandChecked m data c = Except.ok (camelliaDatarand m data c) := by
  by_cases h : data.type = Camellia128Encrypt ∨ data.type = Camellia128Decrypt ∨
      data.type = Camellia192Encrypt ∨ data.type = Camellia192Decrypt ∨
      data.type = Camellia256Encrypt ∨ data.type = Camellia256Decrypt
  · rcases h with h | h | h | h | h | h <;>
      simp [camelliaDatarandChecked, camelliaDatarand, h, bind, Except.bind, pure,
        Except.pure]
  · simp [camelliaDatarandChecked, camelliaDatarand, h]

/-- C23: no branch marked `never reached` is reachable. For every input, the
selector `bit & 0x40` of the switch in `r128` is `0x00` or `0x40`, and `r128`,
`camelliaKeysche`, `camelliaKeyswap` and `camelliaDatarand`, run with their
`default` labels made explicit (`ASSERT(0)` as `assert0`, the late
`default: goto error` of `camelliaKeyswap` as `lateError`), never take one of
them: each returns normally, with the result of the function itself. -/
theorem never_reached_branches :
    (∀ bit : Nat, r128Bit3 bit = 0x00 ∨ r128Bit3 bit = 0x40) ∧
    (∀ (w : Nat × Nat) (bit : Nat), r128Checked w bit = Except.ok (r128 w bit)) ∧
    (∀ (type : CamelliaKeytype) (k : List Nat) (data : CamelliaData),
      camelliaKeyscheChecked type k data = Except.ok (camelliaKeysche type k data)) ∧
    (∀ data : CamelliaData,
      camelliaKeyswapChecked data = Except.ok (camelliaKeyswap data)) ∧
    (∀ (m : List Nat) (data : CamelliaData) (c : List Nat),
      camelliaDatarandChecked m data c = Except.ok (camelliaDatarand m data c)) :=
  ⟨r128Bit3_cases, r128Checked_eq, camelliaKeyscheChecked_eq, camelliaKeyswapChecked_eq,
    camelliaDatarandChecked_eq⟩

/-! ## Rotation by 32 bits and the shift counts -/

theorem and_1f_eq_mod (bit : Nat) : bit &&& 0x1f = bit % 32 :=
  Nat.and_pow_two_sub_one_eq_mod bit 5

theorem and_3f_eq_mod (bit : Nat) : bit &&& 0x3f = bit % 64 :=
  Nat.and_pow_two_sub_one_eq_mod bit 6

theorem r32Bit1_eq (bit : Nat) : r32Bit1 bit = bit % 32 := by
  unfold r32Bit1 u32
  rw [and_1f_eq_mod]
  omega

theorem r32Bit2_eq (bit : Nat) : r32Bit2 bit = 32 - bit % 32 := by
  unfold r32Bit2 u32
  rw [r32Bit1_eq]
  omega

theorem r128Bit1_eq (bit : Nat) : r128Bit1 bit = bit % 64 := by
  unfold r128Bit1 u8
  rw [and_3f_eq_mod]
  omega

theorem r128Bit2_eq (bit : Nat) : r128Bit2 bit = 64 - bit % 64 := by
  unfold r128Bit2 u8
  rw [r128Bit1_eq]
  omega

theorem r32_eq_counts (x bit : Nat) :
    r32 x bit =
      if r32Bit1 bit > 0 then u32 (x <<< r32Bit1 bit) ||| x >>> r32Bit2 bit else x := rfl

theorem r128_eq_counts (w : Nat × Nat) (bit : Nat) :
    r128 w bit =
      if r128Bit3 bit = 0x00 then
        (if r128Bit1 bit > 0 then u64 (w.1 <<< r128Bit1 bit) ||| w.2 >>> r128Bit2 bit
           else w.1,
         if r128Bit1 bit > 0 then u64 (w.2 <<< r128Bit1 bit) ||| w.1 >>> r128Bit2 bit
           else w.2)
      else if r128Bit3 bit = 0x40 then
        (if r128Bit1 bit > 0 then u64 (w.2 <<< r128Bit1 bit) ||| w.1 >>> r128Bit2 bit
           else w.2,
         if r128Bit1 bit > 0 then u64 (w.1 <<< r128Bit1 bit) ||| w.2 >>> r128Bit2 bit
           else w.1)
      else
        (if r128Bit1 bit > 0 then u64 (w.1 <<< r128Bit1 bit) ||| w.2 >>> r128Bit2 bit
           else w.1,
         if r128Bit1 bit > 0 then u64 (w.2 <<< r128Bit1 bit) ||| w.1 >>> r128Bit2 bit
           else w.2) := rfl

/-- C21: `r32` is a true 32-bit left rotation by `n mod 32`. For every 32-bit
`x` and every count `n` (in particular every 8-bit one),
`r32 x n = ((x * 2^(n mod 32)) mod 2^32) OR (x div 2^(32 - n mod 32))`, and
`r32 x n = x` whenever `n mod 32 = 0`, in particular for `n = 0`. -/
theorem r32_true_rotation (x n : Nat) (hx : x < 2 ^ 32) :
    r32 x n = (x * 2 ^ (n % 32)) % 2 ^ 32 ||| x / 2 ^ (32 - n % 32) ∧
    (n % 32 = 0 → r32 x n = x) ∧
    r32 x 0 = x := by
  have h0 : n % 32 = 0 → r32 x n = x := by
    intro h
    rw [r32_eq_counts, r32Bit1_eq, h]
    rfl
  refine ⟨?_, h0, rfl⟩
  by_cases h : n % 32 = 0
  · rw [h0 h, h]
    have e : x / 2 ^ (32 - 0) = 0 := Nat.div_eq_of_lt hx
    rw [e, Nat.pow_zero, Nat.mul_one, Nat.mod_eq_of_lt hx, Nat.or_zero]
  · rw [r32_eq_counts, r32Bit1_eq, r32Bit2_eq, if_pos (by omega)]
    simp only [u32, Nat.shiftLeft_eq, Nat.shiftRight_eq_div_pow]

/-- Witness for C21: the upper half of the first test-key word, rotated by 33. -/
theorem r32_true_rotation_witness :
    (0x01234567 : Nat) < 2 ^ 32 ∧
    r32 0x01234567 33 =
      (0x01234567 * 2 ^ (33 % 32)) % 2 ^ 32 ||| 0x01234567 / 2 ^ (32 - 33 % 32) :=
  ⟨by decide, (r32_true_rotation 0x01234567 33 (by decide)).1⟩

/-- C24: every shift executed by the rotation helpers has a count strictly
inside the operand width. For every rotation count `bit` (in particular every
8-bit one): `r32` shifts exactly when its `bit1 > 0`, and then `bit1` and
`bit2 = 32 - bit1` both lie in `1..31`; `r128` shifts exactly when its
`bit1 > 0`, and then `bit1` and `bit2 = 64 - bit1` both lie in `1..63`; when
`bit1 = 0` no shift is executed: `r32` returns its input, and `r128` returns the
two input halves, exchanged or not as the selector `bit3` says. -/
theorem shift_counts_in_range (bit : Nat) :
    (∀ x : Nat, r32 x bit =
      if r32Bit1 bit > 0 then u32 (x <<< r32Bit1 bit) ||| x >>> r32Bit2 bit else x) ∧
    (r32Bit1 bit > 0 →
      1 ≤ r32Bit1 bit ∧ r32Bit1 bit ≤ 31 ∧ 1 ≤ r32Bit2 bit ∧ r32Bit2 bit ≤ 31 ∧
      r32Bit2 bit = 32 - r32Bit1 bit) ∧
    (r32Bit1 bit = 0 → ∀ x : Nat, r32 x bit = x) ∧
    (∀ w : Nat × Nat, r128 w bit =
      if r128Bit3 bit = 0x00 then
        (if r128Bit1 bit > 0 then u64 (w.1 <<< r128Bit1 bit) ||| w.2 >>> r128Bit2 bit
           else w.1,
         if r128Bit1 bit > 0 then u64 (w.2 <<< r128Bit1 bit) ||| w.1 >>> r128Bit2 bit
           else w.2)
      else if r128Bit3 bit = 0x40 then
        (if r128Bit1 bit > 0 then u64 (w.2 <<< r128Bit1 bit) ||| w.1 >>> r128Bit2 bit
           else w.2,
         if r128Bit1 bit > 0 then u64 (w.1 <<< r128Bit1 bit) ||| w.2 >>> r128Bit2 bit
           else w.1)
      else
        (if r128Bit1 bit > 0 then u64 (w.1 <<< r128Bit1 bit) ||| w.2 >>> r128Bit2 bit
           else w.1,
         if r128Bit1 bit > 0 then u64 (w.2 <<< r128Bit1 bit) ||| w.1 >>> r128Bit2 bit
           else w.2)) ∧
    (r128Bit1 bit > 0 →
      1 ≤ r128Bit1 bit ∧ r128Bit1 bit ≤ 63 ∧ 1 ≤ r128Bit2 bit ∧ r128Bit2 bit ≤ 63 ∧
      r128Bit2 bit = 64 - r128Bit1 bit) ∧
    (r128Bit1 bit = 0 → ∀ w : Nat × Nat,
      r128 w bit = if r128Bit3 bit = 0x40 then (w.2, w.1) else (w.1, w.2)) := by
  have a1 := r32Bit1_eq bit
  have a2 := r32Bit2_eq bit
  have b1 := r128Bit1_eq bit
  have b2 := r128Bit2_eq bit
  refine ⟨fun x => r32_eq_counts x bit, fun h => by omega, ?_,
    fun w => r128_eq_counts w bit, fun h => by omega, ?_⟩
  · intro h x
    rw [r32_eq_counts, h]
    rfl
  · intro h w
    rw [r128_eq_counts, h]
    rcases r128Bit3_cases bit with h3 | h3 <;> rw [h3] <;> rfl

/-- Witness for C24: the count 77 (`bit1 = 13` in both helpers) and the count 64
(`bit1 = 0`). -/
theorem shift_counts_in_range_witness :
    (r32Bit1 77 > 0 ∧ r32Bit1 77 = 13 ∧ r32Bit2 77 = 19) ∧
    (r128Bit1 77 > 0 ∧ r128Bit1 77 = 13 ∧ r128Bit2 77 = 51) ∧
    (r32Bit1 64 = 0 ∧ r32 0x01234567 64 = 0x01234567) ∧
    (r128Bit1 64 = 0 ∧ r128 (1, 2) 64 = (2, 1)) :=
  ⟨⟨by decide, by decide, ((shift_counts_in_range 77).2.1 (by decide)).2.2.2.2⟩,
   ⟨by decide, by decide, ((shift_counts_in_range 77).2.2.2.2.1 (by decide)).2.2.2.2⟩,
   ⟨by decide, (shift_counts_in_range 64).2.2.1 (by decide) 0x01234567⟩,
   ⟨by decide, (shift_counts_in_range 64).2.2.2.2.2 (by decide) (1, 2)⟩⟩

/-! ## The S-boxes as permutations -/

theorem getD_surj_of_mem (l : List Nat) (v : Nat) (h : v ∈ l) :
    ∃ z, z < l.length ∧ l.getD z 0 = v := by
  obtain ⟨z, hz, e⟩ := List.getElem_of_mem h
  exact ⟨z, hz, by rw [List.getD_eq_getElem l 0 hz]; exact e⟩

theorem getD_perm_of_mem (l : List Nat) (hlen : l.length = 256)
    (hlt : ∀ i, l.getD i 0 < 256) (hm : ∀ v, v < 256 → v ∈ l) :
    (∀ x y, x < 256 → y < 256 → l.getD x 0 = l.getD y 0 → x = y) ∧
    (∀ v, v < 256 → ∃ z, z < 256 ∧ l.getD z 0 = v) := by
  have hs : ∀ v, v < 256 → ∃ z, z < 256 ∧ l.getD z 0 = v := by
    intro v hv
    have := getD_surj_of_mem l v (hm v hv)
    rwa [hlen] at this
  refine ⟨?_, hs⟩
  have hsurj : Function.Surjective (fun i : Fin 256 => (⟨l.getD i.1 0, hlt i.1⟩ : Fin 256)) := by
    intro v
    obtain ⟨z, hz, e⟩ := hs v.1 v.2
    exact ⟨⟨z, hz⟩, Fin.ext e⟩
  have hinj := Finite.injective_iff_surjective.mpr hsurj
  intro x y hx hy h
  have := @hinj ⟨x, hx⟩ ⟨y, hy⟩ (Fin.ext h)
  exact congrArg Fin.val this

theorem sbox1_mem (v : Nat) (hv : v < 256) : v ∈ sbox1 := by
  have h : ∀ z, z < 256 → z ∈ sbox1 := by decide!
  exact h v hv

theorem sbox2_mem (v : Nat) (hv : v < 256) : v ∈ sbox2 := by
  have h : ∀ z, z < 256 → z ∈ sbox2 := by decide!
  exact h v hv

theorem sbox3_mem (v : Nat) (hv : v < 256) : v ∈ sbox3 := by
  have h : ∀ z, z < 256 → z ∈ sbox3 := by decide!
  exact h v hv

theorem sbox4_mem (v : Nat) (hv : v < 256) : v ∈ sbox4 := by
  have h : ∀ z, z < 256 → z ∈ sbox4 := by decide!
  exact h v hv

/-- C25: each of the four embedded S-box tables is a permutation of the byte
values `0..255`. For each table and all `x`, `y` in `0..255`, equal entries
`table[x] = table[y]` force `x = y`; every entry is a byte, and every byte
value `x` occurs as an entry. -/
theorem sbox_permutation (x y : Nat) (hx : x < 256) (hy : y < 256) :
    ((sbox1.getD x 0 = sbox1.getD y 0 → x = y) ∧
     (sbox2.getD x 0 = sbox2.getD y 0 → x = y) ∧
     (sbox3.getD x 0 = sbox3.getD y 0 → x = y) ∧
     (sbox4.getD x 0 = sbox4.getD y 0 → x = y)) ∧
    (sbox1.getD x 0 < 256 ∧ sbox2.getD x 0 < 256 ∧ sbox3.getD x 0 < 256 ∧
     sbox4.getD x 0 < 256) ∧
    ((∃ z, z < 256 ∧ sbox1.getD z 0 = x) ∧ (∃ z, z < 256 ∧ sbox2.getD z 0 = x) ∧
     (∃ z, z < 256 ∧ sbox3.getD z 0 = x) ∧ (∃ z, z < 256 ∧ sbox4.getD z 0 = x)) := by
  have p1 := getD_perm_of_mem sbox1 (by decide!) sbox1_lt sbox1_mem
  have p2 := getD_perm_of_mem sbox2 (by decide!) sbox2_lt sbox2_mem
  have p3 := getD_perm_of_mem sbox3 (by decide!) sbox3_lt sbox3_mem
  have p4 := getD_perm_of_mem sbox4 (by decide!) sbox4_lt sbox4_mem
  exact ⟨⟨p1.1 x y hx hy, p2.1 x y hx hy, p3.1 x y hx hy, p4.1 x y hx hy⟩,
    ⟨sbox1_lt x, sbox2_lt x, sbox3_lt x, sbox4_lt x⟩,
    ⟨p1.2 x hx, p2.2 x hx, p3.2 x hx, p4.2 x hx⟩⟩

/-- Witness for C25: the bytes `0x12` and `0xa5` have different entries in
`sbox1`. -/
theorem sbox_permutation_witness :
    (0x12 : Nat) < 256 ∧ (0xa5 : Nat) < 256 ∧
    (sbox1.getD 0x12 0 = sbox1.getD 0xa5 0 → (0x12 : Nat) = 0xa5) ∧
    sbox1.getD 0x12 0 = 107 ∧ sbox1.getD 0xa5 0 = 74 :=
  ⟨by decide, by decide, (sbox_permutation 0x12 0xa5 (by decide) (by decide)).1.1,
   by decide, by decide⟩

/-! ## FL and FLINV over XOR -/

theorem u32_xor (a b : Nat) : u32 (a ^^^ b) = u32 a ^^^ u32 b := by
  apply Nat.eq_of_testBit_eq
  intro i
  simp only [u32, Nat.testBit_mod_two_pow, Nat.testBit_xor]
  cases decide (i < 32) <;> cases a.testBit i <;> cases b.testBit i <;> rfl

theorem shr_xor (a b n : Nat) : (a ^^^ b) >>> n = a >>> n ^^^ b >>> n := by
  apply Nat.eq_of_testBit_eq
  intro i
  simp only [Nat.testBit_shiftRight, Nat.testBit_xor]

theorem shl_xor (a b n : Nat) : (a ^^^ b) <<< n = a <<< n ^^^ b <<< n := by
  apply Nat.eq_of_testBit_eq
  intro i
  simp only [Nat.testBit_shiftLeft, Nat.testBit_xor]
  cases decide (i ≥ n) <;> cases a.testBit (i - n) <;> cases b.testBit (i - n) <;> rfl

theorem lor_eq_xor (a b s : Nat) (ha : a % 2 ^ s = 0) (hb : b < 2 ^ s) :
    a ||| b = a ^^^ b := by
  apply Nat.eq_of_testBit_eq
  intro i
  simp only [Nat.testBit_or, Nat.testBit_xor]
  by_cases hi : i < s
  · have h := Nat.testBit_mod_two_pow a s i
    rw [ha, Nat.zero_testBit] at h
    have e : a.testBit i = false := by
      simpa [hi] using h.symm
    rw [e]
    cases b.testBit i <;> rfl
  · have e : b.testBit i = false :=
      Nat.testBit_lt_two_pow (Nat.lt_of_lt_of_le hb
        (Nat.pow_le_pow_right (by decide) (Nat.le_of_not_lt hi)))
    rw [e]
    cases a.testBit i <;> rfl

theorem lor_xor_affine (a b k : Nat) :
    (a ^^^ b) ||| k = (a ||| k) ^^^ (b ||| k) ^^^ k := by
  apply Nat.eq_of_testBit_eq
  intro i
  simp only [Nat.testBit_or, Nat.testBit_xor]
  cases a.testBit i <;> cases b.testBit i <;> cases k.testBit i <;> rfl

theorem r32_one_eq_xor (d : Nat) (h : d < 2 ^ 32) :
    r32 d 1 = u32 (d <<< 1) ^^^ d >>> 31 := by
  have e : r32 d 1 = u32 (d <<< 1) ||| d >>> 31 := by
    simp [r32, u32]
  rw [e]
  apply lor_eq_xor _ _ 1
  · simp only [u32, Nat.shiftLeft_eq]; omega
  · rw [Nat.shiftRight_eq_div_pow]; omega

theorem r32_one_xor (a b : Nat) (ha : a < 2 ^ 32) (hb : b < 2 ^ 32) :
    r32 (a ^^^ b) 1 = r32 a 1 ^^^ r32 b 1 := by
  rw [r32_one_eq_xor _ (Nat.xor_lt_two_pow ha hb), r32_one_eq_xor _ ha, r32_one_eq_xor _ hb,
    shl_xor, u32_xor, shr_xor]
  ac_rfl

theorem pack32_eq_xor (a b : Nat) (ha : a < 2 ^ 32) (hb : b < 2 ^ 32) :
    u64 (a <<< 32) ||| b = a <<< 32 ^^^ b := by
  have e : u64 (a <<< 32) = a <<< 32 := by
    simp only [u64, Nat.shiftLeft_eq]; omega
  rw [e]
  apply lor_eq_xor _ _ 32 _ hb
  rw [Nat.shiftLeft_eq]
  exact Nat.mul_mod_left _ _

theorem xor_shuffle6 (A B C d e g : Nat) :
    A ^^^ B ^^^ C ^^^ (d ^^^ e ^^^ g) = A ^^^ d ^^^ (B ^^^ e) ^^^ (C ^^^ g) := by
  ac_rfl

theorem pack32_xor3 (a b c d e g : Nat) (ha : a < 2 ^ 32) (hb : b < 2 ^ 32)
    (hc : c < 2 ^ 32) (hd : d < 2 ^ 32) (he : e < 2 ^ 32) (hg : g < 2 ^ 32) :
    u64 ((a ^^^ b ^^^ c) <<< 32) ||| (d ^^^ e ^^^ g) =
      (u64 (a <<< 32) ||| d) ^^^ (u64 (b <<< 32) ||| e) ^^^ (u64 (c <<< 32) ||| g) := by
  rw [pack32_eq_xor _ _ (Nat.xor_lt_two_pow (Nat.xor_lt_two_pow ha hb) hc)
      (Nat.xor_lt_two_pow (Nat.xor_lt_two_pow hd he) hg),
    pack32_eq_xor _ _ ha hd, pack32_eq_xor _ _ hb he, pack32_eq_xor _ _ hc hg,
    shl_xor, shl_xor]
  exact xor_shuffle6 _ _ _ _ _ _

theorem fl_zero (ke : Nat) : fl 0 ke = u64 (u32 ke <<< 32) ||| 0 := by
  have e1 : u32 (0 >>> 32) = 0 := by decide
  have e2 : u32 0 = 0 := by decide
  have e3 : r32 0 1 = 0 := by decide
  simp only [fl, e1, e2, Nat.zero_and, e3, Nat.zero_xor, Nat.zero_or]

theorem fl_affine (x y ke : Nat) :
    fl (x ^^^ y) ke = fl x ke ^^^ fl y ke ^^^ fl 0 ke := by
  have hX1 := u32_lt (x >>> 32)
  have hY1 := u32_lt (y >>> 32)
  have hX2 := u32_lt x
  have hY2 := u32_lt y
  have hk1 := u32_lt (ke >>> 32)
  have hk2 := u32_lt ke
  have hRX := r32_one_lt _ (Nat.and_lt_two_pow (u32 (x >>> 32)) hk1)
  have hRY := r32_one_lt _ (Nat.and_lt_two_pow (u32 (y >>> 32)) hk1)
  have hX2' := Nat.xor_lt_two_pow hX2 hRX
  have hY2' := Nat.xor_lt_two_pow hY2 hRY
  have hX1' := Nat.xor_lt_two_pow hX1 (Nat.or_lt_two_pow hX2' hk2)
  have hY1' := Nat.xor_lt_two_pow hY1 (Nat.or_lt_two_pow hY2' hk2)
  rw [fl_zero]
  simp only [fl]
  rw [shr_xor, u32_xor, u32_xor, Nat.and_xor_distrib_right,
    r32_one_xor _ _ (Nat.and_lt_two_pow _ hk1) (Nat.and_lt_two_pow _ hk1)]
  have e2 : u32 x ^^^ u32 y ^^^
      (r32 (u32 (x >>> 32) &&& u32 (ke >>> 32)) 1 ^^^
        r32 (u32 (y >>> 32) &&& u32 (ke >>> 32)) 1) =
      (u32 x ^^^ r32 (u32 (x >>> 32) &&& u32 (ke >>> 32)) 1) ^^^
      (u32 y ^^^ r32 (u32 (y >>> 32) &&& u32 (ke >>> 32)) 1) ^^^ 0 := by
    rw [Nat.xor_zero]
    ac_rfl
  rw [e2]
  have e1 : u32 (x >>> 32) ^^^ u32 (y >>> 32) ^^^
      ((u32 x ^^^ r32 (u32 (x >>> 32) &&& u32 (ke >>> 32)) 1) ^^^
        (u32 y ^^^ r32 (u32 (y >>> 32) &&& u32 (ke >>> 32)) 1) ^^^ 0 ||| u32 ke) =
      (u32 (x >>> 32) ^^^
        ((u32 x ^^^ r32 (u32 (x >>> 32) &&& u32 (ke >>> 32)) 1) ||| u32 ke)) ^^^
      (u32 (y >>> 32) ^^^
        ((u32 y ^^^ r32 (u32 (y >>> 32) &&& u32 (ke >>> 32)) 1) ||| u32 ke)) ^^^
      u32 ke := by
    rw [Nat.xor_zero, lor_xor_affine]
    ac_rfl
  rw [e1]
  exact pack32_xor3 _ _ _ _ _ _ hX1' hY1' hk2 hX2' hY2' (by decide)

theorem flinv_zero (ke : Nat) :
    flinv 0 ke = u64 (u32 ke <<< 32) ||| r32 (u32 ke &&& u32 (ke >>> 32)) 1 := by
  have e1 : u32 (0 >>> 32) = 0 := by decide
  have e2 : u32 0 = 0 := by decide
  simp only [flinv, e1, e2, Nat.zero_xor, Nat.zero_or]

theorem xor_shuffle5 (a b c d e : Nat) :
    a ^^^ b ^^^ (c ^^^ d ^^^ e) = a ^^^ c ^^^ (b ^^^ d) ^^^ e := by
  ac_rfl

theorem flinv_affine (x y ke : Nat) :
    flinv (x ^^^ y) ke = flinv x ke ^^^ flinv y ke ^^^ flinv 0 ke := by
  have hX1 := u32_lt (x >>> 32)
  have hY1 := u32_lt (y >>> 32)
  have hX2 := u32_lt x
  have hY2 := u32_lt y
  have hk1 := u32_lt (ke >>> 32)
  have hk2 := u32_lt ke
  have hX1' := Nat.xor_lt_two_pow hX1 (Nat.or_lt_two_pow hX2 hk2)
  have hY1' := Nat.xor_lt_two_pow hY1 (Nat.or_lt_two_pow hY2 hk2)
  have hRX := r32_one_lt _
    (Nat.and_lt_two_pow (u32 (x >>> 32) ^^^ (u32 x ||| u32 ke)) hk1)
  have hRY := r32_one_lt _
    (Nat.and_lt_two_pow (u32 (y >>> 32) ^^^ (u32 y ||| u32 ke)) hk1)
  have hRZ := r32_one_lt _ (Nat.and_lt_two_pow (u32 ke) hk1)
  have hX2' := Nat.xor_lt_two_pow hX2 hRX
  have hY2' := Nat.xor_lt_two_pow hY2 hRY
  rw [flinv_zero]
  simp only [flinv]
  rw [shr_xor, u32_xor, u32_xor, lor_xor_affine]
  have e1 : u32 (x >>> 32) ^^^ u32 (y >>> 32) ^^^
      ((u32 x ||| u32 ke) ^^^ (u32 y ||| u32 ke) ^^^ u32 ke) =
      (u32 (x >>> 32) ^^^ (u32 x ||| u32 ke)) ^^^
      (u32 (y >>> 32) ^^^ (u32 y ||| u32 ke)) ^^^ u32 ke :=
    xor_shuffle5 _ _ _ _ _
  rw [e1, Nat.and_xor_distrib_right, Nat.and_xor_distrib_right,
    r32_one_xor _ _ (Nat.xor_lt_two_pow (Nat.and_lt_two_pow _ hk1) (Nat.and_lt_two_pow _ hk1))
      (Nat.and_lt_two_pow _ hk1),
    r32_one_xor _ _ (Nat.and_lt_two_pow _ hk1) (Nat.and_lt_two_pow _ hk1)]
  have e2 : u32 x ^^^ u32 y ^^^
      (r32 ((u32 (x >>> 32) ^^^ (u32 x ||| u32 ke)) &&& u32 (ke >>> 32)) 1 ^^^
        r32 ((u32 (y >>> 32) ^^^ (u32 y ||| u32 ke)) &&& u32 (ke >>> 32)) 1 ^^^
        r32 (u32 ke &&& u32 (ke >>> 32)) 1) =
      (u32 x ^^^ r32 ((u32 (x >>> 32) ^^^ (u32 x ||| u32 ke)) &&& u32 (ke >>> 32)) 1) ^^^
      (u32 y ^^^ r32 ((u32 (y >>> 32) ^^^ (u32 y ||| u32 ke)) &&& u32 (ke >>> 32)) 1) ^^^
      r32 (u32 ke &&& u32 (ke >>> 32)) 1 :=
    xor_shuffle5 _ _ _ _ _
  rw [e2]
  exact pack32_xor3 _ _ _ _ _ _ hX1' hY1' hk2 hX2' hY2' hRZ

theorem pack32_eq_zero (a b : Nat) (ha : a < 2 ^ 32) (hb : b < 2 ^ 32)
    (h : u64 (a <<< 32) ||| b = 0) : a = 0 := by
  have e : u64 (a <<< 32) = a * 2 ^ 32 := by
    simp only [u64, Nat.shiftLeft_eq]; omega
  rw [e, lor_add _ _ 32 (by omega) hb] at h
  omega

theorem fl_zero_eq_zero_iff (ke : Nat) : fl 0 ke = 0 ↔ u32 ke = 0 := by
  rw [fl_zero]
  constructor
  · intro h
    exact pack32_eq_zero _ _ (u32_lt ke) (by decide) h
  · intro h
    rw [h]
    decide

theorem flinv_zero_eq_zero_iff (ke : Nat) : flinv 0 ke = 0 ↔ u32 ke = 0 := by
  rw [flinv_zero]
  constructor
  · intro h
    exact pack32_eq_zero _ _ (u32_lt ke)
      (r32_one_lt _ (Nat.and_lt_two_pow (u32 ke) (u32_lt (ke >>> 32)))) h
  · intro h
    rw [h, Nat.zero_and]
    decide

/-- Counterexample to C22 as stated: with the 64-bit key `ke = 1` and
`x = y = 0`, `fl (x XOR y) ke` is `2^32` while `fl x ke XOR fl y ke` is `0`, and
`flinv (x XOR y) ke` is `2^32` while `flinv x ke XOR flinv y ke` is `0`. -/
theorem fl_flinv_not_linear :
    fl (0 ^^^ 0) 1 = 2 ^ 32 ∧ fl 0 1 ^^^ fl 0 1 = 0 ∧
    fl (0 ^^^ 0) 1 ≠ fl 0 1 ^^^ fl 0 1 ∧
    flinv (0 ^^^ 0) 1 = 2 ^ 32 ∧ flinv 0 1 ^^^ flinv 0 1 = 0 ∧
    flinv (0 ^^^ 0) 1 ≠ flinv 0 1 ^^^ flinv 0 1 := by
  decide

/-- C22 (amended): `fl` and `flinv` are key-dependent affine maps over XOR. For
every key `ke` and all `x`, `y`,
`fl (x XOR y) ke = fl x ke XOR fl y ke XOR fl 0 ke` and
`flinv (x XOR y) ke = flinv x ke XOR flinv y ke XOR flinv 0 ke`; the identity
without the third term holds for all `x`, `y` exactly when the lower 32 bits of
`ke` are zero. -/
theorem fl_flinv_affine (x y ke : Nat) :
    fl (x ^^^ y) ke = fl x ke ^^^ fl y ke ^^^ fl 0 ke ∧
    flinv (x ^^^ y) ke = flinv x ke ^^^ flinv y ke ^^^ flinv 0 ke ∧
    ((∀ a b : Nat, fl (a ^^^ b) ke = fl a ke ^^^ fl b ke) ↔ u32 ke = 0) ∧
    ((∀ a b : Nat, flinv (a ^^^ b) ke = flinv a ke ^^^ flinv b ke) ↔ u32 ke = 0) := by
  refine ⟨fl_affine x y ke, flinv_affine x y ke, ⟨?_, ?_⟩, ⟨?_, ?_⟩⟩
  · intro h
    have h0 := h 0 0
    rw [Nat.xor_self, Nat.xor_self] at h0
    exact (fl_zero_eq_zero_iff ke).mp h0
  · intro h a b
    rw [fl_affine a b ke, (fl_zero_eq_zero_iff ke).mpr h, Nat.xor_zero]
  · intro h
    have h0 := h 0 0
    rw [Nat.xor_self, Nat.xor_self] at h0
    exact (flinv_zero_eq_zero_iff ke).mp h0
  · intro h a b
    rw [flinv_affine a b ke, (flinv_zero_eq_zero_iff ke).mpr h, Nat.xor_zero]

/-- Witness for C22 (amended): with the key Σ1, whose lower 32 bits are not zero,
the third term is needed; with the key `2^32`, whose lower 32 bits are zero, the
two-term identity holds. -/
theorem fl_flinv_affine_witness :
    fl (0x0123456789abcdef ^^^ 0xfedcba9876543210) sigma1 =
      fl 0x0123456789abcdef sigma1 ^^^ fl 0xfedcba9876543210 sigma1 ^^^ fl 0 sigma1 ∧
    (u32 (2 ^ 32) = 0 ∧
      fl (0x0123456789abcdef ^^^ 0xfedcba9876543210) (2 ^ 32) =
        fl 0x0123456789abcdef (2 ^ 32) ^^^ fl 0xfedcba9876543210 (2 ^ 32)) :=
  ⟨(fl_flinv_affine 0x0123456789abcdef 0xfedcba9876543210 sigma1).1,
   by decide,
   (fl_flinv_affine 0 0 (2 ^ 32)).2.2.1.mpr (by decide) 0x0123456789abcdef
     0xfedcba9876543210⟩

end Camellia
